import Mathlib

/-!
# Clight, LOCATION module (`src/modules/location.c`) and configuration file (`src/conf/config.c`)

A shallow embedding of the location module and of the configuration reader and writer of
the Clight daemon, and theorems about them.

Modelling conventions.

* A C `double` is a rational number (`ℚ`); NaN and the infinities are outside the model.
  Text read from the cache file is rounded to the nearest binary64 value
  (`round_binary64`), the exponent range being taken as unbounded.
* The global variables of the translation unit (`state`, `conf`, `slot`, `client`,
  `cache_file`), the subscriptions of the module, the file system and the list of
  calls made to the outside are the fields of `World`.
* Everything the source reaches through headers that are not part of the sources at hand
  (sentinel constants, results of D-Bus calls, environment variables, timers) is a field
  of `Env`.
* The message bus is not part of the sources at hand. Publishing records the message on
  the trace together with the shared location at that moment and then delivers it,
  synchronously, to the module itself when it is subscribed to the kind (`bus`). A
  number `fuel` bounds the nesting of deliveries; two levels are all the module ever
  needs, and the theorems are stated for `fuel + 2` (or less where less is enough).
* Logging (`INFO`, `WARN`, `DEBUG`) has no effect on the modelled state and is left out.
* The library libconfig is seen through the tree of settings it parses a file into and
  writes a file from; the sizes of the arrays of `conf` come from a header that is not
  part of the sources at hand and are fields of `conf_env`.
-/

namespace Clight

/-! ## Data model -/

/-- A location: `loc_t` of the daemon, a latitude and a longitude. -/
structure loc_t where
  lat : ℚ
  lon : ℚ
deriving DecidableEq

/-- Payload of the location messages: `loc_upd`, the old and the new location. -/
structure loc_upd where
  old : loc_t
  new : loc_t
deriving DecidableEq

/-- Message kinds, `enum mod_msg_types`. Only the kinds the location module names are
listed one by one; `OTHER n` stands for any other kind of the closed set. -/
inductive mod_msg_types where
  | SYSTEM_UPD
  | FD_UPD
  | LOC_UPD
  | LOCATION_REQ
  | OTHER (n : Nat)
deriving DecidableEq

/-- A bus message, `message_t`: its kind and (for the location kinds) its payload. -/
structure message_t where
  type : mod_msg_types
  loc : loc_upd
deriving DecidableEq

/-- What a module receives, `msg_t`: either the readiness of a registered descriptor or a
published message. -/
inductive msg_t where
  | fd_msg (fd : Int)
  | ps_msg (message : message_t)
deriving DecidableEq

/-- The two messages the module declares with `DECLARE_MSG`. -/
inductive declared_msg where
  | loc_msg
  | loc_req
deriving DecidableEq

/-- Kind fixed by `DECLARE_MSG(loc_msg, LOC_UPD)` and `DECLARE_MSG(loc_req, LOCATION_REQ)`. -/
def declared_msg.type : declared_msg → mod_msg_types
  | declared_msg.loc_msg => mod_msg_types.LOC_UPD
  | declared_msg.loc_req => mod_msg_types.LOCATION_REQ

/-- Arguments of a D-Bus call as built by `SYSBUS_ARG`. -/
structure bus_args where
  service : String
  path : String
  interface : String
  member : String
deriving DecidableEq

/-- The signal handed to `on_geoclue_new_location`: two object paths. -/
structure sd_bus_message where
  old_location : String
  new_location : String
deriving DecidableEq

/-- Calls the module makes to the framework, the bus and the C library, in the order made.
`M_PUB l cur` records the published message together with the value `state.current_loc`
had when `M_PUB` was called. -/
inductive Effect where
  | M_SUB (type : mod_msg_types)
  | start_timer (start_s : Nat) (start_ns : Nat)
  | m_register_fd (fd : Int) (autoclose : Bool)
  | m_poisonpill
  | M_PUB (l : message_t) (cur : loc_t)
  | read_timer (fd : Int)
  | call (args : bus_args)
  | add_match (args : bus_args)
  | set_property (args : bus_args)
  | get_property (args : bus_args)
  | fopen (path : String) (mode : String)
  | fprintf (path : String) (text : String)
  | sd_bus_slot_unref
deriving DecidableEq

/-- Shared daemon state, `state`: the part the location module touches. -/
structure state_t where
  current_loc : loc_t
deriving DecidableEq

/-- The two day events strings of the configuration, `conf.day_events`. -/
structure day_events_t where
  SUNRISE : String
  SUNSET : String
deriving DecidableEq

/-- Configuration, `conf`: the part the location module reads. -/
structure conf_t where
  no_gamma : Bool
  loc : loc_t
  day_events : day_events_t
deriving DecidableEq

/-- Everything the module can read or change. -/
structure World where
  state : state_t
  conf : conf_t
  slot : Option Nat
  client : String
  cache_file : String
  subscribed : List mod_msg_types
  files : List (String × String)
  trace : List Effect
deriving DecidableEq

/-- Constants of headers that are not among the sources at hand, and answers of the
outside world: the environment, the geolocation service, the timer and the file
system. -/
structure Env where
  LAT_UNDEFINED : ℚ
  LON_UNDEFINED : ℚ
  XDG_CACHE_HOME : Option String
  pw_dir : String
  GetClient : Int × Option String
  LocationUpdated : Int × Option Nat
  Start : Int
  timer_fd : Int
  get_property : bus_args → Int × ℚ
  fopen_w : String → Bool

/-- Record one call at the end of the trace. -/
def emit (e : Effect) (w : World) : World :=
  { w with trace := w.trace ++ [e] }

/-- The constant `PATH_MAX` of `limits.h` on Linux. -/
def PATH_MAX : Nat := 4096

/-! ## C library: `"%lf"` output and input -/

/-- The character of a decimal digit. -/
def digit_char (d : Nat) : Char := Char.ofNat (48 + d)

/-- Decimal digits of `n`, most significant first, on at most `fuel` further places. -/
def nat_digits_aux : Nat → Nat → List Char → List Char
  | 0, n, acc => digit_char (n % 10) :: acc
  | fuel + 1, n, acc =>
    if n < 10 then digit_char n :: acc
    else nat_digits_aux fuel (n / 10) (digit_char (n % 10) :: acc)

/-- Decimal digits of `n`, most significant first, `0` printed as one digit. -/
def nat_digits (n : Nat) : List Char := nat_digits_aux n n []

/-- The `k` least significant decimal digits of `n`, most significant first. -/
def frac_digits : Nat → Nat → List Char
  | 0, _ => []
  | k + 1, n => frac_digits k (n / 10) ++ [digit_char (n % 10)]

/-- Round to the nearest integer, ties to the even one. -/
def round_half_even (q : ℚ) : ℤ :=
  let f := ⌊q⌋
  if q - f < 1 / 2 then f
  else if 1 / 2 < q - f then f + 1
  else if f % 2 = 0 then f else f + 1

/-- Output of `printf("%lf", x)`: sign, integer part, a point and six fractional digits. -/
def fmt_lf (x : ℚ) : List Char :=
  let n := (round_half_even (|x| * 10 ^ 6)).toNat
  (if x < 0 then [ '-' ] else []) ++ nat_digits (n / 10 ^ 6) ++ [ '.' ]
    ++ frac_digits 6 (n % 10 ^ 6)

/-- Output of `fprintf(f, "%lf %lf\n", a, b)`. -/
def fmt_lf_lf (a b : ℚ) : List Char :=
  fmt_lf a ++ [ ' ' ] ++ fmt_lf b ++ [ '\n' ]

/-- The exponent `e` with `2 ^ e ≤ q < 2 ^ (e + 1)`, for `0 < q`. -/
def ilog2 (q : ℚ) : ℤ :=
  let e : ℤ := (Nat.log2 q.num.natAbs : ℤ) - (Nat.log2 q.den : ℤ)
  if (2 : ℚ) ^ e ≤ q then e else e - 1

/-- Nearest binary64 value (53 significant bits, ties to even, unbounded exponent). -/
def round_binary64 (q : ℚ) : ℚ :=
  if q = 0 then 0
  else (round_half_even (q / 2 ^ (ilog2 |q| - 52)) : ℚ) * 2 ^ (ilog2 |q| - 52)

/-- White space as `isspace` sees it in the C locale. -/
def isspace (c : Char) : Bool :=
  decide (c.toNat = 32 ∨ (9 ≤ c.toNat ∧ c.toNat ≤ 13))

/-- Decimal digit test, `isdigit`. -/
def isdigit (c : Char) : Bool :=
  decide (48 ≤ c.toNat ∧ c.toNat ≤ 57)

/-- Skip leading white space. -/
def skip_ws (cs : List Char) : List Char := cs.dropWhile isspace

/-- Value of a run of decimal digits. -/
def digits_val (ds : List Char) : Nat :=
  ds.foldl (fun a c => 10 * a + (c.toNat - 48)) 0

/-- Optional sign: whether it is a minus, and the rest of the input. -/
def scan_sign : List Char → Bool × List Char
  | [] => (false, [])
  | c :: r => if c = '-' then (true, r) else if c = '+' then (false, r) else (false, c :: r)

/-- Optional fraction: the digits after a point, and the rest of the input. -/
def scan_frac : List Char → List Char × List Char
  | [] => ([], [])
  | c :: r => if c = '.' then (r.takeWhile isdigit, r.dropWhile isdigit) else ([], c :: r)

/-- Optional decimal exponent: its value (0 when absent or without digits) and the rest. -/
def scan_exp : List Char → ℤ × List Char
  | [] => (0, [])
  | c :: r =>
    if c = 'e' ∨ c = 'E' then
      let s := scan_sign r
      let ds := s.2.takeWhile isdigit
      if ds = [] then (0, c :: r)
      else ((if s.1 then -(digits_val ds : ℤ) else (digits_val ds : ℤ)), s.2.dropWhile isdigit)
    else (0, c :: r)

/-- One `%lf` conversion of `fscanf`: leading white space is skipped, then the longest
decimal floating constant is read (sign, digits with an optional point, optional
exponent) and rounded to binary64. Hexadecimal constants, `inf` and `nan` are not
modelled and count as no match. -/
def scan_lf (cs : List Char) : Option (ℚ × List Char) :=
  let s := scan_sign (skip_ws cs)
  let ip := s.2.takeWhile isdigit
  let f := scan_frac (s.2.dropWhile isdigit)
  if ip = [] ∧ f.1 = [] then none
  else
    let x := scan_exp f.2
    let v : ℚ := (digits_val (ip ++ f.1) : ℚ) / 10 ^ f.1.length * 10 ^ x.1
    some (round_binary64 (if s.1 then -v else v), x.2)

/-- Result of `fscanf(f, "%lf %lf\n", &a, &b)` on a file holding `text`: the number of
conversions made (`-1` for `EOF`) and the values stored (0 where nothing was stored). -/
def fscanf_lf_lf (text : List Char) : Int × ℚ × ℚ :=
  if skip_ws text = [] then (-1, 0, 0)
  else
    match scan_lf text with
    | none => (0, 0, 0)
    | some (a, r) =>
      match scan_lf (skip_ws r) with
      | none => (1, a, 0)
      | some (b, _) => (2, a, b)

/-! ## Framework and bus, as far as the module uses them -/

/-- Modelled from the spec: `VALIDATE_REQ` for a location request, whose definition is
not part of the sources at hand. The spec gives the check as a range check, latitude
in [-90, 90] and longitude in [-180, 180], on the requested (new) location. -/
def VALIDATE_REQ (l : loc_upd) : Bool :=
  decide (-90 ≤ l.new.lat ∧ l.new.lat ≤ 90 ∧ -180 ≤ l.new.lon ∧ l.new.lon ≤ 180)

/-- Modelled from the spec: the macro `MSG_TYPE()`, the kind of a received message. A
module tells a fired timer from arrived data by the message kind: `FD_UPD` for the
readiness of a descriptor, the kind of the published message otherwise. -/
def MSG_TYPE : msg_t → mod_msg_types
  | msg_t.fd_msg _ => mod_msg_types.FD_UPD
  | msg_t.ps_msg m => m.type

/-- Modelled from the spec: the macro `MSG_DATA()`, the payload of a received message.
Read only for published messages; for a descriptor message the model gives a zero
payload. -/
def MSG_DATA : msg_t → loc_upd
  | msg_t.fd_msg _ => { old := { lat := 0, lon := 0 }, new := { lat := 0, lon := 0 } }
  | msg_t.ps_msg m => m.loc

/-- Modelled from the spec: the descriptor of a readiness message, `msg->fd_msg->fd`.
Read only for descriptor messages; for a published message the model gives 0. -/
def msg_fd : msg_t → Int
  | msg_t.fd_msg fd => fd
  | msg_t.ps_msg _ => 0

/-- Modelled from the spec: `M_SUB`, subscribe the module to a kind; idempotent. -/
def M_SUB (type : mod_msg_types) (w : World) : World :=
  let w1 := emit (Effect.M_SUB type) w
  if type ∈ w1.subscribed then w1 else { w1 with subscribed := w1.subscribed ++ [type] }

/-- Modelled from the spec: `M_PUB`, publish a message. The call is recorded with the
shared location as it is at that moment, then the message is delivered synchronously
(`deliver`) and only then does the call return. -/
def M_PUB (deliver : message_t → World → Option World) (l : message_t) (w : World) :
    Option World :=
  deliver l (emit (Effect.M_PUB l w.state.current_loc) w)

/-- Modelled from the spec: `start_timer(CLOCK_MONOTONIC, s, ns)`, create a timer with an
initial delay; the descriptor is the answer of the outside world. -/
def start_timer (E : Env) (start_s start_ns : Nat) (w : World) : Int × World :=
  (E.timer_fd, emit (Effect.start_timer start_s start_ns) w)

/-- Modelled from the spec: `m_register_fd`, register a descriptor with the loop for the
module. -/
def m_register_fd (fd : Int) (autoclose : Bool) (w : World) : World :=
  emit (Effect.m_register_fd fd autoclose) w

/-- Modelled from the spec: `m_poisonpill(self())`, request the deferred destruction of
the module; the call only records the request. -/
def m_poisonpill (w : World) : World :=
  emit Effect.m_poisonpill w

/-- Modelled from the spec: `read_timer(fd)`, read the expiry count of a timer. -/
def read_timer (fd : Int) (w : World) : World :=
  emit (Effect.read_timer fd) w

/-- Content of a file that can be opened for reading, `fopen(path, "r")`. -/
def fopen_r (w : World) (path : String) : Option String :=
  w.files.lookup path

/-! ## The module -/

/-- Source: `publish_location`. Fill the declared message with the current shared
location as `old` and the given pair as `new`, then publish it. -/
def publish_location (deliver : message_t → World → Option World) (new_lat new_lon : ℚ)
    (l : declared_msg) (w : World) : Option World :=
  M_PUB deliver
    { type := l.type,
      loc := { old := { lat := w.state.current_loc.lat, lon := w.state.current_loc.lon },
               new := { lat := new_lat, lon := new_lon } } } w

/-- Source: `load_cache_location`. Returns 0 when two numbers were read from the cache
file and published as a `LOCATION_REQ`, and -1 otherwise. -/
def load_cache_location (deliver : message_t → World → Option World) (w : World) :
    Option (Int × World) :=
  let w1 := emit (Effect.fopen w.cache_file "r") w
  match fopen_r w1 w1.cache_file with
  | some text =>
    let r := fscanf_lf_lf text.data
    if r.1 = 2 then
      (publish_location deliver r.2.1 r.2.2 declared_msg.loc_req w1).map (fun w2 => (0, w2))
    else some (-1, w1)
  | none => some (-1, w1)

/-- Source: `init_cache_file`. The path is cut to `PATH_MAX - 1` characters as `snprintf`
does. -/
def init_cache_file (E : Env) (w : World) : World :=
  match E.XDG_CACHE_HOME with
  | some dir => { w with cache_file := String.mk ((dir ++ "/clight").data.take (PATH_MAX - 1)) }
  | none =>
    { w with cache_file := String.mk ((E.pw_dir ++ "/.cache/clight").data.take (PATH_MAX - 1)) }

/-- Source: `geoclue_get_client`. The manager is asked for a client; the object path it
answers with, if any, is stored in `client`. -/
def geoclue_get_client (E : Env) (w : World) : Int × World :=
  let w1 := emit (Effect.call
    { service := "org.freedesktop.GeoClue2", path := "/org/freedesktop/GeoClue2/Manager",
      interface := "org.freedesktop.GeoClue2.Manager", member := "GetClient" }) w
  match E.GetClient.2 with
  | some p => (E.GetClient.1, { w1 with client := p })
  | none => (E.GetClient.1, w1)

/-- Source: `geoclue_hook_update`. Hook the callback to `LocationUpdated`; the match
slot the bus answers with, if any, is stored in `slot`. -/
def geoclue_hook_update (E : Env) (w : World) : Int × World :=
  let w1 := emit (Effect.add_match
    { service := "org.freedesktop.GeoClue2", path := w.client,
      interface := "org.freedesktop.GeoClue2.Client", member := "LocationUpdated" }) w
  match E.LocationUpdated.2 with
  | some s => (E.LocationUpdated.1, { w1 with slot := some s })
  | none => (E.LocationUpdated.1, w1)

/-- Source: `geoclue_client_start`. Four properties are set, then `Start` is called. -/
def geoclue_client_start (E : Env) (w : World) : Int × World :=
  let prop := fun (member : String) =>
    Effect.set_property
      { service := "org.freedesktop.GeoClue2", path := w.client,
        interface := "org.freedesktop.GeoClue2.Client", member := member }
  let w1 := emit (prop "DesktopId") w
  let w2 := emit (prop "TimeThreshold") w1
  let w3 := emit (prop "DistanceThreshold") w2
  let w4 := emit (prop "RequestedAccuracyLevel") w3
  (E.Start, emit (Effect.call
    { service := "org.freedesktop.GeoClue2", path := w.client,
      interface := "org.freedesktop.GeoClue2.Client", member := "Start" }) w4)

/-- Source: `geoclue_init`. The three steps in order, stopping at the first negative
result; the value returned is `-(r < 0)`, that is 0 or -1. -/
def geoclue_init (E : Env) (w : World) : Int × World :=
  let a := geoclue_get_client E w
  if a.1 < 0 then (-1, a.2)
  else
    let b := geoclue_hook_update E a.2
    if b.1 < 0 then (-1, b.2)
    else
      let c := geoclue_client_start E b.2
      ((if c.1 < 0 then -1 else 0), c.2)

/-- Source: `geoclue_client_delete`. Stop the client, then have the manager delete it. -/
def geoclue_client_delete (w : World) : World :=
  let w1 := emit (Effect.call
    { service := "org.freedesktop.GeoClue2", path := w.client,
      interface := "org.freedesktop.GeoClue2.Client", member := "Stop" }) w
  emit (Effect.call
    { service := "org.freedesktop.GeoClue2", path := "/org/freedesktop/GeoClue2/Manager",
      interface := "org.freedesktop.GeoClue2.Manager", member := "DeleteClient" }) w1

/-- Source: `cache_location`. When neither axis of the shared location equals its
sentinel, the cache file is opened for writing and, if that succeeds, replaced by the
line `"%lf %lf\n"` of the shared location. -/
def cache_location (E : Env) (w : World) : World :=
  if w.state.current_loc.lat ≠ E.LAT_UNDEFINED ∧ w.state.current_loc.lon ≠ E.LON_UNDEFINED then
    let w1 := emit (Effect.fopen w.cache_file "w") w
    if E.fopen_w w1.cache_file then
      let text := String.mk (fmt_lf_lf w1.state.current_loc.lat w1.state.current_loc.lon)
      let w2 := emit (Effect.fprintf w1.cache_file text) w1
      { w2 with files := (w2.cache_file, text) :: w2.files.filter (fun f => f.1 ≠ w2.cache_file) }
    else w1
  else w

/-- Source: `evaluate`, the policy predicate. -/
def evaluate (E : Env) (w : World) : Bool :=
  !w.conf.no_gamma &&
  (decide (w.conf.loc.lat = E.LAT_UNDEFINED) || decide (w.conf.loc.lon = E.LON_UNDEFINED)) &&
  (decide (w.conf.day_events.SUNRISE.length = 0) || decide (w.conf.day_events.SUNSET.length = 0))

/-- Source: `destroy`. -/
def destroy (E : Env) (w : World) : World :=
  let w1 := if w.client.length ≠ 0 then cache_location E (geoclue_client_delete w) else w
  if w1.slot.isSome then { emit Effect.sd_bus_slot_unref w1 with slot := none } else w1

/-- Source: `receive`, with the bus reached through `deliver`. -/
def receive_with (E : Env) (deliver : message_t → World → Option World) (msg : msg_t)
    (w : World) : Option World :=
  match MSG_TYPE msg with
  | mod_msg_types.FD_UPD =>
    let w1 := read_timer (msg_fd msg) w
    if w1.state.current_loc.lat = E.LAT_UNDEFINED ∨ w1.state.current_loc.lon = E.LON_UNDEFINED then
      (load_cache_location deliver w1).map Prod.snd
    else some w1
  | mod_msg_types.LOCATION_REQ =>
    let l := MSG_DATA msg
    if VALIDATE_REQ l then
      (publish_location deliver l.new.lat l.new.lon declared_msg.loc_msg w).map
        (fun w1 => { w1 with state := { w1.state with current_loc := l.new } })
    else some w
  | _ => some w

/-- Modelled from the spec: delivery of a published message by the bus, as far as the
location module is concerned. The message reaches the module, synchronously, exactly
when the module is subscribed to its kind at that moment. Other subscribers only read
the shared location and are not modelled. `fuel` bounds the nesting of deliveries;
`none` means the bound was hit. -/
def bus (E : Env) : Nat → message_t → World → Option World
  | 0, l, w => if l.type ∈ w.subscribed then none else some w
  | fuel + 1, l, w =>
    if l.type ∈ w.subscribed then receive_with E (bus E fuel) (msg_t.ps_msg l) w else some w

/-- Source: `receive`, run on the modelled bus. -/
def receive (E : Env) (fuel : Nat) (msg : msg_t) (w : World) : Option World :=
  receive_with E (bus E fuel) msg w

/-- Source: `init`. -/
def init (E : Env) (fuel : Nat) (w : World) : Option World :=
  let w1 := init_cache_file E w
  let r := geoclue_init E w1
  if r.1 = 0 then
    let w2 := M_SUB mod_msg_types.LOCATION_REQ r.2
    let t := start_timer E 3 0 w2
    some (m_register_fd t.1 true t.2)
  else
    (load_cache_location (bus E fuel) r.2).map (fun c =>
      m_poisonpill
        (if c.1 ≠ 0 then
          { c.2 with state := { c.2.state with
              current_loc := { lat := E.LAT_UNDEFINED + 1, lon := E.LON_UNDEFINED + 1 } } }
        else c.2))

/-- The `SYSBUS_ARG` for the `Latitude` property of a location object. -/
def lat_args (new_location : String) : bus_args :=
  { service := "org.freedesktop.GeoClue2", path := new_location,
    interface := "org.freedesktop.GeoClue2.Location", member := "Latitude" }

/-- The `SYSBUS_ARG` for the `Longitude` property of a location object. -/
def lon_args (new_location : String) : bus_args :=
  { service := "org.freedesktop.GeoClue2", path := new_location,
    interface := "org.freedesktop.GeoClue2.Location", member := "Longitude" }

/-- Source: `on_geoclue_new_location`, the callback for a new location of the provider.
The two results of `get_property` are added and the location is forwarded when the sum
is 0. -/
def on_geoclue_new_location (E : Env) (fuel : Nat) (m : sd_bus_message) (w : World) :
    Option (Int × World) :=
  if w.conf.loc.lat = E.LAT_UNDEFINED ∧ w.conf.loc.lon = E.LON_UNDEFINED then
    let w1 := emit (Effect.get_property (lon_args m.new_location))
      (emit (Effect.get_property (lat_args m.new_location)) w)
    let r := (E.get_property (lat_args m.new_location)).1 +
      (E.get_property (lon_args m.new_location)).1
    if r = 0 then
      (publish_location (bus E fuel) (E.get_property (lat_args m.new_location)).2
        (E.get_property (lon_args m.new_location)).2 declared_msg.loc_req w1).map
        (fun w2 => (0, w2))
    else some (0, w1)
  else some (0, w)

/-! ## Concrete runs -/

/-- An outside world in which the provider works: sentinels 91 and 181, a cache
directory, every D-Bus call succeeding. -/
def env_ok : Env :=
  { LAT_UNDEFINED := 91, LON_UNDEFINED := 181,
    XDG_CACHE_HOME := some "/home/u/.cache", pw_dir := "/home/u",
    GetClient := (0, some "/org/freedesktop/GeoClue2/Client/1"),
    LocationUpdated := (0, some 1), Start := 0, timer_fd := 7,
    get_property := fun _ => (0, 0), fopen_w := fun _ => true }

/-- As `env_ok`, but hooking the `LocationUpdated` signal fails after the client path
was obtained. -/
def env_hook_fails : Env :=
  { env_ok with LocationUpdated := (-1, none) }

/-- As `env_ok`, but the manager gives no client. -/
def env_no_client : Env :=
  { env_ok with GetClient := (-1, none) }

/-- A world before the module starts: location (10, 20), nothing configured, no cache
file. -/
def world0 : World :=
  { state := { current_loc := { lat := 10, lon := 20 } },
    conf := { no_gamma := false, loc := { lat := 91, lon := 181 },
              day_events := { SUNRISE := "", SUNSET := "" } },
    slot := none, client := "", cache_file := "", subscribed := [], files := [], trace := [] }

/-- The request of the ordering example: go to (12.34, 56.78). -/
def req_example : message_t :=
  { type := mod_msg_types.LOCATION_REQ,
    loc := { old := { lat := 0, lon := 0 }, new := { lat := 12.34, lon := 56.78 } } }

/-- A request for latitude 90, the largest valid one. -/
def req_lat_90 : message_t :=
  { type := mod_msg_types.LOCATION_REQ,
    loc := { old := { lat := 0, lon := 0 }, new := { lat := 90, lon := 20 } } }

/-- A request for latitude 91, out of range. -/
def req_lat_91 : message_t :=
  { type := mod_msg_types.LOCATION_REQ,
    loc := { old := { lat := 0, lon := 0 }, new := { lat := 91, lon := 20 } } }

/-- The events recorded between the world `w` and a later world `w1`. -/
def events_since (w w1 : World) : List Effect :=
  w1.trace.drop w.trace.length

/-! ## Vocabulary of the statements -/

/-- Calls to the module framework that change the life cycle of the module or what it
owns: subscribing, creating and registering a timer, asking for the poison pill. -/
def is_lifecycle_call : Effect → Bool
  | Effect.M_SUB _ => true
  | Effect.start_timer _ _ => true
  | Effect.m_register_fd _ _ => true
  | Effect.m_poisonpill => true
  | _ => false

/-- Calls to the geolocation service over D-Bus made while starting the client. -/
def is_dbus_call : Effect → Bool
  | Effect.call _ => true
  | Effect.add_match _ => true
  | Effect.set_property _ => true
  | _ => false

/-- Publications on the message bus. -/
def is_publish : Effect → Bool
  | Effect.M_PUB _ _ => true
  | _ => false

/-- The world `receive` leaves after it accepted the request `l` in the world `w`: the
`LOC_UPD` is on the trace and the requested location is stored. -/
def after_accept (l : loc_upd) (w : World) : World :=
  { w with
    trace := w.trace ++ [Effect.M_PUB
      { type := mod_msg_types.LOC_UPD, loc := { old := w.state.current_loc, new := l.new } }
      w.state.current_loc],
    state := { current_loc := l.new } }

/-- The `LOCATION_REQ` that `publish_location` builds in the world `w` for the pair
`(a, b)`. -/
def request_msg (w : World) (a b : ℚ) : message_t :=
  { type := mod_msg_types.LOCATION_REQ,
    loc := { old := w.state.current_loc, new := { lat := a, lon := b } } }

/-- The world after `publish_location(a, b, &loc_req)` returned: the request is on the
trace and, when the module is subscribed and the request is valid, it was accepted. -/
def after_publish_req (a b : ℚ) (w : World) : World :=
  if mod_msg_types.LOCATION_REQ ∈ w.subscribed ∧
      VALIDATE_REQ { old := w.state.current_loc, new := ⟨a, b⟩ } = true
  then after_accept { old := w.state.current_loc, new := ⟨a, b⟩ }
    (emit (Effect.M_PUB (request_msg w a b) w.state.current_loc) w)
  else emit (Effect.M_PUB (request_msg w a b) w.state.current_loc) w

/-- Between `w` and `w1` a validated `LOC_UPD` was published and the shared location of
`w1` is the new location of that message: the location was written by the
`LOCATION_REQ` branch of `receive`. -/
def written_by_request (w w1 : World) : Prop :=
  ∃ l cur, Effect.M_PUB l cur ∈ events_since w w1 ∧ l.type = mod_msg_types.LOC_UPD ∧
    VALIDATE_REQ l.loc = true ∧ w1.state.current_loc = l.loc.new

/-- A configuration with a latitude but no longitude, and a sunrise but no sunset. -/
def world_half_conf : World :=
  { world0 with
    conf := { no_gamma := false, loc := { lat := 45.5, lon := 181 },
              day_events := { SUNRISE := "07:00", SUNSET := "" } } }

/-! ## Vocabulary of the cache round trip -/

/-- The number the text `fmt_lf x` denotes: `x` rounded to six decimal places. -/
def decimal6 (x : ℚ) : ℚ :=
  if x < 0 then -(((round_half_even (|x| * 10 ^ 6)).toNat : ℚ) / 10 ^ 6)
  else ((round_half_even (|x| * 10 ^ 6)).toNat : ℚ) / 10 ^ 6

/-- The world of a run whose shared location is (45.5, -122.6). -/
def world_45 : World :=
  { world0 with state := { current_loc := { lat := 45.5, lon := -122.6 } },
                cache_file := "/home/u/.cache/clight" }

/-- The next start after `w`: the files are those `cache_location` left, the client was
started (the module is subscribed to `LOCATION_REQ`) and no location is known yet. -/
def next_start (E : Env) (w : World) : World :=
  { cache_location E w with
    state := { current_loc := { lat := E.LAT_UNDEFINED, lon := E.LON_UNDEFINED } },
    subscribed := [mod_msg_types.LOCATION_REQ], trace := [] }

/-- A run whose shared location is (92, 182): defined on both axes, but no valid
latitude and longitude. -/
def world_92 : World :=
  { world0 with state := { current_loc := { lat := 92, lon := 182 } },
                cache_file := "/home/u/.cache/clight" }

/-- The next start after `w` with the provider unavailable: the files are those
`cache_location` left, the module is subscribed to nothing and no location is known
yet. -/
def next_start_unavailable (E : Env) (w : World) : World :=
  { cache_location E w with
    state := { current_loc := { lat := E.LAT_UNDEFINED, lon := E.LON_UNDEFINED } },
    cache_file := "", subscribed := [], trace := [] }

/-! ## Vocabulary of the cache fallback and the provider callback -/

/-- Publications of a `LOCATION_REQ`. -/
def is_request : Effect → Bool
  | Effect.M_PUB l _ => decide (l.type = mod_msg_types.LOCATION_REQ)
  | _ => false

/-- A configuration with a fixed latitude and no longitude, and no fixed day events. -/
def world_lat_only : World :=
  { world0 with
    conf := { no_gamma := false, loc := { lat := 45.5, lon := 181 },
              day_events := { SUNRISE := "", SUNSET := "" } } }

/-- As `env_ok`, with a provider whose location object answers latitude 48.1 and
longitude 11.5. -/
def env_provider : Env :=
  { env_ok with
    get_property := fun a => if a.member = "Latitude" then (0, 48.1) else (0, 11.5) }

/-- A signal from the provider: the location moved from object 0 to object 1. -/
def signal_example : sd_bus_message :=
  { old_location := "/org/freedesktop/GeoClue2/Client/1/Location/0",
    new_location := "/org/freedesktop/GeoClue2/Client/1/Location/1" }

/-! ## Configuration file (`src/conf/config.c`)

The library libconfig is seen through the settings tree it parses a file into and
writes a file from: a file that was written and is read again gives back the tree that
was written. The auto-convert option of the library is off, as `read_config` leaves it. -/

/-- Value types of libconfig, the constants `CONFIG_TYPE_*` the source names. -/
inductive config_type where
  | CONFIG_TYPE_INT
  | CONFIG_TYPE_BOOL
  | CONFIG_TYPE_FLOAT
  | CONFIG_TYPE_STRING
  | CONFIG_TYPE_ARRAY
deriving DecidableEq

/-- A scalar value of a configuration; `aggregate` stands for an element that is itself
an array, a list or a group. -/
inductive config_value where
  | int (n : Int)
  | bool (b : Bool)
  | float (x : ℚ)
  | string (s : String)
  | aggregate
deriving DecidableEq

/-- A setting of the root group, `config_setting_t`: a scalar, or an aggregate (array,
list or group) with its elements in order. -/
inductive config_setting_t where
  | value (v : config_value)
  | array (elems : List config_value)
deriving DecidableEq

/-- A parsed configuration, `config_t`: the named settings of the root group, in order. -/
abbrev config_t := List (String × config_setting_t)

/-- What is found under a path of the file system: a file libconfig cannot parse, or a
file with its settings. -/
inductive config_file_t where
  | malformed
  | parsed (cfg : config_t)
deriving DecidableEq

/-- Which configuration file is meant, `enum CONFIG`; `OTHER n` stands for any value
besides the two the source names. -/
inductive CONFIG where
  | LOCAL
  | GLOBAL
  | OTHER (n : Nat)
deriving DecidableEq

/-- A call to libconfig for one setting: its name, the value type named in the call and,
for an array, the value type of the element calls. -/
structure setting_call where
  name : String
  type : config_type
  elem : Option config_type
deriving DecidableEq

/-- An array of `conf` indexed by `enum ac_states`, seen at its two named indices. -/
structure per_ac (α : Type) where
  ON_AC : α
  ON_BATTERY : α
deriving DecidableEq

/-- Configuration, `conf`: all the fields `read_config` and `store_config` touch. The
flags are the `int` fields handed to `config_lookup_bool`, seen as booleans. -/
structure full_conf_t extends conf_t where
  num_captures : Int
  no_smooth_backlight : Bool
  no_smooth_gamma : Bool
  backlight_trans_step : ℚ
  gamma_trans_step : Int
  backlight_trans_timeout : Int
  gamma_trans_timeout : Int
  no_backlight : Bool
  event_duration : Int
  no_dimmer : Bool
  dimmer_pct : ℚ
  shutter_threshold : ℚ
  no_dpms : Bool
  verbose : Bool
  no_auto_calib : Bool
  no_keyboard_bl : Bool
  gamma_long_transition : Bool
  ambient_gamma : Bool
  no_screen : Bool
  screen_contrib : ℚ
  screen_samples : Int
  inhibit_autocalib : Bool
  dev_name : String
  dev_opts : String
  screen_path : String
  no_smooth_dimmer : List Int
  dimmer_trans_step : List ℚ
  dimmer_trans_timeout : List Int
  num_points : per_ac Int
  regression_points : per_ac (List ℚ)
  dpms_timeout : List Int
  timeout : per_ac (List Int)
  dimmer_timeout : List Int
  temp : List Int
  screen_timeout : List Int
deriving DecidableEq

/-- Constants of headers that are not among the sources at hand, and answers of the
outside world, as far as `config.c` needs them. -/
structure conf_env where
  SIZE_DIM : Nat
  SIZE_AC : Nat
  SIZE_STATES : Nat
  MAX_SIZE_POINTS : Nat
  sizeof_dev_name : Nat
  sizeof_dev_opts : Nat
  sizeof_screen_path : Nat
  sizeof_day_event : Nat
  CONFDIR : String
  XDG_CONFIG_HOME : Option String
  config_write_file : String → Bool

/-- Modelled from the spec: the declared lengths of the arrays of `conf`. The declaration
is in a header that is not among the sources at hand; the lengths are the bounds the
loops of `store_config` read the arrays up to, and for the regression points the bound
`MAX_SIZE_POINTS` of the guard in `read_config`. -/
def conf_wf (S : conf_env) (c : full_conf_t) : Prop :=
  c.no_smooth_dimmer.length = S.SIZE_DIM ∧
  c.dimmer_trans_step.length = S.SIZE_DIM ∧
  c.dimmer_trans_timeout.length = S.SIZE_DIM ∧
  c.regression_points.ON_AC.length = S.MAX_SIZE_POINTS ∧
  c.regression_points.ON_BATTERY.length = S.MAX_SIZE_POINTS ∧
  c.dpms_timeout.length = S.SIZE_AC ∧
  c.timeout.ON_AC.length = S.SIZE_STATES + 1 ∧
  c.timeout.ON_BATTERY.length = S.SIZE_STATES + 1 ∧
  c.dimmer_timeout.length = S.SIZE_AC ∧
  c.temp.length = S.SIZE_STATES ∧
  c.screen_timeout.length = S.SIZE_AC

/-! ### libconfig, reading -/

/-- Library call `config_lookup_int(&cfg, path, &value)`: the new content of `value`. It
is overwritten when the setting exists and is an integer. -/
def config_lookup_int (cfg : config_t) (path : String) (value : Int) : Int :=
  match cfg.lookup path with
  | some (config_setting_t.value (config_value.int n)) => n
  | _ => value

/-- Library call `config_lookup_bool(&cfg, path, &value)`: the new content of `value`. -/
def config_lookup_bool (cfg : config_t) (path : String) (value : Bool) : Bool :=
  match cfg.lookup path with
  | some (config_setting_t.value (config_value.bool b)) => b
  | _ => value

/-- Library call `config_lookup_float(&cfg, path, &value)`: the new content of `value`. -/
def config_lookup_float (cfg : config_t) (path : String) (value : ℚ) : ℚ :=
  match cfg.lookup path with
  | some (config_setting_t.value (config_value.float x)) => x
  | _ => value

/-- Library call `config_lookup_string(&cfg, path, &value)`: the string found, when the
call returns `CONFIG_TRUE`. -/
def config_lookup_string (cfg : config_t) (path : String) : Option String :=
  match cfg.lookup path with
  | some (config_setting_t.value (config_value.string s)) => some s
  | _ => none

/-- Library call `config_setting_get_member(root, name)`. -/
def config_setting_get_member (root : config_t) (name : String) : Option config_setting_t :=
  root.lookup name

/-- Library call `config_setting_length`: the number of elements of an aggregate, 0 for a
scalar. -/
def config_setting_length : config_setting_t → Nat
  | config_setting_t.value _ => 0
  | config_setting_t.array elems => elems.length

/-- Library call `config_setting_get_elem`. -/
def config_setting_get_elem : config_setting_t → Nat → Option config_value
  | config_setting_t.value _, _ => none
  | config_setting_t.array elems, i => elems.get? i

/-- Library call `config_setting_get_float_elem`: 0 when there is no such element or it
is not a float. -/
def config_setting_get_float_elem (s : config_setting_t) (i : Nat) : ℚ :=
  match config_setting_get_elem s i with
  | some (config_value.float x) => x
  | _ => 0

/-- Library call `config_setting_get_int_elem`: 0 when there is no such element or it is
not an integer. -/
def config_setting_get_int_elem (s : config_setting_t) (i : Nat) : Int :=
  match config_setting_get_elem s i with
  | some (config_value.int n) => n
  | _ => 0

/-- Conversion of a `double` to an `int` on assignment: the fraction is dropped. -/
def double_to_int (x : ℚ) : Int :=
  if 0 ≤ x then ⌊x⌋ else ⌈x⌉

/-- Copy made by `strncpy(dst, src, n)` into a buffer whose byte after the first `n` is
0: the first `n` characters of `src`. -/
def strncpy (src : String) (n : Nat) : String :=
  String.mk (src.data.take n)

/-- The loop `for (i = 0; i < n; i++) a[i] = get(i)` on an array with the declared length
of the list `a`. The flag tells whether an element was written outside the array. -/
def load_elems {α : Type} (n : Nat) (get : Nat → α) (a : List α) : List α × Bool :=
  (List.range n).foldl
    (fun acc i => if i < acc.1.length then (acc.1.set i (get i), acc.2) else (acc.1, true))
    (a, false)

/-- One block of `read_config` for an array of fixed size: when the member exists and has
exactly `size` elements they are copied, otherwise the array is left alone. -/
def load_fixed {α : Type} (root : config_t) (name : String) (size : Nat)
    (get_elem : config_setting_t → Nat → α) (a : List α) : List α × Bool :=
  match config_setting_get_member root name with
  | some points =>
    if config_setting_length points = size then load_elems size (get_elem points) a
    else (a, false)
  | none => (a, false)

/-- One block of `read_config` for regression points: when the member exists and its
length `len` satisfies `0 < len` and `len ≤ MAX_SIZE_POINTS`, the count is set to `len`
and `len` elements are copied; otherwise count and points are left alone. The result is
the count, the points and the flag of `load_elems`. -/
def load_points (S : conf_env) (root : config_t) (name : String) (num : Int) (a : List ℚ) :
    Int × List ℚ × Bool :=
  match config_setting_get_member root name with
  | some points =>
    if 0 < config_setting_length points ∧ config_setting_length points ≤ S.MAX_SIZE_POINTS then
      ((config_setting_length points : Int),
        load_elems (config_setting_length points) (config_setting_get_float_elem points) a)
    else (num, a, false)
  | none => (num, a, false)

/-! ### `read_config` -/

/-- Source: `init_config_file`. The name written to the buffer `filename`; for a value of
`file` besides `LOCAL` and `GLOBAL` the buffer is left as it is. -/
def init_config_file (E : Env) (S : conf_env) (file : CONFIG) (filename : String) : String :=
  match file with
  | CONFIG.LOCAL =>
    match S.XDG_CONFIG_HOME with
    | some dir => String.mk ((dir ++ "/clight.conf").data.take (PATH_MAX - 1))
    | none => String.mk ((E.pw_dir ++ "/.config/clight.conf").data.take (PATH_MAX - 1))
  | CONFIG.GLOBAL => String.mk ((S.CONFDIR ++ "/clight.conf").data.take (PATH_MAX - 1))
  | CONFIG.OTHER _ => filename

/-- Source: `read_config`, the part run when the file was parsed: every setting looked
up, in the order of the source. The lookups are independent of each other, each one
giving the new content of the field whose address the source passes. The flag tells
whether any array element was written outside its array. -/
def load_conf (S : conf_env) (cfg : config_t) (c : full_conf_t) : full_conf_t × Bool :=
  let dim := load_fixed cfg "no_smooth_dimmer_transition" S.SIZE_DIM
    (fun p i => double_to_int (config_setting_get_float_elem p i)) c.no_smooth_dimmer
  let steps := load_fixed cfg "dimmer_trans_steps" S.SIZE_DIM
    config_setting_get_float_elem c.dimmer_trans_step
  let touts := load_fixed cfg "dimmer_trans_timeouts" S.SIZE_DIM
    config_setting_get_int_elem c.dimmer_trans_timeout
  let ac := load_points S cfg "ac_backlight_regression_points"
    c.num_points.ON_AC c.regression_points.ON_AC
  let batt := load_points S cfg "batt_backlight_regression_points"
    c.num_points.ON_BATTERY c.regression_points.ON_BATTERY
  let dpms := load_fixed cfg "dpms_timeouts" S.SIZE_AC
    config_setting_get_int_elem c.dpms_timeout
  let cap_ac := load_fixed cfg "ac_capture_timeouts" (S.SIZE_STATES + 1)
    config_setting_get_int_elem c.timeout.ON_AC
  let cap_batt := load_fixed cfg "batt_capture_timeouts" (S.SIZE_STATES + 1)
    config_setting_get_int_elem c.timeout.ON_BATTERY
  let dimmer := load_fixed cfg "dimmer_timeouts" S.SIZE_AC
    config_setting_get_int_elem c.dimmer_timeout
  let gamma := load_fixed cfg "gamma_temp" S.SIZE_STATES
    config_setting_get_int_elem c.temp
  let screen := load_fixed cfg "screen_timeouts" S.SIZE_AC
    config_setting_get_int_elem c.screen_timeout
  ({ c with
      num_captures := config_lookup_int cfg "captures" c.num_captures,
      no_smooth_backlight :=
        config_lookup_bool cfg "no_smooth_backlight_transition" c.no_smooth_backlight,
      no_smooth_gamma := config_lookup_bool cfg "no_smooth_gamma_transition" c.no_smooth_gamma,
      backlight_trans_step := config_lookup_float cfg "backlight_trans_step" c.backlight_trans_step,
      gamma_trans_step := config_lookup_int cfg "gamma_trans_step" c.gamma_trans_step,
      backlight_trans_timeout :=
        config_lookup_int cfg "backlight_trans_timeout" c.backlight_trans_timeout,
      gamma_trans_timeout := config_lookup_int cfg "gamma_trans_timeout" c.gamma_trans_timeout,
      no_backlight := config_lookup_bool cfg "no_backlight" c.no_backlight,
      no_gamma := config_lookup_bool cfg "no_gamma" c.no_gamma,
      loc := { lat := config_lookup_float cfg "latitude" c.loc.lat,
               lon := config_lookup_float cfg "longitude" c.loc.lon },
      event_duration := config_lookup_int cfg "event_duration" c.event_duration,
      no_dimmer := config_lookup_bool cfg "no_dimmer" c.no_dimmer,
      dimmer_pct := config_lookup_float cfg "dimmer_pct" c.dimmer_pct,
      shutter_threshold := config_lookup_float cfg "shutter_threshold" c.shutter_threshold,
      no_dpms := config_lookup_bool cfg "no_dpms" c.no_dpms,
      verbose := config_lookup_bool cfg "verbose" c.verbose,
      no_auto_calib := config_lookup_bool cfg "no_auto_calibration" c.no_auto_calib,
      no_keyboard_bl := config_lookup_bool cfg "no_kdb_backlight" c.no_keyboard_bl,
      gamma_long_transition :=
        config_lookup_bool cfg "gamma_long_transition" c.gamma_long_transition,
      ambient_gamma := config_lookup_bool cfg "ambient_gamma" c.ambient_gamma,
      no_screen := config_lookup_bool cfg "no_screen" c.no_screen,
      screen_contrib := config_lookup_float cfg "screen_contrib" c.screen_contrib,
      screen_samples := config_lookup_int cfg "screen_samples" c.screen_samples,
      inhibit_autocalib := config_lookup_bool cfg "inhibit_autocalib" c.inhibit_autocalib,
      dev_name :=
        match config_lookup_string cfg "sensor_devname" with
        | some s => strncpy s (S.sizeof_dev_name - 1)
        | none => c.dev_name,
      dev_opts :=
        match config_lookup_string cfg "sensor_settings" with
        | some s => strncpy s (S.sizeof_dev_opts - 1)
        | none => c.dev_opts,
      screen_path :=
        match config_lookup_string cfg "screen_sysname" with
        | some s => strncpy s (S.sizeof_screen_path - 1)
        | none => c.screen_path,
      day_events :=
        { SUNRISE :=
            match config_lookup_string cfg "sunrise" with
            | some s => strncpy s (S.sizeof_day_event - 1)
            | none => c.day_events.SUNRISE,
          SUNSET :=
            match config_lookup_string cfg "sunset" with
            | some s => strncpy s (S.sizeof_day_event - 1)
            | none => c.day_events.SUNSET },
      no_smooth_dimmer := dim.1,
      dimmer_trans_step := steps.1,
      dimmer_trans_timeout := touts.1,
      num_points := { ON_AC := ac.1, ON_BATTERY := batt.1 },
      regression_points := { ON_AC := ac.2.1, ON_BATTERY := batt.2.1 },
      dpms_timeout := dpms.1,
      timeout := { ON_AC := cap_ac.1, ON_BATTERY := cap_batt.1 },
      dimmer_timeout := dimmer.1,
      temp := gamma.1,
      screen_timeout := screen.1 },
   dim.2 || steps.2 || touts.2 || ac.2.2 || batt.2.2 || dpms.2 || cap_ac.2 || cap_batt.2 ||
     dimmer.2 || gamma.2 || screen.2)

/-- The calls `read_config` makes for settings, in the order of the source: the name
looked up, the value type the call asks for and, for an array, the value type the
element calls ask for. -/
def read_config_lookups : List setting_call :=
  [ ⟨"captures", config_type.CONFIG_TYPE_INT, none⟩,
    ⟨"no_smooth_backlight_transition", config_type.CONFIG_TYPE_BOOL, none⟩,
    ⟨"no_smooth_gamma_transition", config_type.CONFIG_TYPE_BOOL, none⟩,
    ⟨"backlight_trans_step", config_type.CONFIG_TYPE_FLOAT, none⟩,
    ⟨"gamma_trans_step", config_type.CONFIG_TYPE_INT, none⟩,
    ⟨"backlight_trans_timeout", config_type.CONFIG_TYPE_INT, none⟩,
    ⟨"gamma_trans_timeout", config_type.CONFIG_TYPE_INT, none⟩,
    ⟨"no_backlight", config_type.CONFIG_TYPE_BOOL, none⟩,
    ⟨"no_gamma", config_type.CONFIG_TYPE_BOOL, none⟩,
    ⟨"latitude", config_type.CONFIG_TYPE_FLOAT, none⟩,
    ⟨"longitude", config_type.CONFIG_TYPE_FLOAT, none⟩,
    ⟨"event_duration", config_type.CONFIG_TYPE_INT, none⟩,
    ⟨"no_dimmer", config_type.CONFIG_TYPE_BOOL, none⟩,
    ⟨"dimmer_pct", config_type.CONFIG_TYPE_FLOAT, none⟩,
    ⟨"shutter_threshold", config_type.CONFIG_TYPE_FLOAT, none⟩,
    ⟨"no_dpms", config_type.CONFIG_TYPE_BOOL, none⟩,
    ⟨"verbose", config_type.CONFIG_TYPE_BOOL, none⟩,
    ⟨"no_auto_calibration", config_type.CONFIG_TYPE_BOOL, none⟩,
    ⟨"no_kdb_backlight", config_type.CONFIG_TYPE_BOOL, none⟩,
    ⟨"gamma_long_transition", config_type.CONFIG_TYPE_BOOL, none⟩,
    ⟨"ambient_gamma", config_type.CONFIG_TYPE_BOOL, none⟩,
    ⟨"no_screen", config_type.CONFIG_TYPE_BOOL, none⟩,
    ⟨"screen_contrib", config_type.CONFIG_TYPE_FLOAT, none⟩,
    ⟨"screen_samples", config_type.CONFIG_TYPE_INT, none⟩,
    ⟨"inhibit_autocalib", config_type.CONFIG_TYPE_BOOL, none⟩,
    ⟨"sensor_devname", config_type.CONFIG_TYPE_STRING, none⟩,
    ⟨"sensor_settings", config_type.CONFIG_TYPE_STRING, none⟩,
    ⟨"screen_sysname", config_type.CONFIG_TYPE_STRING, none⟩,
    ⟨"sunrise", config_type.CONFIG_TYPE_STRING, none⟩,
    ⟨"sunset", config_type.CONFIG_TYPE_STRING, none⟩,
    ⟨"no_smooth_dimmer_transition", config_type.CONFIG_TYPE_ARRAY,
      some config_type.CONFIG_TYPE_FLOAT⟩,
    ⟨"dimmer_trans_steps", config_type.CONFIG_TYPE_ARRAY, some config_type.CONFIG_TYPE_FLOAT⟩,
    ⟨"dimmer_trans_timeouts", config_type.CONFIG_TYPE_ARRAY, some config_type.CONFIG_TYPE_INT⟩,
    ⟨"ac_backlight_regression_points", config_type.CONFIG_TYPE_ARRAY,
      some config_type.CONFIG_TYPE_FLOAT⟩,
    ⟨"batt_backlight_regression_points", config_type.CONFIG_TYPE_ARRAY,
      some config_type.CONFIG_TYPE_FLOAT⟩,
    ⟨"dpms_timeouts", config_type.CONFIG_TYPE_ARRAY, some config_type.CONFIG_TYPE_INT⟩,
    ⟨"ac_capture_timeouts", config_type.CONFIG_TYPE_ARRAY, some config_type.CONFIG_TYPE_INT⟩,
    ⟨"batt_capture_timeouts", config_type.CONFIG_TYPE_ARRAY, some config_type.CONFIG_TYPE_INT⟩,
    ⟨"dimmer_timeouts", config_type.CONFIG_TYPE_ARRAY, some config_type.CONFIG_TYPE_INT⟩,
    ⟨"gamma_temp", config_type.CONFIG_TYPE_ARRAY, some config_type.CONFIG_TYPE_INT⟩,
    ⟨"screen_timeouts", config_type.CONFIG_TYPE_ARRAY, some config_type.CONFIG_TYPE_INT⟩ ]

/-- What `read_config` returns and leaves behind: the value returned, the content of the
buffer `config_file`, the configuration, and whether an array element was written
outside its array. -/
structure read_result where
  r : Int
  config_file : String
  conf : full_conf_t
  fault : Bool

/-- Source: `read_config`. When the buffer `config_file` is empty the name of the file is
worked out first; a file that does not exist or cannot be parsed gives -1 and leaves
the configuration alone. -/
def read_config (E : Env) (S : conf_env) (fs : List (String × config_file_t))
    (file : CONFIG) (config_file : String) (c : full_conf_t) : read_result :=
  let name := if config_file.length = 0 then init_config_file E S file config_file
    else config_file
  match fs.lookup name with
  | none => { r := -1, config_file := name, conf := c, fault := false }
  | some config_file_t.malformed => { r := -1, config_file := name, conf := c, fault := false }
  | some (config_file_t.parsed cfg) =>
    { r := 0, config_file := name, conf := (load_conf S cfg c).1,
      fault := (load_conf S cfg c).2 }

/-! ### libconfig, writing, and `store_config` -/

/-- The settings tree under construction and the calls made to build it. -/
structure store_st where
  root : config_t
  calls : List setting_call

/-- Library calls `config_setting_add(root, name, type)` and, on the setting it returns,
the `config_setting_set_*` call of the same type with the value `v`. A name that is
already in the group is refused by the library and nothing is added. -/
def add_scalar (name : String) (type : config_type) (v : config_value) (st : store_st) :
    store_st :=
  { root := if (st.root.lookup name).isSome then st.root
            else st.root ++ [(name, config_setting_t.value v)],
    calls := st.calls ++ [{ name := name, type := type, elem := none }] }

/-- Add an integer setting: `config_setting_add` with `CONFIG_TYPE_INT`, then
`config_setting_set_int`. -/
def add_int (name : String) (v : Int) (st : store_st) : store_st :=
  add_scalar name config_type.CONFIG_TYPE_INT (config_value.int v) st

/-- Add a boolean setting: `config_setting_add` with `CONFIG_TYPE_BOOL`, then
`config_setting_set_bool`. -/
def add_bool (name : String) (v : Bool) (st : store_st) : store_st :=
  add_scalar name config_type.CONFIG_TYPE_BOOL (config_value.bool v) st

/-- Add a float setting: `config_setting_add` with `CONFIG_TYPE_FLOAT`, then
`config_setting_set_float`. -/
def add_float (name : String) (v : ℚ) (st : store_st) : store_st :=
  add_scalar name config_type.CONFIG_TYPE_FLOAT (config_value.float v) st

/-- Add a string setting: `config_setting_add` with `CONFIG_TYPE_STRING`, then
`config_setting_set_string`. -/
def add_string (name : String) (v : String) (st : store_st) : store_st :=
  add_scalar name config_type.CONFIG_TYPE_STRING (config_value.string v) st

/-- Library call `config_setting_add(root, name, CONFIG_TYPE_ARRAY)` and, on the setting
it returns, one `config_setting_set_*_elem(setting, -1, v)` of the element type `elem`
for each of `elems`, each appending to the array. -/
def add_array (name : String) (elem : config_type) (elems : List config_value)
    (st : store_st) : store_st :=
  { root := if (st.root.lookup name).isSome then st.root
            else st.root ++ [(name, config_setting_t.array elems)],
    calls := st.calls ++
      [{ name := name, type := config_type.CONFIG_TYPE_ARRAY, elem := some elem }] }

/-- The elements `a[0]`, ..., `a[n - 1]` a loop of `store_config` reads. -/
def read_elems {α : Type} [Inhabited α] (n : Nat) (a : List α) : List α :=
  (List.range n).map (fun i => a.getD i default)

/-- Source: `store_config`, the settings it adds to the root group, in the order of the
source. -/
def store_settings (E : Env) (S : conf_env) (c : full_conf_t) : store_st :=
  let st : store_st := { root := [], calls := [] }
  let st := add_int "captures" c.num_captures st
  let st := add_bool "no_smooth_backlight_transition" c.no_smooth_backlight st
  let st := add_bool "no_smooth_gamma_transition" c.no_smooth_gamma st
  let st := add_array "no_smooth_dimmer_transition" config_type.CONFIG_TYPE_BOOL
    ((read_elems S.SIZE_DIM c.no_smooth_dimmer).map
      (fun x => config_value.bool (decide (x ≠ 0)))) st
  let st := add_float "backlight_trans_step" c.backlight_trans_step st
  let st := add_int "gamma_trans_step" c.gamma_trans_step st
  let st := add_array "dimmer_trans_steps" config_type.CONFIG_TYPE_FLOAT
    ((read_elems S.SIZE_DIM c.dimmer_trans_step).map config_value.float) st
  let st := add_int "backlight_trans_timeout" c.backlight_trans_timeout st
  let st := add_int "gamma_trans_timeout" c.gamma_trans_timeout st
  let st := add_array "dimmer_trans_timeouts" config_type.CONFIG_TYPE_INT
    ((read_elems S.SIZE_DIM c.dimmer_trans_timeout).map config_value.int) st
  let st := add_bool "gamma_long_transition" c.gamma_long_transition st
  let st := add_bool "ambient_gamma" c.ambient_gamma st
  let st :=
    if c.loc.lat ≠ E.LAT_UNDEFINED ∧ c.loc.lon ≠ E.LON_UNDEFINED then
      add_float "longitude" c.loc.lon (add_float "latitude" c.loc.lat st)
    else st
  let st := add_int "event_duration" c.event_duration st
  let st := add_float "dimmer_pct" c.dimmer_pct st
  let st := add_bool "verbose" c.verbose st
  let st := add_bool "no_auto_calibration" c.no_auto_calib st
  let st := add_bool "no_kdb_backlight" c.no_keyboard_bl st
  let st := add_bool "inhibit_autocalib" c.inhibit_autocalib st
  let st := add_string "sensor_devname" c.dev_name st
  let st := add_string "sensor_settings" c.dev_opts st
  let st := add_string "screen_sysname" c.screen_path st
  let st := add_string "sunrise" c.day_events.SUNRISE st
  let st := add_string "sunset" c.day_events.SUNSET st
  let st := add_float "shutter_threshold" c.shutter_threshold st
  let st := add_int "screen_samples" c.screen_samples st
  let st := add_float "screen_contrib" c.screen_contrib st
  let st := add_array "ac_backlight_regression_points" config_type.CONFIG_TYPE_FLOAT
    ((read_elems c.num_points.ON_AC.toNat c.regression_points.ON_AC).map config_value.float) st
  let st := add_array "batt_backlight_regression_points" config_type.CONFIG_TYPE_FLOAT
    ((read_elems c.num_points.ON_BATTERY.toNat c.regression_points.ON_BATTERY).map
      config_value.float) st
  let st := add_array "dpms_timeouts" config_type.CONFIG_TYPE_INT
    ((read_elems S.SIZE_AC c.dpms_timeout).map config_value.int) st
  let st := add_array "ac_capture_timeouts" config_type.CONFIG_TYPE_INT
    ((read_elems (S.SIZE_STATES + 1) c.timeout.ON_AC).map config_value.int) st
  let st := add_array "batt_capture_timeouts" config_type.CONFIG_TYPE_INT
    ((read_elems (S.SIZE_STATES + 1) c.timeout.ON_BATTERY).map config_value.int) st
  let st := add_array "dimmer_timeouts" config_type.CONFIG_TYPE_INT
    ((read_elems S.SIZE_AC c.dimmer_timeout).map config_value.int) st
  let st := add_array "gamma_temp" config_type.CONFIG_TYPE_INT
    ((read_elems S.SIZE_STATES c.temp).map config_value.int) st
  add_array "screen_timeouts" config_type.CONFIG_TYPE_INT
    ((read_elems S.SIZE_AC c.screen_timeout).map config_value.int) st

/-- Source: `store_config`. The value returned and the file system afterwards: the
settings are written to the file named by `init_config_file`, replacing it, when
`config_write_file` succeeds; otherwise -1 is returned. -/
def store_config (E : Env) (S : conf_env) (fs : List (String × config_file_t))
    (file : CONFIG) (c : full_conf_t) : Int × List (String × config_file_t) :=
  let config_file := init_config_file E S file ""
  let cfg := (store_settings E S c).root
  if S.config_write_file config_file then
    (0, (config_file, config_file_t.parsed cfg) :: fs.filter (fun f => f.1 ≠ config_file))
  else (-1, fs)

/-! ### Vocabulary of the statements about the configuration file -/

/-- The settings `store_config` adds before it comes to the location. -/
def stored_head (S : conf_env) (c : full_conf_t) : config_t :=
  [ ("captures", config_setting_t.value (config_value.int c.num_captures)),
    ("no_smooth_backlight_transition",
      config_setting_t.value (config_value.bool c.no_smooth_backlight)),
    ("no_smooth_gamma_transition", config_setting_t.value (config_value.bool c.no_smooth_gamma)),
    ("no_smooth_dimmer_transition",
      config_setting_t.array ((read_elems S.SIZE_DIM c.no_smooth_dimmer).map
        (fun x => config_value.bool (decide (x ≠ 0))))),
    ("backlight_trans_step", config_setting_t.value (config_value.float c.backlight_trans_step)),
    ("gamma_trans_step", config_setting_t.value (config_value.int c.gamma_trans_step)),
    ("dimmer_trans_steps",
      config_setting_t.array ((read_elems S.SIZE_DIM c.dimmer_trans_step).map config_value.float)),
    ("backlight_trans_timeout",
      config_setting_t.value (config_value.int c.backlight_trans_timeout)),
    ("gamma_trans_timeout", config_setting_t.value (config_value.int c.gamma_trans_timeout)),
    ("dimmer_trans_timeouts",
      config_setting_t.array ((read_elems S.SIZE_DIM c.dimmer_trans_timeout).map config_value.int)),
    ("gamma_long_transition",
      config_setting_t.value (config_value.bool c.gamma_long_transition)),
    ("ambient_gamma", config_setting_t.value (config_value.bool c.ambient_gamma)) ]

/-- The two settings of the location. -/
def stored_loc (c : full_conf_t) : config_t :=
  [ ("latitude", config_setting_t.value (config_value.float c.loc.lat)),
    ("longitude", config_setting_t.value (config_value.float c.loc.lon)) ]

/-- The settings `store_config` adds after the location. -/
def stored_tail (S : conf_env) (c : full_conf_t) : config_t :=
  [ ("event_duration", config_setting_t.value (config_value.int c.event_duration)),
    ("dimmer_pct", config_setting_t.value (config_value.float c.dimmer_pct)),
    ("verbose", config_setting_t.value (config_value.bool c.verbose)),
    ("no_auto_calibration", config_setting_t.value (config_value.bool c.no_auto_calib)),
    ("no_kdb_backlight", config_setting_t.value (config_value.bool c.no_keyboard_bl)),
    ("inhibit_autocalib", config_setting_t.value (config_value.bool c.inhibit_autocalib)),
    ("sensor_devname", config_setting_t.value (config_value.string c.dev_name)),
    ("sensor_settings", config_setting_t.value (config_value.string c.dev_opts)),
    ("screen_sysname", config_setting_t.value (config_value.string c.screen_path)),
    ("sunrise", config_setting_t.value (config_value.string c.day_events.SUNRISE)),
    ("sunset", config_setting_t.value (config_value.string c.day_events.SUNSET)),
    ("shutter_threshold", config_setting_t.value (config_value.float c.shutter_threshold)),
    ("screen_samples", config_setting_t.value (config_value.int c.screen_samples)),
    ("screen_contrib", config_setting_t.value (config_value.float c.screen_contrib)),
    ("ac_backlight_regression_points",
      config_setting_t.array
        ((read_elems c.num_points.ON_AC.toNat c.regression_points.ON_AC).map config_value.float)),
    ("batt_backlight_regression_points",
      config_setting_t.array
        ((read_elems c.num_points.ON_BATTERY.toNat c.regression_points.ON_BATTERY).map
          config_value.float)),
    ("dpms_timeouts",
      config_setting_t.array ((read_elems S.SIZE_AC c.dpms_timeout).map config_value.int)),
    ("ac_capture_timeouts",
      config_setting_t.array
        ((read_elems (S.SIZE_STATES + 1) c.timeout.ON_AC).map config_value.int)),
    ("batt_capture_timeouts",
      config_setting_t.array
        ((read_elems (S.SIZE_STATES + 1) c.timeout.ON_BATTERY).map config_value.int)),
    ("dimmer_timeouts",
      config_setting_t.array ((read_elems S.SIZE_AC c.dimmer_timeout).map config_value.int)),
    ("gamma_temp",
      config_setting_t.array ((read_elems S.SIZE_STATES c.temp).map config_value.int)),
    ("screen_timeouts",
      config_setting_t.array ((read_elems S.SIZE_AC c.screen_timeout).map config_value.int)) ]

/-- The settings tree `store_config` writes: the location is in it when both axes are
defined. -/
def stored_root (E : Env) (S : conf_env) (c : full_conf_t) : config_t :=
  stored_head S c ++
    (if c.loc.lat ≠ E.LAT_UNDEFINED ∧ c.loc.lon ≠ E.LON_UNDEFINED then stored_loc c else []) ++
    stored_tail S c

/-! ### Vocabulary of the statements about arrays -/

/-- Specification of an array of fixed size after `read_config`: when the file has the
member with exactly `size` elements, the array is those elements as the element call
`get` gives them; otherwise it is what it was. -/
def fixed_array_spec {α : Type} (member : Option config_setting_t) (size : Nat)
    (get : config_setting_t → Nat → α) (old new : List α) : Prop :=
  match member with
  | some p =>
    if config_setting_length p = size then new = (List.range size).map (get p)
    else new = old
  | none => new = old

/-- Specification of regression points after `read_config`: when the file has the member
with `len` elements, `0 < len` and `len ≤ MAX_SIZE_POINTS`, the count is `len` and the
first `len` points are those of the file, the others what they were; otherwise count and
points are what they were. -/
def regression_points_spec (S : conf_env) (member : Option config_setting_t)
    (old_num : Int) (old : List ℚ) (new_num : Int) (new : List ℚ) : Prop :=
  match member with
  | some p =>
    if 0 < config_setting_length p ∧ config_setting_length p ≤ S.MAX_SIZE_POINTS then
      new_num = (config_setting_length p : Int) ∧
      new = (List.range (config_setting_length p)).map (config_setting_get_float_elem p) ++
        old.drop (config_setting_length p)
    else new_num = old_num ∧ new = old
  | none => new_num = old_num ∧ new = old

/-- Sizes as in a build with two dimmer transitions, two power states, two day states
and at most 50 regression points. -/
def conf_env_example : conf_env :=
  { SIZE_DIM := 2, SIZE_AC := 2, SIZE_STATES := 2, MAX_SIZE_POINTS := 50,
    sizeof_dev_name := 4097, sizeof_dev_opts := 4097, sizeof_screen_path := 4097,
    sizeof_day_event := 10, CONFDIR := "/etc/default",
    XDG_CONFIG_HOME := some "/home/u/.config",
    config_write_file := fun _ => true }

/-- A configuration with every array at its declared length. -/
def conf_example : full_conf_t :=
  { no_gamma := false, loc := { lat := 45.5, lon := -122.6 },
    day_events := { SUNRISE := "", SUNSET := "" },
    num_captures := 5, no_smooth_backlight := false, no_smooth_gamma := false,
    backlight_trans_step := 1 / 20, gamma_trans_step := 50,
    backlight_trans_timeout := 30, gamma_trans_timeout := 300,
    no_backlight := false, event_duration := 1800, no_dimmer := false,
    dimmer_pct := 1 / 5, shutter_threshold := 0, no_dpms := false,
    verbose := false, no_auto_calib := false, no_keyboard_bl := false,
    gamma_long_transition := false, ambient_gamma := false, no_screen := false,
    screen_contrib := 1 / 10, screen_samples := 10, inhibit_autocalib := false,
    dev_name := "", dev_opts := "", screen_path := "",
    no_smooth_dimmer := [0, 0], dimmer_trans_step := [1 / 20, 1 / 20],
    dimmer_trans_timeout := [30, 30],
    num_points := { ON_AC := 3, ON_BATTERY := 2 },
    regression_points := { ON_AC := [0, 1 / 2, 1] ++ List.replicate 47 0,
                           ON_BATTERY := [0, 1] ++ List.replicate 48 0 },
    dpms_timeout := [900, 300],
    timeout := { ON_AC := [600, 2700, 300], ON_BATTERY := [1200, 5400, 600] },
    dimmer_timeout := [45, 20], temp := [6500, 4000], screen_timeout := [30, -1] }

/-- A file system with a local configuration file that sets the dimmer steps, gives
`gamma_temp` one element too few and gives four regression points for AC. -/
def fs_example : List (String × config_file_t) :=
  [ ("/home/u/.config/clight.conf",
      config_file_t.parsed
        [ ("dimmer_trans_steps",
            config_setting_t.array [config_value.float (1 / 10), config_value.float (1 / 4)]),
          ("gamma_temp", config_setting_t.array [config_value.int 6000]),
          ("ac_backlight_regression_points",
            config_setting_t.array
              [config_value.float 0, config_value.float (1 / 4), config_value.float (1 / 2),
               config_value.float 1]) ]) ]

/-! ### Vocabulary of the statements about storing and reading back -/

/-- The calls `store_config` makes before it comes to the location. -/
def stored_calls_head : List setting_call :=
  [ ⟨"captures", config_type.CONFIG_TYPE_INT, none⟩,
    ⟨"no_smooth_backlight_transition", config_type.CONFIG_TYPE_BOOL, none⟩,
    ⟨"no_smooth_gamma_transition", config_type.CONFIG_TYPE_BOOL, none⟩,
    ⟨"no_smooth_dimmer_transition", config_type.CONFIG_TYPE_ARRAY,
      some config_type.CONFIG_TYPE_BOOL⟩,
    ⟨"backlight_trans_step", config_type.CONFIG_TYPE_FLOAT, none⟩,
    ⟨"gamma_trans_step", config_type.CONFIG_TYPE_INT, none⟩,
    ⟨"dimmer_trans_steps", config_type.CONFIG_TYPE_ARRAY, some config_type.CONFIG_TYPE_FLOAT⟩,
    ⟨"backlight_trans_timeout", config_type.CONFIG_TYPE_INT, none⟩,
    ⟨"gamma_trans_timeout", config_type.CONFIG_TYPE_INT, none⟩,
    ⟨"dimmer_trans_timeouts", config_type.CONFIG_TYPE_ARRAY, some config_type.CONFIG_TYPE_INT⟩,
    ⟨"gamma_long_transition", config_type.CONFIG_TYPE_BOOL, none⟩,
    ⟨"ambient_gamma", config_type.CONFIG_TYPE_BOOL, none⟩ ]

/-- The two calls for the location. -/
def stored_calls_loc : List setting_call :=
  [ ⟨"latitude", config_type.CONFIG_TYPE_FLOAT, none⟩,
    ⟨"longitude", config_type.CONFIG_TYPE_FLOAT, none⟩ ]

/-- The calls `store_config` makes after the location. -/
def stored_calls_tail : List setting_call :=
  [ ⟨"event_duration", config_type.CONFIG_TYPE_INT, none⟩,
    ⟨"dimmer_pct", config_type.CONFIG_TYPE_FLOAT, none⟩,
    ⟨"verbose", config_type.CONFIG_TYPE_BOOL, none⟩,
    ⟨"no_auto_calibration", config_type.CONFIG_TYPE_BOOL, none⟩,
    ⟨"no_kdb_backlight", config_type.CONFIG_TYPE_BOOL, none⟩,
    ⟨"inhibit_autocalib", config_type.CONFIG_TYPE_BOOL, none⟩,
    ⟨"sensor_devname", config_type.CONFIG_TYPE_STRING, none⟩,
    ⟨"sensor_settings", config_type.CONFIG_TYPE_STRING, none⟩,
    ⟨"screen_sysname", config_type.CONFIG_TYPE_STRING, none⟩,
    ⟨"sunrise", config_type.CONFIG_TYPE_STRING, none⟩,
    ⟨"sunset", config_type.CONFIG_TYPE_STRING, none⟩,
    ⟨"shutter_threshold", config_type.CONFIG_TYPE_FLOAT, none⟩,
    ⟨"screen_samples", config_type.CONFIG_TYPE_INT, none⟩,
    ⟨"screen_contrib", config_type.CONFIG_TYPE_FLOAT, none⟩,
    ⟨"ac_backlight_regression_points", config_type.CONFIG_TYPE_ARRAY,
      some config_type.CONFIG_TYPE_FLOAT⟩,
    ⟨"batt_backlight_regression_points", config_type.CONFIG_TYPE_ARRAY,
      some config_type.CONFIG_TYPE_FLOAT⟩,
    ⟨"dpms_timeouts", config_type.CONFIG_TYPE_ARRAY, some config_type.CONFIG_TYPE_INT⟩,
    ⟨"ac_capture_timeouts", config_type.CONFIG_TYPE_ARRAY, some config_type.CONFIG_TYPE_INT⟩,
    ⟨"batt_capture_timeouts", config_type.CONFIG_TYPE_ARRAY, some config_type.CONFIG_TYPE_INT⟩,
    ⟨"dimmer_timeouts", config_type.CONFIG_TYPE_ARRAY, some config_type.CONFIG_TYPE_INT⟩,
    ⟨"gamma_temp", config_type.CONFIG_TYPE_ARRAY, some config_type.CONFIG_TYPE_INT⟩,
    ⟨"screen_timeouts", config_type.CONFIG_TYPE_ARRAY, some config_type.CONFIG_TYPE_INT⟩ ]

/-- The calls `store_config` makes: those for the location are among them when both axes
are defined. -/
def stored_calls (E : Env) (c : full_conf_t) : List setting_call :=
  stored_calls_head ++
    (if c.loc.lat ≠ E.LAT_UNDEFINED ∧ c.loc.lon ≠ E.LON_UNDEFINED then stored_calls_loc
     else []) ++
    stored_calls_tail

/-- The flags `read_config` looks up and `store_config` never writes. -/
def never_stored : List String :=
  ["no_backlight", "no_gamma", "no_dimmer", "no_dpms", "no_screen"]

/-- Every string of the configuration fits its buffer with the closing 0, as a string
held in a `char` array of that size does. -/
def strings_fit (S : conf_env) (c : full_conf_t) : Prop :=
  c.dev_name.length ≤ S.sizeof_dev_name - 1 ∧
  c.dev_opts.length ≤ S.sizeof_dev_opts - 1 ∧
  c.screen_path.length ≤ S.sizeof_screen_path - 1 ∧
  c.day_events.SUNRISE.length ≤ S.sizeof_day_event - 1 ∧
  c.day_events.SUNSET.length ≤ S.sizeof_day_event - 1

/-- A configuration to store: gamma switched off, the first dimmer transition not
smooth, a sensor named, otherwise as `conf_example`. -/
def conf_stored : full_conf_t :=
  { conf_example with
    no_gamma := true, no_smooth_dimmer := [1, 0], dev_name := "video0", num_captures := 7 }

/-- The fields `store_config` writes under a key other than the location and
`no_smooth_dimmer_transition` have in `back` the content they have in `c`; of the
regression points these are the first `num_points` of each power state. -/
def restored_stored_fields (c back : full_conf_t) : Prop :=
  back.num_captures = c.num_captures ∧
  back.no_smooth_backlight = c.no_smooth_backlight ∧
  back.no_smooth_gamma = c.no_smooth_gamma ∧
  back.backlight_trans_step = c.backlight_trans_step ∧
  back.gamma_trans_step = c.gamma_trans_step ∧
  back.dimmer_trans_step = c.dimmer_trans_step ∧
  back.backlight_trans_timeout = c.backlight_trans_timeout ∧
  back.gamma_trans_timeout = c.gamma_trans_timeout ∧
  back.dimmer_trans_timeout = c.dimmer_trans_timeout ∧
  back.gamma_long_transition = c.gamma_long_transition ∧
  back.ambient_gamma = c.ambient_gamma ∧
  back.event_duration = c.event_duration ∧
  back.dimmer_pct = c.dimmer_pct ∧
  back.verbose = c.verbose ∧
  back.no_auto_calib = c.no_auto_calib ∧
  back.no_keyboard_bl = c.no_keyboard_bl ∧
  back.inhibit_autocalib = c.inhibit_autocalib ∧
  back.dev_name = c.dev_name ∧
  back.dev_opts = c.dev_opts ∧
  back.screen_path = c.screen_path ∧
  back.day_events = c.day_events ∧
  back.shutter_threshold = c.shutter_threshold ∧
  back.screen_samples = c.screen_samples ∧
  back.screen_contrib = c.screen_contrib ∧
  back.num_points = c.num_points ∧
  back.regression_points.ON_AC.take c.num_points.ON_AC.toNat =
    c.regression_points.ON_AC.take c.num_points.ON_AC.toNat ∧
  back.regression_points.ON_BATTERY.take c.num_points.ON_BATTERY.toNat =
    c.regression_points.ON_BATTERY.take c.num_points.ON_BATTERY.toNat ∧
  back.dpms_timeout = c.dpms_timeout ∧
  back.timeout = c.timeout ∧
  back.dimmer_timeout = c.dimmer_timeout ∧
  back.temp = c.temp ∧
  back.screen_timeout = c.screen_timeout

/-- The five flags that are never stored have in `back` the content they have in `c0`. -/
def kept_flags (c0 back : full_conf_t) : Prop :=
  back.no_backlight = c0.no_backlight ∧
  back.no_gamma = c0.no_gamma ∧
  back.no_dimmer = c0.no_dimmer ∧
  back.no_dpms = c0.no_dpms ∧
  back.no_screen = c0.no_screen

/-! # Theorems -/

theorem emit_trace (e : Effect) (w : World) : (emit e w).trace = w.trace ++ [e] := rfl

theorem emit_state (e : Effect) (w : World) : (emit e w).state = w.state := rfl

theorem emit_subscribed (e : Effect) (w : World) : (emit e w).subscribed = w.subscribed := rfl

/-- A `LOC_UPD` message never changes the module: its `receive` ignores the kind. -/
theorem bus_LOC_UPD (E : Env) (n : Nat) (l : message_t) (w : World)
    (h : l.type = mod_msg_types.LOC_UPD) : bus E (n + 1) l w = some w := by
  unfold bus
  split <;> simp [receive_with, MSG_TYPE, h]

/-- Publishing `loc_msg` records the call and changes nothing else. -/
theorem publish_loc_msg (E : Env) (n : Nat) (a b : ℚ) (w : World) :
    publish_location (bus E (n + 1)) a b declared_msg.loc_msg w =
      some (emit (Effect.M_PUB
        { type := mod_msg_types.LOC_UPD, loc := { old := w.state.current_loc, new := ⟨a, b⟩ } }
        w.state.current_loc) w) := by
  unfold publish_location M_PUB
  rw [bus_LOC_UPD E n _ _ rfl]
  rfl

/-- The world `receive` leaves behind after accepting a request. -/
theorem receive_with_accept (E : Env) (n : Nat) (m : message_t) (w : World)
    (ht : m.type = mod_msg_types.LOCATION_REQ) (hv : VALIDATE_REQ m.loc = true) :
    receive_with E (bus E (n + 1)) (msg_t.ps_msg m) w =
      some { w with
        trace := w.trace ++ [Effect.M_PUB
          { type := mod_msg_types.LOC_UPD,
            loc := { old := w.state.current_loc, new := m.loc.new } } w.state.current_loc],
        state := { current_loc := m.loc.new } } := by
  simp [receive_with, MSG_TYPE, MSG_DATA, ht, hv, publish_loc_msg, emit]

/-- A request that fails validation is dropped, whatever the bus does. -/
theorem receive_with_reject (E : Env) (d : message_t → World → Option World) (m : message_t)
    (w : World) (ht : m.type = mod_msg_types.LOCATION_REQ) (hv : VALIDATE_REQ m.loc = false) :
    receive_with E d (msg_t.ps_msg m) w = some w := by
  simp [receive_with, MSG_TYPE, MSG_DATA, ht, hv]

theorem VALIDATE_REQ_iff (l : loc_upd) :
    VALIDATE_REQ l = true ↔
      (-90 ≤ l.new.lat ∧ l.new.lat ≤ 90 ∧ -180 ≤ l.new.lon ∧ l.new.lon ≤ 180) := by
  simp [VALIDATE_REQ]

/-! ## C1: publish first, store afterwards -/

/-- C1: for every world, with shared location `cur`, and every `LOCATION_REQ` whose payload
passes validation with requested location `req`, `receive` returns, and the world it
leaves differs from the one it found in two places only: the trace has one more entry,
the publication of a `LOC_UPD` with `old = cur` and `new = req` made while the shared
location still read `cur`, and the shared location now reads `req`. -/
theorem receive_request_publishes_then_stores (E : Env) (fuel : Nat) (w : World)
    (m : message_t) (ht : m.type = mod_msg_types.LOCATION_REQ)
    (hv : VALIDATE_REQ m.loc = true) :
    receive E (fuel + 1) (msg_t.ps_msg m) w =
      some { w with
        trace := w.trace ++ [Effect.M_PUB
          { type := mod_msg_types.LOC_UPD,
            loc := { old := w.state.current_loc, new := m.loc.new } } w.state.current_loc],
        state := { current_loc := m.loc.new } } :=
  receive_with_accept E fuel m w ht hv

/-- C1 at the example of the spec: current location (10, 20), request (12.34, 56.78). -/
theorem receive_request_publishes_then_stores_witness :
    VALIDATE_REQ req_example.loc = true ∧
    receive env_ok 1 (msg_t.ps_msg req_example) world0 =
      some { world0 with
        trace := [Effect.M_PUB
          { type := mod_msg_types.LOC_UPD,
            loc := { old := { lat := 10, lon := 20 }, new := { lat := 12.34, lon := 56.78 } } }
          { lat := 10, lon := 20 }],
        state := { current_loc := { lat := 12.34, lon := 56.78 } } } :=
  ⟨by norm_num [VALIDATE_REQ, req_example],
   receive_request_publishes_then_stores env_ok 0 world0 req_example rfl
     (by norm_num [VALIDATE_REQ, req_example])⟩

/-! ## C2: the validation boundary -/

/-- C2: `receive` accepts a `LOCATION_REQ` (it publishes the `LOC_UPD` and stores the
requested location) exactly when the requested latitude lies in [-90, 90] and the
requested longitude lies in [-180, 180]. -/
theorem receive_accepts_iff_in_range (E : Env) (fuel : Nat) (w : World) (m : message_t)
    (ht : m.type = mod_msg_types.LOCATION_REQ) :
    (∃ w1, receive E (fuel + 1) (msg_t.ps_msg m) w = some w1 ∧
        w1.trace = w.trace ++ [Effect.M_PUB
          { type := mod_msg_types.LOC_UPD,
            loc := { old := w.state.current_loc, new := m.loc.new } } w.state.current_loc] ∧
        w1.state.current_loc = m.loc.new) ↔
      (-90 ≤ m.loc.new.lat ∧ m.loc.new.lat ≤ 90 ∧
        -180 ≤ m.loc.new.lon ∧ m.loc.new.lon ≤ 180) := by
  rw [← VALIDATE_REQ_iff]
  constructor
  · rintro ⟨w1, h1, h2, -⟩
    by_contra hv
    have hv2 : VALIDATE_REQ m.loc = false := by simpa using hv
    have h3 : receive E (fuel + 1) (msg_t.ps_msg m) w = some w :=
      receive_with_reject E _ m w ht hv2
    rw [h3] at h1
    have h4 : w = w1 := Option.some.inj h1
    subst h4
    simp at h2
  · intro hv
    exact ⟨_, receive_with_accept E fuel m w ht hv, rfl, rfl⟩

/-- C2 at the boundary: latitude 90 is accepted, latitude 91 is not. -/
theorem receive_accepts_iff_in_range_witness :
    (∃ w1, receive env_ok 1 (msg_t.ps_msg req_lat_90) world0 = some w1 ∧
        w1.trace = world0.trace ++ [Effect.M_PUB
          { type := mod_msg_types.LOC_UPD,
            loc := { old := world0.state.current_loc, new := req_lat_90.loc.new } }
          world0.state.current_loc] ∧
        w1.state.current_loc = req_lat_90.loc.new) ∧
    ¬ (∃ w1, receive env_ok 1 (msg_t.ps_msg req_lat_91) world0 = some w1 ∧
        w1.trace = world0.trace ++ [Effect.M_PUB
          { type := mod_msg_types.LOC_UPD,
            loc := { old := world0.state.current_loc, new := req_lat_91.loc.new } }
          world0.state.current_loc] ∧
        w1.state.current_loc = req_lat_91.loc.new) :=
  ⟨(receive_accepts_iff_in_range env_ok 0 world0 req_lat_90 rfl).mpr
      (by norm_num [req_lat_90]),
   fun h => absurd ((receive_accepts_iff_in_range env_ok 0 world0 req_lat_91 rfl).mp h)
      (by norm_num [req_lat_91])⟩

/-! ## C3: a rejected request changes nothing -/

/-- C3: for every `LOCATION_REQ` whose payload fails validation, `receive` returns the
world it was given: nothing is published (the trace is the same) and no part of the
shared state, the shared location in particular, is changed. -/
theorem receive_rejected_request_is_dropped (E : Env) (fuel : Nat) (w : World)
    (m : message_t) (ht : m.type = mod_msg_types.LOCATION_REQ)
    (hv : VALIDATE_REQ m.loc = false) :
    receive E fuel (msg_t.ps_msg m) w = some w :=
  receive_with_reject E _ m w ht hv

/-- C3 at latitude 91. -/
theorem receive_rejected_request_is_dropped_witness :
    VALIDATE_REQ req_lat_91.loc = false ∧
    receive env_ok 0 (msg_t.ps_msg req_lat_91) world0 = some world0 :=
  ⟨by norm_num [VALIDATE_REQ, req_lat_91],
   receive_rejected_request_is_dropped env_ok 0 world0 req_lat_91 rfl
     (by norm_num [VALIDATE_REQ, req_lat_91])⟩

/-! ## The bus and the helpers of the module -/

theorem events_since_append (w w1 : World) (evs : List Effect)
    (h : w1.trace = w.trace ++ evs) : events_since w w1 = evs := by
  simp [events_since, h]

/-- With fuel for two nested deliveries, the bus hands a `LOCATION_REQ` to the module
exactly when it is subscribed, and the module accepts it exactly when it is valid. -/
theorem bus_LOCATION_REQ (E : Env) (n : Nat) (l : message_t) (w : World)
    (ht : l.type = mod_msg_types.LOCATION_REQ) :
    bus E (n + 2) l w =
      some (if mod_msg_types.LOCATION_REQ ∈ w.subscribed ∧ VALIDATE_REQ l.loc = true
            then after_accept l.loc w else w) := by
  unfold bus
  by_cases hs : mod_msg_types.LOCATION_REQ ∈ w.subscribed
  · by_cases hv : VALIDATE_REQ l.loc = true
    · simp [ht, hs, hv, receive_with_accept E n l w ht hv, after_accept]
    · have hv2 : VALIDATE_REQ l.loc = false := by simpa using hv
      simp [ht, hs, hv2, receive_with_reject E _ l w ht hv2]
  · simp [ht, hs]

/-- Publishing `loc_req` with fuel for two nested deliveries. -/
theorem publish_loc_req (E : Env) (n : Nat) (a b : ℚ) (w : World) :
    publish_location (bus E (n + 2)) a b declared_msg.loc_req w =
      some (after_publish_req a b w) := by
  unfold publish_location M_PUB
  rw [bus_LOCATION_REQ E n _ _ rfl]
  rfl

theorem not_lifecycle_of_publish (e : Effect) (h : is_publish e = true) :
    is_lifecycle_call e = false := by
  cases e <;> simp_all [is_publish, is_lifecycle_call]

theorem filter_lifecycle_dbus (evs : List Effect) (h : ∀ e ∈ evs, is_dbus_call e = true) :
    evs.filter is_lifecycle_call = [] := by
  rw [List.filter_eq_nil_iff]
  intro e he
  have := h e he
  cases e <;> simp_all [is_dbus_call, is_lifecycle_call]

theorem filter_lifecycle_publish (evs : List Effect) (h : ∀ e ∈ evs, is_publish e = true) :
    evs.filter is_lifecycle_call = [] := by
  rw [List.filter_eq_nil_iff]
  intro e he
  simp [not_lifecycle_of_publish e (h e he)]

/-- Choosing the cache path changes nothing but `cache_file`. -/
theorem init_cache_file_frame (E : Env) (w : World) :
    (init_cache_file E w).state = w.state ∧ (init_cache_file E w).subscribed = w.subscribed ∧
    (init_cache_file E w).files = w.files ∧ (init_cache_file E w).trace = w.trace ∧
    (init_cache_file E w).conf = w.conf := by
  unfold init_cache_file
  cases E.XDG_CACHE_HOME <;> simp

/-- Starting the client only talks to D-Bus: it leaves the shared state, the
subscriptions, the files and the configuration alone. -/
theorem geoclue_init_frame (E : Env) (w : World) :
    (geoclue_init E w).2.state = w.state ∧ (geoclue_init E w).2.subscribed = w.subscribed ∧
    (geoclue_init E w).2.files = w.files ∧ (geoclue_init E w).2.cache_file = w.cache_file ∧
    (geoclue_init E w).2.conf = w.conf ∧
    ∃ evs, (geoclue_init E w).2.trace = w.trace ++ evs ∧ ∀ e ∈ evs, is_dbus_call e = true := by
  unfold geoclue_init geoclue_get_client geoclue_hook_update geoclue_client_start
  cases hg : E.GetClient.2 <;> cases hl : E.LocationUpdated.2 <;>
    simp only [] <;> split_ifs <;>
    simp [emit, is_dbus_call]

/-- Publishing a request: what is recorded and how the shared location can change. -/
theorem after_publish_req_spec (a b : ℚ) (w : World) :
    ∃ evs, (after_publish_req a b w).trace = w.trace ++ evs ∧
      (∀ e ∈ evs, is_publish e = true) ∧
      (after_publish_req a b w).subscribed = w.subscribed ∧
      ((after_publish_req a b w).state.current_loc = w.state.current_loc ∨
        ∃ l cur, Effect.M_PUB l cur ∈ evs ∧ l.type = mod_msg_types.LOC_UPD ∧
          VALIDATE_REQ l.loc = true ∧ (after_publish_req a b w).state.current_loc = l.loc.new) := by
  unfold after_publish_req
  split_ifs with h
  · refine ⟨[Effect.M_PUB (request_msg w a b) w.state.current_loc,
        Effect.M_PUB { type := mod_msg_types.LOC_UPD,
                       loc := { old := w.state.current_loc, new := ⟨a, b⟩ } }
          w.state.current_loc],
      by simp [after_accept, emit], by simp [is_publish], by simp [after_accept, emit], ?_⟩
    right
    exact ⟨{ type := mod_msg_types.LOC_UPD,
             loc := { old := w.state.current_loc, new := ⟨a, b⟩ } }, w.state.current_loc,
      by simp, rfl, h.2, rfl⟩
  · exact ⟨[Effect.M_PUB (request_msg w a b) w.state.current_loc],
      by simp [emit], by simp [is_publish], by simp [emit], Or.inl rfl⟩

/-- What `load_cache_location` does, with fuel for two nested deliveries. -/
theorem load_cache_location_eq (E : Env) (n : Nat) (w : World) :
    load_cache_location (bus E (n + 2)) w =
      some (match w.files.lookup w.cache_file with
        | some text =>
          if (fscanf_lf_lf text.data).1 = 2 then
            (0, after_publish_req (fscanf_lf_lf text.data).2.1 (fscanf_lf_lf text.data).2.2
              (emit (Effect.fopen w.cache_file "r") w))
          else (-1, emit (Effect.fopen w.cache_file "r") w)
        | none => (-1, emit (Effect.fopen w.cache_file "r") w)) := by
  unfold load_cache_location fopen_r
  simp only [emit]
  cases h : w.files.lookup w.cache_file with
  | none => simp
  | some text =>
    by_cases h2 : (fscanf_lf_lf text.data).1 = 2
    · simp [h2, publish_loc_req, emit]
    · simp [h2]

/-- Loading the cache: it returns, it opens the file first, everything after that is a
publication, the subscriptions stay, and the shared location changes only through an
accepted request. -/
theorem load_cache_location_spec (E : Env) (n : Nat) (w : World) :
    ∃ c evs, load_cache_location (bus E (n + 2)) w = some c ∧
      c.2.trace = w.trace ++ Effect.fopen w.cache_file "r" :: evs ∧
      (∀ e ∈ evs, is_publish e = true) ∧ c.2.subscribed = w.subscribed ∧
      (c.2.state.current_loc = w.state.current_loc ∨
        ∃ l cur, Effect.M_PUB l cur ∈ evs ∧ l.type = mod_msg_types.LOC_UPD ∧
          VALIDATE_REQ l.loc = true ∧ c.2.state.current_loc = l.loc.new) := by
  rw [load_cache_location_eq]
  cases h : w.files.lookup w.cache_file with
  | none =>
    exact ⟨_, [], rfl, by simp [emit], by simp, by simp [emit], Or.inl rfl⟩
  | some text =>
    by_cases h2 : (fscanf_lf_lf text.data).1 = 2
    · obtain ⟨evs, h3, h4, h5, h6⟩ := after_publish_req_spec (fscanf_lf_lf text.data).2.1
        (fscanf_lf_lf text.data).2.2 (emit (Effect.fopen w.cache_file "r") w)
      refine ⟨_, evs, rfl, ?_, h4, ?_, ?_⟩
      · simp only [h2, if_true, h3, emit_trace]
        simp
      · simp only [h2, if_true, h5, emit_subscribed]
      · simpa only [h2, if_true, emit_state] using h6
    · exact ⟨_, [], rfl, by simp [h2, emit], by simp, by simp [h2, emit],
        Or.inl (by simp [h2, emit])⟩

/-- The failure branch of `init` when the cache gives nothing. -/
theorem init_of_failure (E : Env) (fuel : Nat) (w : World) (c : Int × World)
    (hr : (geoclue_init E (init_cache_file E w)).1 ≠ 0)
    (hc : load_cache_location (bus E fuel) (geoclue_init E (init_cache_file E w)).2 = some c)
    (hne : c.1 ≠ 0) :
    init E fuel w = some (m_poisonpill
      { c.2 with state := { c.2.state with
          current_loc := { lat := E.LAT_UNDEFINED + 1, lon := E.LON_UNDEFINED + 1 } } }) := by
  simp only [init, hr, if_false, hc, Option.map_some', hne, ne_eq, not_false_eq_true, if_true]

/-- In `env_no_client` the client cannot be started. -/
theorem geoclue_fails_no_client :
    (geoclue_init env_no_client (init_cache_file env_no_client world0)).1 ≠ 0 := by
  decide

/-- In `world0` there is no cache file to load. -/
theorem load_cache_no_file :
    load_cache_location (bus env_no_client 2)
      (geoclue_init env_no_client (init_cache_file env_no_client world0)).2 =
    some (-1, emit (Effect.fopen "/home/u/.cache/clight" "r")
      (geoclue_init env_no_client (init_cache_file env_no_client world0)).2) := by
  rfl

theorem written_of_mem (w w1 : World) (evs : List Effect) (h : w1.trace = w.trace ++ evs)
    (l : message_t) (cur : loc_t) (hm : Effect.M_PUB l cur ∈ evs)
    (ht : l.type = mod_msg_types.LOC_UPD) (hv : VALIDATE_REQ l.loc = true)
    (hl : w1.state.current_loc = l.loc.new) : written_by_request w w1 :=
  ⟨l, cur, by rw [events_since_append w w1 evs h]; exact hm, ht, hv, hl⟩

/-- Loading the cache after a step that recorded `pre` and left the state alone. -/
theorem load_cache_location_after (E : Env) (n : Nat) (w w0 : World) (pre : List Effect)
    (ht : w0.trace = w.trace ++ pre) (hs : w0.state = w.state) :
    ∃ c, load_cache_location (bus E (n + 2)) w0 = some c ∧
      (c.2.state.current_loc = w.state.current_loc ∨ written_by_request w c.2) := by
  obtain ⟨c, evs, h1, h2, -, -, h5⟩ := load_cache_location_spec E n w0
  refine ⟨c, h1, ?_⟩
  rcases h5 with h5 | ⟨l, cur, h6, h7, h8, h9⟩
  · left
    rw [h5, hs]
  · right
    refine written_of_mem w c.2 (pre ++ Effect.fopen w0.cache_file "r" :: evs) ?_ l cur ?_ h7 h8 h9
    · rw [h2, ht]
      simp
    · simp [h6]

/-- Publishing either declared message after a step that recorded `pre` and left the
state alone. -/
theorem publish_location_writes (E : Env) (n : Nat) (a b : ℚ) (l : declared_msg)
    (w w0 : World) (pre : List Effect)
    (ht : w0.trace = w.trace ++ pre) (hs : w0.state = w.state) :
    ∃ w1, publish_location (bus E (n + 2)) a b l w0 = some w1 ∧
      (w1.state.current_loc = w.state.current_loc ∨ written_by_request w w1) := by
  cases l with
  | loc_msg =>
    refine ⟨_, publish_loc_msg E (n + 1) a b w0, Or.inl ?_⟩
    rw [emit_state, hs]
  | loc_req =>
    refine ⟨_, publish_loc_req E n a b w0, ?_⟩
    obtain ⟨evs, h2, -, -, h5⟩ := after_publish_req_spec a b w0
    rcases h5 with h5 | ⟨l, cur, h6, h7, h8, h9⟩
    · left
      rw [h5, hs]
    · right
      refine written_of_mem w _ (pre ++ evs) ?_ l cur ?_ h7 h8 h9
      · rw [h2, ht]
        simp
      · simp [h6]

theorem cache_location_state (E : Env) (w : World) : (cache_location E w).state = w.state := by
  unfold cache_location
  simp only []
  split_ifs <;> rfl

theorem destroy_state (E : Env) (w : World) : (destroy E w).state = w.state := by
  unfold destroy
  simp only []
  split_ifs <;> simp [cache_location_state, geoclue_client_delete, emit]

theorem receive_writes (E : Env) (n : Nat) (msg : msg_t) (w : World) :
    ∃ w1, receive E (n + 2) msg w = some w1 ∧
      (w1.state.current_loc = w.state.current_loc ∨ written_by_request w w1) := by
  cases hm : MSG_TYPE msg with
  | FD_UPD =>
    by_cases h : w.state.current_loc.lat = E.LAT_UNDEFINED ∨
        w.state.current_loc.lon = E.LON_UNDEFINED
    · obtain ⟨c, h1, h2⟩ := load_cache_location_after E n w (read_timer (msg_fd msg) w)
        [Effect.read_timer (msg_fd msg)] rfl rfl
      refine ⟨c.2, ?_, h2⟩
      simp only [receive, receive_with, hm]
      rw [if_pos (by simpa [read_timer, emit] using h), h1]
      rfl
    · refine ⟨read_timer (msg_fd msg) w, ?_, Or.inl rfl⟩
      simp only [receive, receive_with, hm]
      rw [if_neg (by simpa [read_timer, emit] using h)]
  | LOCATION_REQ =>
    cases msg with
    | fd_msg fd => simp [MSG_TYPE] at hm
    | ps_msg m =>
      have ht : m.type = mod_msg_types.LOCATION_REQ := hm
      by_cases hv : VALIDATE_REQ m.loc = true
      · refine ⟨_, receive_with_accept E (n + 1) m w ht hv, Or.inr ?_⟩
        exact written_of_mem w _ _ rfl
          { type := mod_msg_types.LOC_UPD,
            loc := { old := w.state.current_loc, new := m.loc.new } }
          w.state.current_loc (by simp) rfl (by simpa [VALIDATE_REQ] using hv) rfl
      · exact ⟨w, receive_with_reject E _ m w ht (by simpa using hv), Or.inl rfl⟩
  | SYSTEM_UPD => exact ⟨w, by simp [receive, receive_with, hm], Or.inl rfl⟩
  | LOC_UPD => exact ⟨w, by simp [receive, receive_with, hm], Or.inl rfl⟩
  | OTHER k => exact ⟨w, by simp [receive, receive_with, hm], Or.inl rfl⟩

theorem on_geoclue_new_location_writes (E : Env) (n : Nat) (m : sd_bus_message) (w : World) :
    ∃ c, on_geoclue_new_location E (n + 2) m w = some c ∧
      (c.2.state.current_loc = w.state.current_loc ∨ written_by_request w c.2) := by
  unfold on_geoclue_new_location
  simp only []
  split_ifs with h1 h2
  · obtain ⟨w1, h3, h4⟩ := publish_location_writes E n
      (E.get_property (lat_args m.new_location)).2
      (E.get_property (lon_args m.new_location)).2
      declared_msg.loc_req w
      (emit (Effect.get_property (lon_args m.new_location))
        (emit (Effect.get_property (lat_args m.new_location)) w))
      [Effect.get_property (lat_args m.new_location),
       Effect.get_property (lon_args m.new_location)]
      (by simp [emit]) rfl
    exact ⟨(0, w1), by simp only [h3, Option.map_some'], h4⟩
  · exact ⟨_, rfl, Or.inl rfl⟩
  · exact ⟨_, rfl, Or.inl rfl⟩

theorem init_writes (E : Env) (n : Nat) (w : World) :
    ∃ w1, init E (n + 2) w = some w1 ∧
      (w1.state.current_loc = w.state.current_loc ∨ written_by_request w w1 ∨
        ((geoclue_init E (init_cache_file E w)).1 ≠ 0 ∧
         (∃ c, load_cache_location (bus E (n + 2)) (geoclue_init E (init_cache_file E w)).2
            = some c ∧ c.1 ≠ 0) ∧
         w1.state.current_loc =
           { lat := E.LAT_UNDEFINED + 1, lon := E.LON_UNDEFINED + 1 })) := by
  obtain ⟨hst0, -, -, ht0, -⟩ := init_cache_file_frame E w
  obtain ⟨hst1, -, -, -, -, evs, ht1, -⟩ := geoclue_init_frame E (init_cache_file E w)
  rw [ht0] at ht1
  rw [hst0] at hst1
  by_cases hr : (geoclue_init E (init_cache_file E w)).1 = 0
  · refine ⟨m_register_fd E.timer_fd true (start_timer E 3 0
      (M_SUB mod_msg_types.LOCATION_REQ (geoclue_init E (init_cache_file E w)).2)).2,
      by simp only [init, hr, if_true]; rfl, Or.inl ?_⟩
    simp only [m_register_fd, start_timer, M_SUB, emit]
    split_ifs <;> simp [hst1]
  · obtain ⟨c, h1, h2⟩ := load_cache_location_after E n w
      (geoclue_init E (init_cache_file E w)).2 evs ht1 hst1
    by_cases hc : c.1 = 0
    · refine ⟨m_poisonpill c.2, by simp [init, hr, h1, hc], ?_⟩
      rcases h2 with h2 | ⟨l, cur, h3, h4, h5, h6⟩
      · exact Or.inl h2
      · refine Or.inr (Or.inl ⟨l, cur, ?_, h4, h5, h6⟩)
        simp only [events_since, m_poisonpill, emit_trace] at h3 ⊢
        rw [List.drop_append_eq_append_drop]
        exact List.mem_append_left _ h3
    · exact ⟨_, init_of_failure E (n + 2) w c hr h1 hc, Or.inr (Or.inr ⟨hr, ⟨c, h1, hc⟩, rfl⟩)⟩

theorem round_half_even_intCast (n : ℤ) : round_half_even (n : ℚ) = n := by
  simp [round_half_even]

/-- The line `cache_location` prints for the location (91 + 1, 181 + 1). -/
theorem fmt_marker : fmt_lf_lf (91 + 1) (181 + 1) = "92.000000 182.000000\n".data := by
  have h1 : round_half_even (|(91 + 1 : ℚ)| * 10 ^ 6) = 92000000 := by
    have : (|(91 + 1 : ℚ)| * 10 ^ 6) = ((92000000 : ℤ) : ℚ) := by norm_num
    rw [this, round_half_even_intCast]
  have h2 : round_half_even (|(181 + 1 : ℚ)| * 10 ^ 6) = 182000000 := by
    have : (|(181 + 1 : ℚ)| * 10 ^ 6) = ((182000000 : ℤ) : ℚ) := by norm_num
    rw [this, round_half_even_intCast]
  have h3 : ¬ ((91 + 1 : ℚ) < 0) := by norm_num
  have h4 : ¬ ((181 + 1 : ℚ) < 0) := by norm_num
  simp only [fmt_lf_lf, fmt_lf, h1, h2, h3, h4, if_false]
  decide

/-- What `cache_location` does when the location passes its guard and the file can be
opened. -/
theorem cache_location_writes (E : Env) (w : World)
    (hd : w.state.current_loc.lat ≠ E.LAT_UNDEFINED ∧ w.state.current_loc.lon ≠ E.LON_UNDEFINED)
    (hw : E.fopen_w w.cache_file = true) :
    cache_location E w =
      { w with
        trace := w.trace ++ [Effect.fopen w.cache_file "w",
          Effect.fprintf w.cache_file
            (String.mk (fmt_lf_lf w.state.current_loc.lat w.state.current_loc.lon))],
        files := (w.cache_file,
            String.mk (fmt_lf_lf w.state.current_loc.lat w.state.current_loc.lon)) ::
          w.files.filter (fun f => f.1 ≠ w.cache_file) } := by
  unfold cache_location
  simp only [emit]
  rw [if_pos hd, if_pos hw]
  simp

/-- What `destroy` leaves in the cache when a client path is set, the location passes the
guard of `cache_location` and the file can be opened. -/
theorem destroy_with_client (E : Env) (w : World) (hc : w.client.length ≠ 0)
    (hd : w.state.current_loc.lat ≠ E.LAT_UNDEFINED ∧ w.state.current_loc.lon ≠ E.LON_UNDEFINED)
    (hw : E.fopen_w w.cache_file = true) :
    (destroy E w).files =
      (w.cache_file, String.mk (fmt_lf_lf w.state.current_loc.lat w.state.current_loc.lon)) ::
        w.files.filter (fun f => f.1 ≠ w.cache_file) ∧
    Effect.fprintf w.cache_file
      (String.mk (fmt_lf_lf w.state.current_loc.lat w.state.current_loc.lon)) ∈
        (destroy E w).trace := by
  have h := cache_location_writes E (geoclue_client_delete w) hd hw
  unfold destroy
  simp only [if_pos hc, h]
  constructor
  · split_ifs <;> simp [geoclue_client_delete, emit]
  · split_ifs <;> simp [geoclue_client_delete, emit]

/-! ## Printing and reading `"%lf %lf\n"` -/

theorem digit_char_toNat (d : Nat) (h : d < 10) : (digit_char d).toNat = 48 + d := by
  interval_cases d <;> rfl

theorem isdigit_digit_char (d : Nat) (h : d < 10) : isdigit (digit_char d) = true := by
  simp [isdigit, digit_char_toNat d h]
  omega

theorem digits_val_append (xs ys : List Char) :
    digits_val (xs ++ ys) = digits_val xs * 10 ^ ys.length + digits_val ys := by
  unfold digits_val
  rw [List.foldl_append]
  generalize List.foldl (fun a c => 10 * a + (c.toNat - 48)) 0 xs = a
  induction ys generalizing a with
  | nil => simp
  | cons c cs ih =>
    simp only [List.foldl_cons, List.length_cons]
    rw [ih (10 * a + (c.toNat - 48)), ih (10 * 0 + (c.toNat - 48))]
    ring

theorem digits_val_single (d : Nat) (h : d < 10) : digits_val [digit_char d] = d := by
  simp [digits_val, digit_char_toNat d h]

/-- The digits `nat_digits_aux` puts in front of the accumulator. -/
theorem nat_digits_aux_spec (fuel : Nat) : ∀ (n : Nat) (acc : List Char), n ≤ fuel →
    ∃ ds, nat_digits_aux fuel n acc = ds ++ acc ∧ ds ≠ [] ∧
      (∀ c ∈ ds, isdigit c = true) ∧ digits_val ds = n := by
  induction fuel with
  | zero =>
    intro n acc hn
    have h0 : n = 0 := by omega
    subst h0
    exact ⟨[digit_char 0], rfl, by simp, by simp [isdigit_digit_char], digits_val_single 0 (by omega)⟩
  | succ k ih =>
    intro n acc hn
    unfold nat_digits_aux
    by_cases h : n < 10
    · rw [if_pos h]
      exact ⟨[digit_char n], rfl, by simp, by simp [isdigit_digit_char n h], digits_val_single n h⟩
    · rw [if_neg h]
      obtain ⟨ds, h1, h2, h3, h4⟩ := ih (n / 10) (digit_char (n % 10) :: acc) (by omega)
      have hm : n % 10 < 10 := Nat.mod_lt _ (by omega)
      refine ⟨ds ++ [digit_char (n % 10)], by simp [h1], by simp, ?_, ?_⟩
      · intro c hc
        rcases List.mem_append.mp hc with hc | hc
        · exact h3 c hc
        · rw [List.mem_singleton.mp hc]
          exact isdigit_digit_char _ hm
      · rw [digits_val_append, h4, digits_val_single _ hm]
        simp
        omega

theorem nat_digits_spec (n : Nat) :
    nat_digits n ≠ [] ∧ (∀ c ∈ nat_digits n, isdigit c = true) ∧ digits_val (nat_digits n) = n := by
  obtain ⟨ds, h1, h2, h3, h4⟩ := nat_digits_aux_spec n n [] (le_refl n)
  have : nat_digits n = ds := by simp [nat_digits, h1]
  rw [this]
  exact ⟨h2, h3, h4⟩

theorem frac_digits_spec (k : Nat) : ∀ n : Nat,
    (frac_digits k n).length = k ∧ (∀ c ∈ frac_digits k n, isdigit c = true) ∧
      digits_val (frac_digits k n) = n % 10 ^ k := by
  induction k with
  | zero =>
    intro n
    simp [frac_digits, digits_val, Nat.mod_one]
  | succ k ih =>
    intro n
    obtain ⟨h1, h2, h3⟩ := ih (n / 10)
    have hm : n % 10 < 10 := Nat.mod_lt _ (by omega)
    refine ⟨by simp [frac_digits, h1], ?_, ?_⟩
    · intro c hc
      simp only [frac_digits] at hc
      rcases List.mem_append.mp hc with hc | hc
      · exact h2 c hc
      · rw [List.mem_singleton.mp hc]
        exact isdigit_digit_char _ hm
    · simp only [frac_digits]
      rw [digits_val_append, h3, digits_val_single _ hm]
      simp only [List.length_singleton, pow_one]
      rw [pow_succ, Nat.mul_comm (10 ^ k) 10, Nat.mod_mul]
      ring

theorem not_isspace_of_isdigit (c : Char) (h : isdigit c = true) : isspace c = false := by
  simp only [isdigit, decide_eq_true_eq] at h
  simp only [isspace, decide_eq_false_iff_not]
  omega

theorem not_sign_of_isdigit (c : Char) (h : isdigit c = true) : c ≠ '-' ∧ c ≠ '+' := by
  simp only [isdigit, decide_eq_true_eq] at h
  constructor <;> rintro rfl <;> revert h <;> decide

/-- Reading the digits, the point and the six decimals back, up to a character `c0` that
is neither a digit nor an exponent mark. -/
theorem scan_unsigned (neg : Bool) (D F : List Char) (c0 : Char) (rest : List Char)
    (hD : D ≠ []) (hDd : ∀ c ∈ D, isdigit c = true) (hFd : ∀ c ∈ F, isdigit c = true)
    (h0 : isdigit c0 = false) (he : c0 ≠ 'e' ∧ c0 ≠ 'E')
    (cs : List Char) (hs : scan_sign (skip_ws cs) = (neg, D ++ '.' :: (F ++ c0 :: rest))) :
    scan_lf cs =
      some (round_binary64
        (if neg then -((digits_val (D ++ F) : ℚ) / 10 ^ F.length)
         else (digits_val (D ++ F) : ℚ) / 10 ^ F.length), c0 :: rest) := by
  have hpoint : isdigit '.' = false := by decide
  have htake : (D ++ '.' :: (F ++ c0 :: rest)).takeWhile isdigit = D := by
    rw [List.takeWhile_append_of_pos hDd]
    simp [List.takeWhile, hpoint]
  have hdrop : (D ++ '.' :: (F ++ c0 :: rest)).dropWhile isdigit = '.' :: (F ++ c0 :: rest) := by
    rw [List.dropWhile_append_of_pos hDd]
    simp [List.dropWhile, hpoint]
  have hftake : (F ++ c0 :: rest).takeWhile isdigit = F := by
    rw [List.takeWhile_append_of_pos hFd]
    simp [List.takeWhile, h0]
  have hfdrop : (F ++ c0 :: rest).dropWhile isdigit = c0 :: rest := by
    rw [List.dropWhile_append_of_pos hFd]
    simp [List.dropWhile, h0]
  have hfrac : scan_frac ('.' :: (F ++ c0 :: rest)) = (F, c0 :: rest) := by
    simp [scan_frac, hftake, hfdrop]
  have hexp : scan_exp (c0 :: rest) = (0, c0 :: rest) := by
    simp [scan_exp, he.1, he.2]
  unfold scan_lf
  simp only [hs, htake, hdrop, hfrac, hexp]
  rw [if_neg (by simp [hD])]
  simp

theorem decimal_value (n : Nat) :
    ((digits_val (nat_digits (n / 10 ^ 6) ++ frac_digits 6 (n % 10 ^ 6)) : ℕ) : ℚ) /
      10 ^ (frac_digits 6 (n % 10 ^ 6)).length = (n : ℚ) / 10 ^ 6 := by
  obtain ⟨-, -, h3⟩ := nat_digits_spec (n / 10 ^ 6)
  obtain ⟨h4, -, h6⟩ := frac_digits_spec 6 (n % 10 ^ 6)
  rw [digits_val_append, h3, h4, h6, Nat.mod_mod, Nat.div_add_mod']

/-- Reading back what `printf("%lf", x)` wrote gives `x` rounded to six decimals and then
to binary64, and stops in front of the next character. -/
theorem scan_lf_fmt_lf (x : ℚ) (c0 : Char) (rest : List Char)
    (h0 : isdigit c0 = false) (he : c0 ≠ 'e' ∧ c0 ≠ 'E') :
    scan_lf (fmt_lf x ++ c0 :: rest) = some (round_binary64 (decimal6 x), c0 :: rest) := by
  obtain ⟨hD, hDd, -⟩ := nat_digits_spec ((round_half_even (|x| * 10 ^ 6)).toNat / 10 ^ 6)
  obtain ⟨-, hFd, -⟩ := frac_digits_spec 6 ((round_half_even (|x| * 10 ^ 6)).toNat % 10 ^ 6)
  have hval := decimal_value (round_half_even (|x| * 10 ^ 6)).toNat
  by_cases hx : x < 0
  · have hs : scan_sign (skip_ws (fmt_lf x ++ c0 :: rest)) =
        (true, nat_digits ((round_half_even (|x| * 10 ^ 6)).toNat / 10 ^ 6) ++
          '.' :: (frac_digits 6 ((round_half_even (|x| * 10 ^ 6)).toNat % 10 ^ 6) ++
            c0 :: rest)) := by
      have hsp : isspace '-' = false := by decide
      simp [fmt_lf, hx, skip_ws, List.dropWhile, hsp, scan_sign]
    rw [scan_unsigned true _ _ c0 rest hD hDd hFd h0 he _ hs, hval]
    simp [decimal6, hx]
  · obtain ⟨d, D1, hD1⟩ := List.exists_cons_of_ne_nil hD
    have hd : isdigit d = true := hDd d (by rw [hD1]; simp)
    have hs : scan_sign (skip_ws (fmt_lf x ++ c0 :: rest)) =
        (false, nat_digits ((round_half_even (|x| * 10 ^ 6)).toNat / 10 ^ 6) ++
          '.' :: (frac_digits 6 ((round_half_even (|x| * 10 ^ 6)).toNat % 10 ^ 6) ++
            c0 :: rest)) := by
      simp only [fmt_lf, hx, if_false, List.nil_append, hD1, skip_ws, List.cons_append,
        List.dropWhile, not_isspace_of_isdigit d hd, scan_sign,
        (not_sign_of_isdigit d hd).1, (not_sign_of_isdigit d hd).2]
      simp
    rw [scan_unsigned false _ _ c0 rest hD hDd hFd h0 he _ hs, hval]
    simp [decimal6, hx]

theorem fmt_lf_head (x : ℚ) : ∃ c r, fmt_lf x = c :: r ∧ isspace c = false := by
  obtain ⟨hD, hDd, -⟩ := nat_digits_spec ((round_half_even (|x| * 10 ^ 6)).toNat / 10 ^ 6)
  obtain ⟨d, D1, hD1⟩ := List.exists_cons_of_ne_nil hD
  have hd : isdigit d = true := hDd d (by rw [hD1]; simp)
  by_cases hx : x < 0
  · exact ⟨'-', _, by simp only [fmt_lf, hx, if_true, List.cons_append, List.nil_append]; rfl,
      by decide⟩
  · exact ⟨d, _, by simp only [fmt_lf, hx, if_false, hD1, List.cons_append, List.nil_append]; rfl,
      not_isspace_of_isdigit d hd⟩

theorem skip_ws_fmt_lf (x : ℚ) (rest : List Char) :
    skip_ws (fmt_lf x ++ rest) = fmt_lf x ++ rest := by
  obtain ⟨c, r, h1, h2⟩ := fmt_lf_head x
  simp [skip_ws, h1, List.dropWhile, h2]

/-- Reading the line `"%lf %lf\n"` back: both conversions succeed and give the two
printed values, rounded to six decimals and then to binary64. -/
theorem fscanf_fmt_lf_lf (a b : ℚ) :
    fscanf_lf_lf (fmt_lf_lf a b) =
      (2, round_binary64 (decimal6 a), round_binary64 (decimal6 b)) := by
  have hsp : isspace ' ' = true := by decide
  have h1 : fmt_lf_lf a b = fmt_lf a ++ ' ' :: (fmt_lf b ++ '\n' :: []) := by
    simp [fmt_lf_lf]
  have h2 : scan_lf (fmt_lf a ++ ' ' :: (fmt_lf b ++ '\n' :: [])) =
      some (round_binary64 (decimal6 a), ' ' :: (fmt_lf b ++ '\n' :: [])) :=
    scan_lf_fmt_lf a ' ' _ (by decide) (by decide)
  have h3 : skip_ws (' ' :: (fmt_lf b ++ '\n' :: [])) = fmt_lf b ++ '\n' :: [] := by
    have := skip_ws_fmt_lf b ('\n' :: [])
    simp only [skip_ws] at this ⊢
    simp [List.dropWhile, hsp, this]
  have h4 : scan_lf (fmt_lf b ++ '\n' :: []) =
      some (round_binary64 (decimal6 b), '\n' :: []) :=
    scan_lf_fmt_lf b '\n' _ (by decide) (by decide)
  have h5 : skip_ws (fmt_lf a ++ ' ' :: (fmt_lf b ++ '\n' :: [])) ≠ [] := by
    rw [skip_ws_fmt_lf]
    obtain ⟨c, r, hc, -⟩ := fmt_lf_head a
    simp [hc]
  unfold fscanf_lf_lf
  rw [h1, if_neg h5]
  simp only [h2, h3, h4]

theorem round_half_even_cases (q : ℚ) :
    round_half_even q = ⌊q⌋ ∨ round_half_even q = ⌊q⌋ + 1 := by
  unfold round_half_even
  simp only []
  split_ifs <;> simp

theorem round_half_even_near (q : ℚ) : |((round_half_even q : ℤ) : ℚ) - q| ≤ 1 / 2 := by
  have h1 := Int.floor_le q
  have h2 := Int.lt_floor_add_one q
  unfold round_half_even
  simp only []
  rw [abs_le]
  split_ifs with ha hb hc
  · constructor <;> linarith
  · push_cast
    constructor <;> linarith
  · constructor <;> linarith
  · push_cast
    constructor <;> linarith

theorem round_half_even_le (q : ℚ) (m : ℤ) (h : q ≤ m) : round_half_even q ≤ m := by
  have h1 : ⌊q⌋ ≤ m := by
    exact_mod_cast (Int.floor_le q).trans h
  rcases lt_or_eq_of_le h1 with h3 | h3
  · rcases round_half_even_cases q with h4 | h4 <;> omega
  · have h5 : q - (⌊q⌋ : ℚ) < 1 / 2 := by
      rw [h3]
      linarith
    simp only [round_half_even, h5, if_true]
    omega

theorem round_half_even_ge (q : ℚ) (m : ℤ) (h : (m : ℚ) ≤ q) : m ≤ round_half_even q := by
  have h1 : m ≤ ⌊q⌋ := Int.le_floor.mpr h
  rcases round_half_even_cases q with h4 | h4 <;> omega

theorem decimal6_near (x : ℚ) : |decimal6 x - x| ≤ 1 / 2 / 10 ^ 6 := by
  have hn : (0 : ℤ) ≤ round_half_even (|x| * 10 ^ 6) :=
    round_half_even_ge _ 0 (by positivity)
  have hc : (((round_half_even (|x| * 10 ^ 6)).toNat : ℕ) : ℚ) =
      ((round_half_even (|x| * 10 ^ 6) : ℤ) : ℚ) := by
    have := Int.toNat_of_nonneg hn
    exact_mod_cast this
  have h := round_half_even_near (|x| * 10 ^ 6)
  have hk : abs (((round_half_even (|x| * 10 ^ 6) : ℤ) : ℚ) / 10 ^ 6 - |x|) ≤ 1 / 2 / 10 ^ 6 := by
    have e : ((round_half_even (|x| * 10 ^ 6) : ℤ) : ℚ) / 10 ^ 6 - |x| =
        (((round_half_even (|x| * 10 ^ 6) : ℤ) : ℚ) - |x| * 10 ^ 6) / 10 ^ 6 := by
      field_simp
      ring
    rw [e, abs_div, abs_of_pos (by positivity : (0 : ℚ) < 10 ^ 6)]
    exact div_le_div_of_nonneg_right h (by positivity)
  unfold decimal6
  rw [hc]
  by_cases hx : x < 0
  · rw [if_pos hx]
    have e : -(((round_half_even (|x| * 10 ^ 6) : ℤ) : ℚ) / 10 ^ 6) - x =
        -(((round_half_even (|x| * 10 ^ 6) : ℤ) : ℚ) / 10 ^ 6 - |x|) := by
      rw [abs_of_neg hx]
      ring
    rw [e, abs_neg]
    exact hk
  · rw [if_neg hx]
    have e : ((round_half_even (|x| * 10 ^ 6) : ℤ) : ℚ) / 10 ^ 6 - x =
        ((round_half_even (|x| * 10 ^ 6) : ℤ) : ℚ) / 10 ^ 6 - |x| := by
      rw [abs_of_nonneg (le_of_not_lt hx)]
    rw [e]
    exact hk

/-- Rounding to six decimals keeps a value inside a symmetric range with integer ends. -/
theorem decimal6_range (x : ℚ) (B : ℕ) (hlo : -(B : ℚ) ≤ x) (hhi : x ≤ B) :
    -(B : ℚ) ≤ decimal6 x ∧ decimal6 x ≤ B := by
  have hn : (0 : ℤ) ≤ round_half_even (|x| * 10 ^ 6) :=
    round_half_even_ge _ 0 (by positivity)
  have hc : (((round_half_even (|x| * 10 ^ 6)).toNat : ℕ) : ℚ) =
      ((round_half_even (|x| * 10 ^ 6) : ℤ) : ℚ) := by
    have := Int.toNat_of_nonneg hn
    exact_mod_cast this
  have habs : |x| ≤ B := abs_le.mpr ⟨hlo, hhi⟩
  have hle : round_half_even (|x| * 10 ^ 6) ≤ ((B * 10 ^ 6 : ℕ) : ℤ) := by
    apply round_half_even_le
    push_cast
    exact mul_le_mul_of_nonneg_right habs (by positivity)
  have hq : ((round_half_even (|x| * 10 ^ 6) : ℤ) : ℚ) / 10 ^ 6 ≤ B := by
    rw [div_le_iff₀ (by positivity)]
    exact_mod_cast hle
  have hq0 : (0 : ℚ) ≤ ((round_half_even (|x| * 10 ^ 6) : ℤ) : ℚ) / 10 ^ 6 := by
    apply div_nonneg _ (by positivity)
    exact_mod_cast hn
  have hB : (0 : ℚ) ≤ B := Nat.cast_nonneg B
  unfold decimal6
  rw [hc]
  split_ifs
  · constructor <;> linarith
  · constructor <;> linarith

/-- The exponent found by `ilog2` is not too large: `2 ^ ilog2 q ≤ q` for positive `q`. -/
theorem two_zpow_ilog2_le (q : ℚ) (hq : 0 < q) : (2 : ℚ) ^ ilog2 q ≤ q := by
  unfold ilog2
  simp only []
  split_ifs with h
  · exact h
  · have hnum : 0 < q.num := Rat.num_pos.mpr hq
    have hna : q.num.natAbs ≠ 0 := by
      intro h0
      have := Int.natAbs_eq_zero.mp h0
      omega
    have h1 : 2 ^ Nat.log2 q.num.natAbs ≤ q.num.natAbs := Nat.log2_self_le hna
    have h2 : q.den < 2 ^ (Nat.log2 q.den + 1) := Nat.lt_log2_self
    have hcast : ((q.num.natAbs : ℕ) : ℚ) = (q.num : ℚ) := by
      have h3 : ((q.num.natAbs : ℕ) : ℤ) = q.num := Int.natAbs_of_nonneg hnum.le
      calc ((q.num.natAbs : ℕ) : ℚ) = (((q.num.natAbs : ℕ) : ℤ) : ℚ) := (Int.cast_natCast _).symm
        _ = (q.num : ℚ) := by rw [h3]
    have h1q : (2 : ℚ) ^ Nat.log2 q.num.natAbs ≤ (q.num : ℚ) := by
      rw [← hcast]
      exact_mod_cast h1
    have h2q : (q.den : ℚ) ≤ 2 ^ (Nat.log2 q.den + 1) := by
      exact_mod_cast h2.le
    have hden : (0 : ℚ) < q.den := by
      exact_mod_cast q.den_pos
    have he : ((Nat.log2 q.num.natAbs : ℕ) : ℤ) - ((Nat.log2 q.den : ℕ) : ℤ) - 1 =
        ((Nat.log2 q.num.natAbs : ℕ) : ℤ) - ((Nat.log2 q.den + 1 : ℕ) : ℤ) := by
      push_cast
      ring
    rw [he, zpow_sub₀ (by norm_num : (2 : ℚ) ≠ 0), zpow_natCast, zpow_natCast]
    have hfrac : (2 : ℚ) ^ Nat.log2 q.num.natAbs / 2 ^ (Nat.log2 q.den + 1) ≤
        (q.num : ℚ) / (q.den : ℚ) := by
      rw [div_le_div_iff₀ (by positivity) hden]
      calc (2 : ℚ) ^ Nat.log2 q.num.natAbs * (q.den : ℚ)
          ≤ (q.num : ℚ) * (q.den : ℚ) := mul_le_mul_of_nonneg_right h1q hden.le
        _ ≤ (q.num : ℚ) * 2 ^ (Nat.log2 q.den + 1) :=
            mul_le_mul_of_nonneg_left h2q (by exact_mod_cast hnum.le)
    exact hfrac.trans (le_of_eq (Rat.num_div_den q))

/-- Rounding to binary64 moves a value by at most `|p| / 2 ^ 53`. -/
theorem round_binary64_near (p : ℚ) : |round_binary64 p - p| ≤ |p| / 2 ^ 53 := by
  unfold round_binary64
  by_cases hp : p = 0
  · simp [hp]
  · rw [if_neg hp]
    have habs : 0 < |p| := abs_pos.mpr hp
    have hu : (0 : ℚ) < 2 ^ (ilog2 |p| - 52) := zpow_pos (by norm_num) _
    have hle := two_zpow_ilog2_le |p| habs
    have hrn := round_half_even_near (p / 2 ^ (ilog2 |p| - 52))
    have e : ((round_half_even (p / 2 ^ (ilog2 |p| - 52)) : ℤ) : ℚ) * 2 ^ (ilog2 |p| - 52) - p =
        (((round_half_even (p / 2 ^ (ilog2 |p| - 52)) : ℤ) : ℚ) - p / 2 ^ (ilog2 |p| - 52)) *
          2 ^ (ilog2 |p| - 52) := by
      field_simp
    rw [e, abs_mul, abs_of_pos hu]
    have h52 : (2 : ℚ) ^ (ilog2 |p| - 52) = 2 ^ ilog2 |p| / 2 ^ 52 := by
      rw [zpow_sub₀ (by norm_num : (2 : ℚ) ≠ 0)]
      norm_num
    calc |((round_half_even (p / 2 ^ (ilog2 |p| - 52)) : ℤ) : ℚ) - p / 2 ^ (ilog2 |p| - 52)| *
          2 ^ (ilog2 |p| - 52)
        ≤ 1 / 2 * 2 ^ (ilog2 |p| - 52) := mul_le_mul_of_nonneg_right hrn hu.le
      _ = 2 ^ ilog2 |p| / 2 ^ 53 := by
          rw [h52]
          norm_num
          ring
      _ ≤ |p| / 2 ^ 53 := div_le_div_of_nonneg_right hle (by positivity)

/-- Rounding to binary64 keeps a value inside a symmetric range with integer ends below
`2 ^ 52`. -/
theorem round_binary64_range (p : ℚ) (B : ℕ) (hB : (B : ℚ) < 2 ^ 52)
    (hlo : -(B : ℚ) ≤ p) (hhi : p ≤ B) :
    -(B : ℚ) ≤ round_binary64 p ∧ round_binary64 p ≤ B := by
  unfold round_binary64
  by_cases hp : p = 0
  · simp [hp]
  · rw [if_neg hp]
    have habs : 0 < |p| := abs_pos.mpr hp
    have hle := two_zpow_ilog2_le |p| habs
    have hpB : |p| ≤ B := abs_le.mpr ⟨hlo, hhi⟩
    have hlt : (2 : ℚ) ^ ilog2 |p| < 2 ^ (52 : ℤ) := by
      have : (2 : ℚ) ^ (52 : ℤ) = 2 ^ 52 := by norm_num
      rw [this]
      exact lt_of_le_of_lt (hle.trans hpB) hB
    have he : ilog2 |p| < 52 := (zpow_lt_zpow_iff_right₀ (by norm_num : (1 : ℚ) < 2)).mp hlt
    obtain ⟨k, hk⟩ : ∃ k : ℕ, ilog2 |p| - 52 = -(k : ℤ) :=
      ⟨(52 - ilog2 |p|).toNat, by omega⟩
    rw [hk]
    have hu : (2 : ℚ) ^ (-(k : ℤ)) = 1 / 2 ^ k := by
      rw [zpow_neg, zpow_natCast, one_div]
    rw [hu]
    have h2k : (0 : ℚ) < 2 ^ k := by positivity
    have hdiv : p / (1 / 2 ^ k) = p * 2 ^ k := by
      field_simp
    rw [hdiv]
    have hup : round_half_even (p * 2 ^ k) ≤ ((B * 2 ^ k : ℕ) : ℤ) := by
      apply round_half_even_le
      push_cast
      exact mul_le_mul_of_nonneg_right hhi h2k.le
    have hdn : -((B * 2 ^ k : ℕ) : ℤ) ≤ round_half_even (p * 2 ^ k) := by
      apply round_half_even_ge
      push_cast
      have := mul_le_mul_of_nonneg_right hlo h2k.le
      linarith
    have hupq : ((round_half_even (p * 2 ^ k) : ℤ) : ℚ) ≤ (B : ℚ) * 2 ^ k := by
      exact_mod_cast hup
    have hdnq : -((B : ℚ) * 2 ^ k) ≤ ((round_half_even (p * 2 ^ k) : ℤ) : ℚ) := by
      exact_mod_cast hdn
    constructor
    · rw [mul_one_div, le_div_iff₀ h2k]
      linarith
    · rw [mul_one_div, div_le_iff₀ h2k]
      linarith

theorem fmt_lf_six_digits (x : ℚ) :
    ∃ pre frac, fmt_lf x = pre ++ '.' :: frac ∧ frac.length = 6 ∧
      ∀ c ∈ frac, isdigit c = true := by
  obtain ⟨h1, h2, -⟩ := frac_digits_spec 6 ((round_half_even (|x| * 10 ^ 6)).toNat % 10 ^ 6)
  exact ⟨(if x < 0 then [ '-' ] else []) ++
      nat_digits ((round_half_even (|x| * 10 ^ 6)).toNat / 10 ^ 6),
    frac_digits 6 ((round_half_even (|x| * 10 ^ 6)).toNat % 10 ^ 6),
    by simp [fmt_lf], h1, h2⟩

/-- The value read back from the cache is within `10⁻⁶` of the value written, for values
of magnitude at most 180. -/
theorem reread_near (x : ℚ) (hlo : -(180 : ℚ) ≤ x) (hhi : x ≤ 180) :
    |round_binary64 (decimal6 x) - x| ≤ 1 / 10 ^ 6 := by
  have h1 := decimal6_near x
  have h2 := round_binary64_near (decimal6 x)
  have h3 := decimal6_range x 180 (by simpa using hlo) (by simpa using hhi)
  have h4 : |decimal6 x| ≤ 180 := abs_le.mpr ⟨by simpa using h3.1, by simpa using h3.2⟩
  have h5 : |decimal6 x| / 2 ^ 53 ≤ 1 / 2 / 10 ^ 6 := by
    rw [div_le_iff₀ (by positivity)]
    norm_num
    linarith
  calc |round_binary64 (decimal6 x) - x|
      = |(round_binary64 (decimal6 x) - decimal6 x) + (decimal6 x - x)| := by ring_nf
    _ ≤ |round_binary64 (decimal6 x) - decimal6 x| + |decimal6 x - x| := abs_add _ _
    _ ≤ 1 / 2 / 10 ^ 6 + 1 / 2 / 10 ^ 6 := add_le_add (h2.trans h5) h1
    _ = 1 / 10 ^ 6 := by norm_num

/-- The value read back from the cache stays in a symmetric range with integer ends. -/
theorem reread_range (x : ℚ) (B : ℕ) (hB : (B : ℚ) < 2 ^ 52) (hlo : -(B : ℚ) ≤ x)
    (hhi : x ≤ B) :
    -(B : ℚ) ≤ round_binary64 (decimal6 x) ∧ round_binary64 (decimal6 x) ≤ B := by
  obtain ⟨h1, h2⟩ := decimal6_range x B hlo hhi
  exact round_binary64_range _ B hB h1 h2

theorem cache_location_cache_file (E : Env) (w : World) :
    (cache_location E w).cache_file = w.cache_file := by
  unfold cache_location
  simp only []
  split_ifs <;> rfl

/-- The line `cache_location` prints for the location (45.5, -122.6). -/
theorem fmt_example : fmt_lf_lf 45.5 (-122.6) = "45.500000 -122.600000\n".data := by
  have h1 : round_half_even (|(45.5 : ℚ)| * 10 ^ 6) = 45500000 := by
    have : (|(45.5 : ℚ)| * 10 ^ 6) = ((45500000 : ℤ) : ℚ) := by
      rw [abs_of_nonneg (by norm_num)]
      norm_num
    rw [this, round_half_even_intCast]
  have h2 : round_half_even (|(-122.6 : ℚ)| * 10 ^ 6) = 122600000 := by
    have : (|(-122.6 : ℚ)| * 10 ^ 6) = ((122600000 : ℤ) : ℚ) := by
      rw [abs_of_neg (by norm_num)]
      norm_num
    rw [this, round_half_even_intCast]
  have h3 : ¬ ((45.5 : ℚ) < 0) := by norm_num
  have h4 : (-122.6 : ℚ) < 0 := by norm_num
  simp only [fmt_lf_lf, fmt_lf, h1, h2, h3, h4, if_false, if_true]
  decide

/-- The failure branch of `init` when the cache holds two numbers and the module is not
subscribed to `LOCATION_REQ`: the request is published, nobody receives it, and the
shared location stays as it was. -/
theorem init_failure_unsubscribed (E : Env) (n : Nat) (w : World) (text : String)
    (hr : (geoclue_init E (init_cache_file E w)).1 ≠ 0)
    (hl : (geoclue_init E (init_cache_file E w)).2.files.lookup
            (geoclue_init E (init_cache_file E w)).2.cache_file = some text)
    (h2 : (fscanf_lf_lf text.data).1 = 2)
    (hs : mod_msg_types.LOCATION_REQ ∉ w.subscribed) :
    ∃ w1, init E (n + 2) w = some w1 ∧
      w1.state.current_loc = w.state.current_loc ∧
      Effect.M_PUB
        { type := mod_msg_types.LOCATION_REQ,
          loc := { old := w.state.current_loc,
                   new := ⟨(fscanf_lf_lf text.data).2.1, (fscanf_lf_lf text.data).2.2⟩ } }
        w.state.current_loc ∈ w1.trace := by
  obtain ⟨hst0, hs0, -, -, -⟩ := init_cache_file_frame E w
  obtain ⟨hst1, hs1, -, -, -, -, -, -⟩ := geoclue_init_frame E (init_cache_file E w)
  rw [hst0] at hst1
  rw [hs0] at hs1
  have hload := load_cache_location_eq E n (geoclue_init E (init_cache_file E w)).2
  rw [hl] at hload
  simp only [h2, if_true] at hload
  have hns : ¬ (mod_msg_types.LOCATION_REQ ∈
      (emit (Effect.fopen (geoclue_init E (init_cache_file E w)).2.cache_file "r")
        (geoclue_init E (init_cache_file E w)).2).subscribed ∧
      VALIDATE_REQ
        { old := (emit (Effect.fopen (geoclue_init E (init_cache_file E w)).2.cache_file "r")
            (geoclue_init E (init_cache_file E w)).2).state.current_loc,
          new := ⟨(fscanf_lf_lf text.data).2.1, (fscanf_lf_lf text.data).2.2⟩ } = true) := by
    rw [emit_subscribed, hs1]
    exact fun h => hs h.1
  refine ⟨m_poisonpill (after_publish_req (fscanf_lf_lf text.data).2.1
      (fscanf_lf_lf text.data).2.2
      (emit (Effect.fopen (geoclue_init E (init_cache_file E w)).2.cache_file "r")
        (geoclue_init E (init_cache_file E w)).2)), by simp [init, hr, hload], ?_, ?_⟩
  · unfold after_publish_req
    rw [if_neg hns]
    simp [m_poisonpill, emit, hst1]
  · unfold after_publish_req
    rw [if_neg hns]
    simp [m_poisonpill, emit, hst1, request_msg]

theorem decimal6_natCast (n : ℕ) : decimal6 (n : ℚ) = n := by
  have h0 : ¬ ((n : ℚ) < 0) := not_lt.mpr (Nat.cast_nonneg n)
  have h1 : |(n : ℚ)| * 10 ^ 6 = (((n * 10 ^ 6 : ℕ) : ℤ) : ℚ) := by
    rw [abs_of_nonneg (Nat.cast_nonneg n)]
    push_cast
    ring
  unfold decimal6
  have h2 : ((n * 10 ^ 6 : ℕ) : ℚ) = (n : ℚ) * 10 ^ 6 := by
    push_cast
    ring
  rw [if_neg h0, h1, round_half_even_intCast, Int.toNat_natCast, h2, mul_div_assoc,
    div_self (by positivity), mul_one]

/-! ## C4: who writes the shared location -/

/-- C4, as the claim states it, fails: `init`, run where the client cannot be started and
no cache file exists, changes the shared location of `world0` although no `LOC_UPD` was
published, that is, outside the `LOCATION_REQ` branch of `receive`. -/
theorem init_writes_location_without_request :
    ∃ w1, init env_no_client 2 world0 = some w1 ∧
      w1.state.current_loc ≠ world0.state.current_loc ∧
      ¬ written_by_request world0 w1 := by
  refine ⟨_, init_of_failure env_no_client 2 world0 _ geoclue_fails_no_client
    load_cache_no_file (by decide), ?_, ?_⟩
  · simp [m_poisonpill, emit, world0, env_no_client, env_ok]
    norm_num
  · rintro ⟨l, cur, hm, -⟩
    simp [events_since, m_poisonpill, emit, world0, geoclue_init, geoclue_get_client,
      init_cache_file, env_no_client, env_ok] at hm

/-- C4, amended: every operation of the module returns and leaves the shared location as
it found it, unless the `LOCATION_REQ` branch of `receive` stored a validated request
after publishing the `LOC_UPD` for it, or the operation is `init`, the client could not
be started and `load_cache_location` returned non-zero, in which case `init` itself
stores (`LAT_UNDEFINED + 1`, `LON_UNDEFINED + 1`). The operations are, in this order,
`init`, `receive`, `destroy`, `load_cache_location`, `on_geoclue_new_location` and
`publish_location`. -/
theorem shared_location_writers (E : Env) (fuel : Nat) (w : World) :
    (∃ w1, init E (fuel + 2) w = some w1 ∧
      (w1.state.current_loc = w.state.current_loc ∨ written_by_request w w1 ∨
        ((geoclue_init E (init_cache_file E w)).1 ≠ 0 ∧
         (∃ c, load_cache_location (bus E (fuel + 2)) (geoclue_init E (init_cache_file E w)).2
            = some c ∧ c.1 ≠ 0) ∧
         w1.state.current_loc =
           { lat := E.LAT_UNDEFINED + 1, lon := E.LON_UNDEFINED + 1 }))) ∧
    (∀ msg, ∃ w1, receive E (fuel + 2) msg w = some w1 ∧
      (w1.state.current_loc = w.state.current_loc ∨ written_by_request w w1)) ∧
    (destroy E w).state.current_loc = w.state.current_loc ∧
    (∃ c, load_cache_location (bus E (fuel + 2)) w = some c ∧
      (c.2.state.current_loc = w.state.current_loc ∨ written_by_request w c.2)) ∧
    (∀ m, ∃ c, on_geoclue_new_location E (fuel + 2) m w = some c ∧
      (c.2.state.current_loc = w.state.current_loc ∨ written_by_request w c.2)) ∧
    (∀ a b l, ∃ w1, publish_location (bus E (fuel + 2)) a b l w = some w1 ∧
      (w1.state.current_loc = w.state.current_loc ∨ written_by_request w w1)) := by
  refine ⟨init_writes E fuel w, fun msg => receive_writes E fuel msg w, ?_, ?_,
    fun m => on_geoclue_new_location_writes E fuel m w, fun a b l => ?_⟩
  · rw [destroy_state]
  · exact load_cache_location_after E fuel w w [] (by simp) rfl
  · exact publish_location_writes E fuel a b l w w [] (by simp) rfl

/-! ## C5: the policy predicate -/

/-- C5, as the claim states it, fails: with a latitude configured but no longitude, and a
sunrise configured but no sunset, `evaluate` is true although a latitude and a sunrise
are set. -/
theorem evaluate_true_with_partial_config :
    evaluate env_ok world_half_conf = true ∧
    ¬ (world_half_conf.conf.no_gamma = false ∧
       (world_half_conf.conf.loc.lat = env_ok.LAT_UNDEFINED ∧
        world_half_conf.conf.loc.lon = env_ok.LON_UNDEFINED) ∧
       (world_half_conf.conf.day_events.SUNRISE.length = 0 ∧
        world_half_conf.conf.day_events.SUNSET.length = 0)) := by
  constructor
  · simp [evaluate, world_half_conf, env_ok]
  · simp [world_half_conf, env_ok]
    norm_num

/-- C5, amended: `evaluate` is true exactly when the gamma feature is enabled, at least one
of the configured latitude and longitude equals its undefined sentinel (no complete fixed
location), and at least one of the sunrise and sunset strings is empty (not both day
events fixed). -/
theorem evaluate_true_iff (E : Env) (w : World) :
    evaluate E w = true ↔
      (w.conf.no_gamma = false ∧
       (w.conf.loc.lat = E.LAT_UNDEFINED ∨ w.conf.loc.lon = E.LON_UNDEFINED) ∧
       (w.conf.day_events.SUNRISE.length = 0 ∨ w.conf.day_events.SUNSET.length = 0)) := by
  simp [evaluate, and_assoc]

/-! ## C6: the two ways `init` ends -/

/-- C6: `init` returns, and it asks for the poison pill exactly when `geoclue_init` does
not return 0. When `geoclue_init` returns 0 the life-cycle calls of `init` are, in this
order, the subscription to `LOCATION_REQ`, the creation of a timer of 3 seconds and the
registration of its descriptor, and the module is subscribed to `LOCATION_REQ`
afterwards. Otherwise the only life-cycle call is one poison pill, whatever the cache
gave, and the subscriptions are those from before. -/
theorem init_poisonpill_iff_geoclue_init_fails (E : Env) (fuel : Nat) (w : World) :
    ∃ w1, init E (fuel + 2) w = some w1 ∧
      (Effect.m_poisonpill ∈ events_since w w1 ↔
        (geoclue_init E (init_cache_file E w)).1 ≠ 0) ∧
      if (geoclue_init E (init_cache_file E w)).1 = 0 then
        (events_since w w1).filter is_lifecycle_call =
          [Effect.M_SUB mod_msg_types.LOCATION_REQ, Effect.start_timer 3 0,
           Effect.m_register_fd E.timer_fd true] ∧
        mod_msg_types.LOCATION_REQ ∈ w1.subscribed
      else
        (events_since w w1).filter is_lifecycle_call = [Effect.m_poisonpill] ∧
        w1.subscribed = w.subscribed := by
  obtain ⟨-, hs0, -, ht0, -⟩ := init_cache_file_frame E w
  obtain ⟨-, hs1, -, -, -, evs, ht1, hall⟩ := geoclue_init_frame E (init_cache_file E w)
  rw [ht0] at ht1
  rw [hs0] at hs1
  have hf := filter_lifecycle_dbus evs hall
  have hpill : ∀ l : List Effect, Effect.m_poisonpill ∈ l ↔
      Effect.m_poisonpill ∈ l.filter is_lifecycle_call := by
    intro l
    simp [List.mem_filter, is_lifecycle_call]
  by_cases hr : (geoclue_init E (init_cache_file E w)).1 = 0
  · have hev : events_since w (m_register_fd E.timer_fd true (start_timer E 3 0
        (M_SUB mod_msg_types.LOCATION_REQ (geoclue_init E (init_cache_file E w)).2)).2) =
        evs ++ [Effect.M_SUB mod_msg_types.LOCATION_REQ, Effect.start_timer 3 0,
           Effect.m_register_fd E.timer_fd true] := by
      apply events_since_append
      simp only [m_register_fd, start_timer, M_SUB, emit]
      split_ifs <;> simp [ht1]
    have hfl : (events_since w (m_register_fd E.timer_fd true (start_timer E 3 0
        (M_SUB mod_msg_types.LOCATION_REQ (geoclue_init E (init_cache_file E w)).2)).2)).filter
        is_lifecycle_call =
        [Effect.M_SUB mod_msg_types.LOCATION_REQ, Effect.start_timer 3 0,
           Effect.m_register_fd E.timer_fd true] := by
      rw [hev]
      simp [hf, is_lifecycle_call]
    refine ⟨m_register_fd E.timer_fd true (start_timer E 3 0
        (M_SUB mod_msg_types.LOCATION_REQ (geoclue_init E (init_cache_file E w)).2)).2,
      by simp only [init, hr, if_true]; rfl, ?_, ?_⟩
    · rw [hpill, hfl]
      simp [hr]
    · rw [if_pos hr]
      refine ⟨hfl, ?_⟩
      simp only [m_register_fd, start_timer, M_SUB, emit]
      split_ifs with h <;> simp_all
  · obtain ⟨c, evl, h1, h2, h3, h4, -⟩ := load_cache_location_spec E fuel
      (geoclue_init E (init_cache_file E w)).2
    have hfl := filter_lifecycle_publish evl h3
    have hev : events_since w (m_poisonpill
        (if c.1 ≠ 0 then
          { c.2 with state := { c.2.state with
              current_loc := { lat := E.LAT_UNDEFINED + 1, lon := E.LON_UNDEFINED + 1 } } }
        else c.2)) =
        evs ++ Effect.fopen (geoclue_init E (init_cache_file E w)).2.cache_file "r" :: evl ++
          [Effect.m_poisonpill] := by
      apply events_since_append
      simp only [m_poisonpill, emit]
      split_ifs <;> simp [h2, ht1]
    have hfil : (events_since w (m_poisonpill
        (if c.1 ≠ 0 then
          { c.2 with state := { c.2.state with
              current_loc := { lat := E.LAT_UNDEFINED + 1, lon := E.LON_UNDEFINED + 1 } } }
        else c.2))).filter is_lifecycle_call = [Effect.m_poisonpill] := by
      rw [hev]
      simp [hf, hfl, is_lifecycle_call, List.filter_cons]
    refine ⟨m_poisonpill
        (if c.1 ≠ 0 then
          { c.2 with state := { c.2.state with
              current_loc := { lat := E.LAT_UNDEFINED + 1, lon := E.LON_UNDEFINED + 1 } } }
        else c.2), by simp only [init, hr, if_false, h1, Option.map_some'], ?_, ?_⟩
    · rw [hpill, hfil]
      simp [hr]
    · rw [if_neg hr]
      refine ⟨hfil, ?_⟩
      simp only [m_poisonpill, emit]
      split_ifs <;> simp [h4, hs1]

/-! ## C7: the location left by a failed start without cache -/

/-- C7, as the claim states it, fails: in `env_no_client` the client cannot be started,
`world0` has no cache file so that `load_cache_location` returns -1, and the shared
location `init` leaves is not the pair of the undefined sentinels. -/
theorem init_failure_marker_is_not_sentinel :
    (geoclue_init env_no_client (init_cache_file env_no_client world0)).1 ≠ 0 ∧
    (∃ c, load_cache_location (bus env_no_client 2)
        (geoclue_init env_no_client (init_cache_file env_no_client world0)).2 = some c ∧
        c.1 ≠ 0) ∧
    ∃ w1, init env_no_client 2 world0 = some w1 ∧
      ¬ (w1.state.current_loc.lat = env_no_client.LAT_UNDEFINED ∧
         w1.state.current_loc.lon = env_no_client.LON_UNDEFINED) := by
  refine ⟨geoclue_fails_no_client, ⟨_, load_cache_no_file, by decide⟩, _,
    init_of_failure env_no_client 2 world0 _ geoclue_fails_no_client load_cache_no_file
      (by decide), ?_⟩
  simp [m_poisonpill, emit]

/-- C7, amended: when `init` runs with the client failing to start and
`load_cache_location` returning non-zero, `init` returns and the shared location is the
pair (`LAT_UNDEFINED + 1`, `LON_UNDEFINED + 1`), which differs from the undefined
sentinel on each axis. -/
theorem init_failure_without_cache_sets_marker (E : Env) (fuel : Nat) (w : World)
    (hr : (geoclue_init E (init_cache_file E w)).1 ≠ 0)
    (hc : ∃ c, load_cache_location (bus E fuel) (geoclue_init E (init_cache_file E w)).2
            = some c ∧ c.1 ≠ 0) :
    ∃ w1, init E fuel w = some w1 ∧
      w1.state.current_loc = { lat := E.LAT_UNDEFINED + 1, lon := E.LON_UNDEFINED + 1 } ∧
      w1.state.current_loc.lat ≠ E.LAT_UNDEFINED ∧
      w1.state.current_loc.lon ≠ E.LON_UNDEFINED := by
  obtain ⟨c, hc, hne⟩ := hc
  refine ⟨_, init_of_failure E fuel w c hr hc hne, rfl, ?_, ?_⟩ <;>
    simp [m_poisonpill, emit]

/-- C7, amended, at `env_no_client` and `world0`. -/
theorem init_failure_without_cache_sets_marker_witness :
    ∃ w1, init env_no_client 2 world0 = some w1 ∧
      w1.state.current_loc =
        { lat := env_no_client.LAT_UNDEFINED + 1, lon := env_no_client.LON_UNDEFINED + 1 } ∧
      w1.state.current_loc.lat ≠ env_no_client.LAT_UNDEFINED ∧
      w1.state.current_loc.lon ≠ env_no_client.LON_UNDEFINED :=
  init_failure_without_cache_sets_marker env_no_client 2 world0 geoclue_fails_no_client
    ⟨_, load_cache_no_file, by decide⟩

/-! ## C9: what `destroy` persists -/

/-- C9, the code at the failing input: the manager gives a client path, hooking the signal
fails, there is no cache file. `init` then leaves the client path set and the shared
location at (`LAT_UNDEFINED + 1`, `LON_UNDEFINED + 1`), here (92, 182), which is no valid
latitude and longitude; `destroy` writes exactly that pair to the cache file. -/
theorem destroy_caches_failed_start_marker :
    ∃ w1, init env_hook_fails 2 world0 = some w1 ∧
      w1.client.length ≠ 0 ∧
      w1.state.current_loc =
        { lat := env_hook_fails.LAT_UNDEFINED + 1, lon := env_hook_fails.LON_UNDEFINED + 1 } ∧
      VALIDATE_REQ { old := w1.state.current_loc, new := w1.state.current_loc } = false ∧
      (destroy env_hook_fails w1).files =
        [("/home/u/.cache/clight", "92.000000 182.000000\n")] ∧
      Effect.fprintf "/home/u/.cache/clight" "92.000000 182.000000\n" ∈
        (destroy env_hook_fails w1).trace := by
  have hg : (geoclue_init env_hook_fails (init_cache_file env_hook_fails world0)).1 ≠ 0 := by
    decide
  have hl : load_cache_location (bus env_hook_fails 2)
      (geoclue_init env_hook_fails (init_cache_file env_hook_fails world0)).2 =
      some (-1, emit (Effect.fopen "/home/u/.cache/clight" "r")
        (geoclue_init env_hook_fails (init_cache_file env_hook_fails world0)).2) := rfl
  have hd := destroy_with_client env_hook_fails
    (m_poisonpill
      { (emit (Effect.fopen "/home/u/.cache/clight" "r")
          (geoclue_init env_hook_fails (init_cache_file env_hook_fails world0)).2) with
        state := { current_loc := { lat := env_hook_fails.LAT_UNDEFINED + 1,
                                    lon := env_hook_fails.LON_UNDEFINED + 1 } } })
    (by decide) (by simp [m_poisonpill, emit]) rfl
  have htext : String.mk (fmt_lf_lf (91 + 1) (181 + 1)) = "92.000000 182.000000\n" := by
    rw [fmt_marker]
  refine ⟨_, init_of_failure env_hook_fails 2 world0 _ hg hl (by decide), by decide, rfl,
    ?_, ?_, ?_⟩
  · simp [VALIDATE_REQ, m_poisonpill, emit, env_hook_fails, env_ok]
    norm_num
  · rw [hd.1]
    exact congrArg₂ List.cons (congrArg₂ Prod.mk rfl htext) rfl
  · rw [← htext]
    exact hd.2

/-! ## C10: the timer falls back to the cache -/

/-- C10: when the readiness of the timer is delivered, `receive` returns; it opens the
cache file, the first thing `load_cache_location` does, exactly when the shared latitude
or the shared longitude equals its undefined sentinel, and in that case the world it
leaves is the one `load_cache_location` leaves after the timer was read; when both axes
are defined it only reads the timer: nothing is published and the shared location is
unchanged. -/
theorem receive_timer_loads_cache_iff_undefined (E : Env) (fuel : Nat) (fd : Int)
    (w : World) :
    ∃ w1, receive E (fuel + 2) (msg_t.fd_msg fd) w = some w1 ∧
      (Effect.fopen w.cache_file "r" ∈ events_since w w1 ↔
        (w.state.current_loc.lat = E.LAT_UNDEFINED ∨
         w.state.current_loc.lon = E.LON_UNDEFINED)) ∧
      if w.state.current_loc.lat = E.LAT_UNDEFINED ∨
         w.state.current_loc.lon = E.LON_UNDEFINED then
        ∃ rc, load_cache_location (bus E (fuel + 2)) (read_timer fd w) = some (rc, w1)
      else
        w1 = read_timer fd w ∧ events_since w w1 = [Effect.read_timer fd] ∧
        w1.state.current_loc = w.state.current_loc := by
  by_cases h : w.state.current_loc.lat = E.LAT_UNDEFINED ∨
      w.state.current_loc.lon = E.LON_UNDEFINED
  · obtain ⟨c, evs, h1, h2, -, -, -⟩ := load_cache_location_spec E fuel (read_timer fd w)
    have hrec : receive E (fuel + 2) (msg_t.fd_msg fd) w = some c.2 := by
      simp only [receive, receive_with, MSG_TYPE, msg_fd]
      rw [if_pos (by simpa [read_timer, emit] using h), h1]
      rfl
    refine ⟨c.2, hrec, ?_, ?_⟩
    · rw [events_since_append w c.2
        (Effect.read_timer fd :: Effect.fopen w.cache_file "r" :: evs)
        (by rw [h2]; simp [read_timer, emit])]
      simp [h]
    · rw [if_pos h]
      exact ⟨c.1, h1⟩
  · have hrec : receive E (fuel + 2) (msg_t.fd_msg fd) w = some (read_timer fd w) := by
      simp only [receive, receive_with, MSG_TYPE, msg_fd]
      rw [if_neg (by simpa [read_timer, emit] using h)]
    have hev : events_since w (read_timer fd w) = [Effect.read_timer fd] :=
      events_since_append w _ _ rfl
    refine ⟨read_timer fd w, hrec, ?_, ?_⟩
    · rw [hev]
      simp [h]
    · rw [if_neg h]
      exact ⟨rfl, hev, rfl⟩

/-! ## The cache round trip -/

theorem fmt_lf_lf_eq (a b : ℚ) :
    fmt_lf_lf a b = fmt_lf a ++ ' ' :: (fmt_lf b ++ '\n' :: []) := by
  simp [fmt_lf_lf]

/-- C8: the cache round trip at (45.5, -122.6) with the provider unavailable.
`cache_location` writes the line `45.500000 -122.600000`. At the next start the client
cannot be started, so `init` takes its failure branch: `load_cache_location` reads the
line and publishes a `LOCATION_REQ` whose new pair is within `10⁻⁶` of the one written,
but `M_SUB(LOCATION_REQ)` was never called, the request reaches nobody, and when `init`
returns the shared location is still the pair of sentinels, not within `10⁻⁶` of the
location written on either axis. -/
theorem cache_not_restored_when_provider_unavailable :
    (cache_location env_no_client world_45).files.lookup world_45.cache_file =
      some "45.500000 -122.600000\n" ∧
    (geoclue_init env_no_client
      (init_cache_file env_no_client (next_start_unavailable env_no_client world_45))).1 ≠ 0 ∧
    ∃ w1, init env_no_client 2 (next_start_unavailable env_no_client world_45) = some w1 ∧
      (∃ l cur, Effect.M_PUB l cur ∈ w1.trace ∧ l.type = mod_msg_types.LOCATION_REQ ∧
        |l.loc.new.lat - 45.5| ≤ 1 / 10 ^ 6 ∧ |l.loc.new.lon - (-122.6)| ≤ 1 / 10 ^ 6) ∧
      w1.state.current_loc = { lat := env_no_client.LAT_UNDEFINED,
                               lon := env_no_client.LON_UNDEFINED } ∧
      ¬ |w1.state.current_loc.lat - 45.5| ≤ 1 / 10 ^ 6 ∧
      ¬ |w1.state.current_loc.lon - (-122.6)| ≤ 1 / 10 ^ 6 := by
  have hd : world_45.state.current_loc.lat ≠ env_no_client.LAT_UNDEFINED ∧
      world_45.state.current_loc.lon ≠ env_no_client.LON_UNDEFINED := by
    constructor <;> norm_num [world_45, env_no_client, env_ok]
  have hcl := cache_location_writes env_no_client world_45 hd rfl
  have hfile : (cache_location env_no_client world_45).files.lookup world_45.cache_file =
      some "45.500000 -122.600000\n" := by
    rw [hcl]
    simp only [List.lookup, beq_self_eq_true]
    exact congrArg some (congrArg String.mk fmt_example)
  have hr : (geoclue_init env_no_client
      (init_cache_file env_no_client (next_start_unavailable env_no_client world_45))).1 ≠ 0 := by
    simp [geoclue_init, geoclue_get_client, env_no_client, env_ok]
  obtain ⟨-, -, hf0, -, -⟩ := init_cache_file_frame env_no_client
    (next_start_unavailable env_no_client world_45)
  obtain ⟨-, -, hf1, hc1, -, -⟩ := geoclue_init_frame env_no_client
    (init_cache_file env_no_client (next_start_unavailable env_no_client world_45))
  have hl : (geoclue_init env_no_client (init_cache_file env_no_client
        (next_start_unavailable env_no_client world_45))).2.files.lookup
      (geoclue_init env_no_client (init_cache_file env_no_client
        (next_start_unavailable env_no_client world_45))).2.cache_file =
      some "45.500000 -122.600000\n" := by
    rw [hf1, hc1, hf0]
    exact hfile
  have hscan : fscanf_lf_lf ("45.500000 -122.600000\n" : String).data =
      (2, round_binary64 (decimal6 45.5), round_binary64 (decimal6 (-122.6))) := by
    rw [← fmt_example, fscanf_fmt_lf_lf]
  obtain ⟨w1, h1, h2, h3⟩ := init_failure_unsubscribed env_no_client 0
    (next_start_unavailable env_no_client world_45)
    "45.500000 -122.600000\n" hr hl (by rw [hscan]) (by simp [next_start_unavailable])
  refine ⟨hfile, hr, w1, h1, ⟨_, _, h3, rfl, ?_, ?_⟩, h2, ?_, ?_⟩
  · rw [hscan]
    exact reread_near _ (by norm_num) (by norm_num)
  · rw [hscan]
    exact reread_near _ (by norm_num) (by norm_num)
  · rw [h2]
    show ¬ |(91 : ℚ) - 45.5| ≤ 1 / 10 ^ 6
    norm_num [abs_le]
  · rw [h2]
    show ¬ |(181 : ℚ) - (-122.6)| ≤ 1 / 10 ^ 6
    norm_num [abs_le]

/-- A location that is defined on both axes and not valid: (92, 182), the sentinels being
91 and 181. It is written to the cache, and when the next start reads it back,
subscribed to `LOCATION_REQ`, the request fails validation and the shared location is
not within `10⁻⁶` of 92. -/
theorem cache_reload_out_of_range_rejected :
    world_92.state.current_loc.lat ≠ env_ok.LAT_UNDEFINED ∧
    world_92.state.current_loc.lon ≠ env_ok.LON_UNDEFINED ∧
    ∃ w3, load_cache_location (bus env_ok 2) (next_start env_ok world_92) = some (0, w3) ∧
      ¬ |w3.state.current_loc.lat - world_92.state.current_loc.lat| ≤ 1 / 10 ^ 6 := by
  refine ⟨by norm_num [world_92, env_ok], by norm_num [world_92, env_ok], ?_⟩
  have hd : world_92.state.current_loc.lat ≠ env_ok.LAT_UNDEFINED ∧
      world_92.state.current_loc.lon ≠ env_ok.LON_UNDEFINED := by
    constructor <;> norm_num [world_92, env_ok]
  have hfile : (next_start env_ok world_92).files.lookup (next_start env_ok world_92).cache_file =
      some (String.mk (fmt_lf_lf 92 182)) := by
    have := cache_location_writes env_ok world_92 hd rfl
    simp only [next_start, cache_location_cache_file]
    rw [this]
    simp [List.lookup, world_92]
  have hload := load_cache_location_eq env_ok 0 (next_start env_ok world_92)
  rw [hfile] at hload
  simp only [fscanf_fmt_lf_lf, if_true] at hload
  have h92 : decimal6 (92 : ℚ) = 92 := by exact_mod_cast decimal6_natCast 92
  have hnear := round_binary64_near (92 : ℚ)
  have hbig : (90 : ℚ) < round_binary64 (decimal6 92) := by
    rw [h92]
    rw [abs_le] at hnear
    have : |(92 : ℚ)| / 2 ^ 53 ≤ 1 := by
      rw [abs_of_nonneg (by norm_num)]
      norm_num
    linarith [hnear.1]
  have hinv : ¬ (mod_msg_types.LOCATION_REQ ∈
      (emit (Effect.fopen (next_start env_ok world_92).cache_file "r")
        (next_start env_ok world_92)).subscribed ∧
      VALIDATE_REQ
        { old := (emit (Effect.fopen (next_start env_ok world_92).cache_file "r")
            (next_start env_ok world_92)).state.current_loc,
          new := ⟨round_binary64 (decimal6 92), round_binary64 (decimal6 182)⟩ } = true) := by
    rw [VALIDATE_REQ_iff]
    intro h
    linarith [h.2.2.1]
  refine ⟨_, hload, ?_⟩
  unfold after_publish_req
  rw [if_neg hinv]
  show ¬ |(91 : ℚ) - 92| ≤ 1 / 10 ^ 6
  norm_num [abs_le]

/-- The round trip where it holds: for every location that is defined on both axes and valid (latitude in
[-90, 90], longitude in [-180, 180]), the text `cache_location` writes (the cache file
being writable) is the single line of the latitude, a blank, the longitude and a
newline, each value printed with six fractional digits; and when a run that is
subscribed to `LOCATION_REQ` finds that text under its cache path,
`load_cache_location` returns 0 and the shared location it leaves is within `10⁻⁶` of the
written pair on each axis. -/
theorem cache_round_trip_when_subscribed (E : Env) (fuel : Nat) (w w2 : World)
    (hv : -90 ≤ w.state.current_loc.lat ∧ w.state.current_loc.lat ≤ 90 ∧
          -180 ≤ w.state.current_loc.lon ∧ w.state.current_loc.lon ≤ 180)
    (hd : w.state.current_loc.lat ≠ E.LAT_UNDEFINED ∧ w.state.current_loc.lon ≠ E.LON_UNDEFINED)
    (hw : E.fopen_w w.cache_file = true)
    (hf : w2.files.lookup w2.cache_file = (cache_location E w).files.lookup w.cache_file)
    (hs : mod_msg_types.LOCATION_REQ ∈ w2.subscribed) :
    (cache_location E w).files.lookup w.cache_file =
      some (String.mk (fmt_lf w.state.current_loc.lat ++ ' ' ::
        (fmt_lf w.state.current_loc.lon ++ '\n' :: []))) ∧
    (∃ pre frac, fmt_lf w.state.current_loc.lat = pre ++ '.' :: frac ∧ frac.length = 6 ∧
      ∀ c ∈ frac, isdigit c = true) ∧
    (∃ pre frac, fmt_lf w.state.current_loc.lon = pre ++ '.' :: frac ∧ frac.length = 6 ∧
      ∀ c ∈ frac, isdigit c = true) ∧
    ∃ w3, load_cache_location (bus E (fuel + 2)) w2 = some (0, w3) ∧
      |w3.state.current_loc.lat - w.state.current_loc.lat| ≤ 1 / 10 ^ 6 ∧
      |w3.state.current_loc.lon - w.state.current_loc.lon| ≤ 1 / 10 ^ 6 := by
  obtain ⟨hv1, hv2, hv3, hv4⟩ := hv
  have hfile : (cache_location E w).files.lookup w.cache_file =
      some (String.mk (fmt_lf_lf w.state.current_loc.lat w.state.current_loc.lon)) := by
    rw [cache_location_writes E w hd hw]
    simp [List.lookup]
  refine ⟨by rw [hfile, fmt_lf_lf_eq], fmt_lf_six_digits _, fmt_lf_six_digits _, ?_⟩
  rw [hfile] at hf
  have hscan := fscanf_fmt_lf_lf w.state.current_loc.lat w.state.current_loc.lon
  obtain ⟨ha1, ha2⟩ := reread_range w.state.current_loc.lat 90 (by norm_num)
    (by simpa using hv1) (by simpa using hv2)
  obtain ⟨hb1, hb2⟩ := reread_range w.state.current_loc.lon 180 (by norm_num)
    (by simpa using hv3) (by simpa using hv4)
  have hvalid : VALIDATE_REQ
      { old := (emit (Effect.fopen w2.cache_file "r") w2).state.current_loc,
        new := ⟨round_binary64 (decimal6 w.state.current_loc.lat),
                round_binary64 (decimal6 w.state.current_loc.lon)⟩ } = true := by
    rw [VALIDATE_REQ_iff]
    exact ⟨by simpa using ha1, by simpa using ha2, by simpa using hb1, by simpa using hb2⟩
  have hload := load_cache_location_eq E fuel w2
  rw [hf] at hload
  simp only [hscan, if_true] at hload
  rw [hload]
  refine ⟨_, rfl, ?_, ?_⟩
  · simp only [after_publish_req, emit_subscribed, hs, hvalid, and_self, if_true, after_accept]
    exact reread_near _ (by linarith) (by linarith)
  · simp only [after_publish_req, emit_subscribed, hs, hvalid, and_self, if_true, after_accept]
    exact reread_near _ hv3 hv4

/-- The round trip at the location (45.5, -122.6) on a subscribed start: the cache file holds the line
`45.500000 -122.600000` and the next start, once subscribed, reads the pair back within
`10⁻⁶`. -/
theorem cache_round_trip_when_subscribed_witness :
    (cache_location env_ok world_45).files.lookup world_45.cache_file =
      some "45.500000 -122.600000\n" ∧
    ∃ w3, load_cache_location (bus env_ok 2) (next_start env_ok world_45) = some (0, w3) ∧
      |w3.state.current_loc.lat - 45.5| ≤ 1 / 10 ^ 6 ∧
      |w3.state.current_loc.lon - (-122.6)| ≤ 1 / 10 ^ 6 := by
  have h := cache_round_trip_when_subscribed env_ok 0 world_45 (next_start env_ok world_45)
    (by norm_num [world_45]) (by constructor <;> norm_num [world_45, env_ok]) rfl
    (by simp only [next_start, cache_location_cache_file]) (by simp [next_start])
  refine ⟨?_, h.2.2.2⟩
  rw [h.1, ← fmt_lf_lf_eq]
  exact congrArg some (congrArg String.mk fmt_example)

/-! ## The cache fallback and the provider callback -/

/-- Publishing a request adds exactly one `LOCATION_REQ` to the trace, whether or not it is
delivered. -/
theorem after_publish_req_requests (a b : ℚ) (w w0 : World) (pre : List Effect)
    (ht : w0.trace = w.trace ++ pre) (hp : pre.filter is_request = []) :
    (events_since w (after_publish_req a b w0)).filter is_request =
      [Effect.M_PUB (request_msg w0 a b) w0.state.current_loc] := by
  unfold after_publish_req
  split_ifs
  · rw [events_since_append w _ (pre ++ [Effect.M_PUB (request_msg w0 a b) w0.state.current_loc,
        Effect.M_PUB { type := mod_msg_types.LOC_UPD,
                       loc := { old := w0.state.current_loc, new := ⟨a, b⟩ } }
          w0.state.current_loc]) (by simp [after_accept, emit, ht])]
    simp [List.filter_append, hp, is_request, request_msg, List.filter_cons]
  · rw [events_since_append w _ (pre ++ [Effect.M_PUB (request_msg w0 a b) w0.state.current_loc])
      (by simp [emit, ht])]
    simp [List.filter_append, hp, is_request, request_msg, List.filter_cons]

/-- C11: `load_cache_location` returns 0 exactly when the cache file can be opened and
`fscanf` reads two numbers from it. In that case exactly one `LOCATION_REQ` is
published, with the current shared location as old and the pair read as new; the shared
location is left alone or written by the handling of that request, and an unsubscribed
module keeps its whole state. In every other case the result is -1, the only event is
the attempt to open the file, nothing is published and the state is unchanged. -/
theorem load_cache_location_result (E : Env) (fuel : Nat) (w : World) :
    ∃ c, load_cache_location (bus E (fuel + 2)) w = some c ∧
      (c.1 = 0 ↔ ∃ text, fopen_r w w.cache_file = some text ∧
        (fscanf_lf_lf text.data).1 = 2) ∧
      if c.1 = 0 then
        ∃ text, fopen_r w w.cache_file = some text ∧
          (events_since w c.2).filter is_request =
            [Effect.M_PUB
              { type := mod_msg_types.LOCATION_REQ,
                loc := { old := w.state.current_loc,
                         new := { lat := (fscanf_lf_lf text.data).2.1,
                                  lon := (fscanf_lf_lf text.data).2.2 } } }
              w.state.current_loc] ∧
          (c.2.state.current_loc = w.state.current_loc ∨ written_by_request w c.2) ∧
          (mod_msg_types.LOCATION_REQ ∉ w.subscribed → c.2.state = w.state)
      else
        c.1 = -1 ∧ c.2 = emit (Effect.fopen w.cache_file "r") w ∧
        (events_since w c.2).filter is_publish = [] ∧ c.2.state = w.state := by
  obtain ⟨c1, hc1, hwr⟩ := load_cache_location_after E fuel w w [] (by simp) rfl
  have heq := load_cache_location_eq E fuel w
  rw [hc1] at heq
  have hc : c1 = _ := Option.some.inj heq
  refine ⟨c1, hc1, ?_⟩
  unfold fopen_r
  cases hl : w.files.lookup w.cache_file with
  | none =>
    rw [hl] at hc
    subst hc
    refine ⟨by simp, ?_⟩
    rw [if_neg (by simp)]
    exact ⟨rfl, rfl, by rw [events_since_append w _ [Effect.fopen w.cache_file "r"] rfl]; rfl, rfl⟩
  | some text =>
    rw [hl] at hc
    by_cases h2 : (fscanf_lf_lf text.data).1 = 2
    · simp only [h2, if_true] at hc
      subst hc
      refine ⟨by simp [h2], ?_⟩
      rw [if_pos rfl]
      refine ⟨text, rfl, ?_, hwr, ?_⟩
      · exact after_publish_req_requests _ _ w (emit (Effect.fopen w.cache_file "r") w)
          [Effect.fopen w.cache_file "r"] rfl rfl
      · intro hs
        simp [after_publish_req, hs, emit]
    · simp only [h2, if_false] at hc
      subst hc
      refine ⟨by simp [h2], ?_⟩
      rw [if_neg (by simp)]
      exact ⟨rfl, rfl, by rw [events_since_append w _ [Effect.fopen w.cache_file "r"] rfl]; rfl,
        rfl⟩

/-- C12: with a latitude configured and the longitude undefined, and no fixed day events,
`evaluate` is true, yet `on_geoclue_new_location` drops a provider location whose two
properties were both read: it returns 0 with the world unchanged, nothing published. -/
theorem on_geoclue_new_location_drops_while_evaluate_true :
    evaluate env_provider world_lat_only = true ∧
    env_provider.get_property (lat_args signal_example.new_location) = (0, 48.1) ∧
    env_provider.get_property (lon_args signal_example.new_location) = (0, 11.5) ∧
    on_geoclue_new_location env_provider 2 signal_example world_lat_only =
      some (0, world_lat_only) := by
  refine ⟨by simp [evaluate, world_lat_only, env_provider, env_ok], ?_, ?_, ?_⟩
  · simp [env_provider, lat_args]
  · simp [env_provider, lon_args]
  · have h : ¬ (world_lat_only.conf.loc.lat = env_provider.LAT_UNDEFINED ∧
        world_lat_only.conf.loc.lon = env_provider.LON_UNDEFINED) := by
      simp [world_lat_only, env_provider, env_ok]
      norm_num
    simp only [on_geoclue_new_location, h, if_false]

/-! ## The configuration file -/

theorem lookup_none_of_not_mem (root : config_t) (name : String)
    (h : name ∉ root.map Prod.fst) : root.lookup name = none := by
  rw [List.lookup_eq_none_iff]
  intro p hp
  simp only [bne_iff_ne, ne_eq]
  intro hn
  exact h (List.mem_map.mpr ⟨p, hp, hn.symm⟩)

theorem add_scalar_fresh (name : String) (type : config_type) (v : config_value)
    (st : store_st) (h : name ∉ st.root.map Prod.fst) :
    add_scalar name type v st =
      { root := st.root ++ [(name, config_setting_t.value v)],
        calls := st.calls ++ [{ name := name, type := type, elem := none }] } := by
  simp [add_scalar, lookup_none_of_not_mem st.root name h]

theorem add_array_fresh (name : String) (elem : config_type) (elems : List config_value)
    (st : store_st) (h : name ∉ st.root.map Prod.fst) :
    add_array name elem elems st =
      { root := st.root ++ [(name, config_setting_t.array elems)],
        calls := st.calls ++
          [{ name := name, type := config_type.CONFIG_TYPE_ARRAY, elem := some elem }] } := by
  simp [add_array, lookup_none_of_not_mem st.root name h]

/-- The pipeline of `store_config` adds every setting it asks for: no name comes twice. -/
theorem store_settings_eq (E : Env) (S : conf_env) (c : full_conf_t) :
    store_settings E S c = { root := stored_root E S c, calls := stored_calls E c } := by
  unfold store_settings stored_root stored_calls
  simp only [add_int, add_bool, add_float, add_string]
  by_cases h : c.loc.lat ≠ E.LAT_UNDEFINED ∧ c.loc.lon ≠ E.LON_UNDEFINED
  · simp only [if_pos h]
    simp [add_scalar_fresh, add_array_fresh, stored_head, stored_loc, stored_tail,
      stored_calls_head, stored_calls_loc, stored_calls_tail]
  · simp only [if_neg h]
    simp [add_scalar_fresh, add_array_fresh, stored_head, stored_loc, stored_tail,
      stored_calls_head, stored_calls_loc, stored_calls_tail]

theorem load_elems_succ {α : Type} (n : Nat) (get : Nat → α) (a : List α) :
    load_elems (n + 1) get a =
      if n < (load_elems n get a).1.length then
        ((load_elems n get a).1.set n (get n), (load_elems n get a).2)
      else ((load_elems n get a).1, true) := by
  simp [load_elems, List.range_succ, List.foldl_append]

/-- The copying loop stays inside an array that is long enough, and leaves the first `n`
elements replaced and the others as they were. -/
theorem load_elems_spec {α : Type} (get : Nat → α) (a : List α) :
    ∀ n, n ≤ a.length →
      load_elems n get a = ((List.range n).map get ++ a.drop n, false) := by
  intro n
  induction n with
  | zero => intro _; simp [load_elems]
  | succ k ih =>
    intro hk
    have h1 := ih (by omega)
    rw [load_elems_succ, h1]
    have hlen : k < ((List.range k).map get ++ a.drop k).length := by
      simp
      omega
    rw [if_pos hlen]
    have hd : a.drop k = a[k] :: a.drop (k + 1) := by
      rw [List.drop_eq_getElem_cons]
    simp only [Prod.mk.injEq, and_true]
    rw [hd, List.set_append_right _ _ (by simp)]
    simp only [List.length_map, List.length_range, Nat.sub_self, List.set_cons_zero,
      List.range_succ, List.map_append, List.map_cons, List.map_nil, List.append_assoc,
      List.singleton_append]

theorem load_elems_length {α : Type} (get : Nat → α) (a : List α) (n : Nat)
    (h : n ≤ a.length) : (load_elems n get a).1.length = a.length := by
  rw [load_elems_spec get a n h]
  simp
  omega

theorem read_elems_eq_take {α : Type} [Inhabited α] (n : Nat) (a : List α)
    (h : n ≤ a.length) : read_elems n a = a.take n := by
  apply List.ext_getElem
  · simp [read_elems, h]
  · intro i h1 h2
    simp [read_elems] at h1 ⊢
    rw [List.getElem?_eq_getElem (by omega)]
    rfl

theorem read_elems_self {α : Type} [Inhabited α] (a : List α) :
    read_elems a.length a = a := by
  rw [read_elems_eq_take _ _ (le_refl _), List.take_length]

/-- One block of `read_config` for an array of fixed size, on an array of that length:
nothing is written outside, the length stays, and the content is as specified. -/
theorem load_fixed_spec {α : Type} (root : config_t) (name : String) (size : Nat)
    (get : config_setting_t → Nat → α) (a : List α) (h : a.length = size) :
    (load_fixed root name size get a).2 = false ∧
    (load_fixed root name size get a).1.length = size ∧
    fixed_array_spec (root.lookup name) size get a (load_fixed root name size get a).1 := by
  subst h
  unfold load_fixed config_setting_get_member fixed_array_spec
  cases root.lookup name with
  | none => exact ⟨rfl, rfl, rfl⟩
  | some p =>
    dsimp only
    by_cases hl : config_setting_length p = a.length
    · simp only [if_pos hl]
      rw [load_elems_spec (get p) a a.length (le_refl _)]
      simp
    · simp [hl]

/-- One block of `read_config` for regression points, on an array of `MAX_SIZE_POINTS`
elements: nothing is written outside, the length stays, count and content are as
specified, and a count within the bound stays within the bound. -/
theorem load_points_spec (S : conf_env) (root : config_t) (name : String) (num : Int)
    (a : List ℚ) (h : a.length = S.MAX_SIZE_POINTS) :
    (load_points S root name num a).2.2 = false ∧
    (load_points S root name num a).2.1.length = S.MAX_SIZE_POINTS ∧
    regression_points_spec S (root.lookup name) num a
      (load_points S root name num a).1 (load_points S root name num a).2.1 ∧
    (num ≤ S.MAX_SIZE_POINTS → (load_points S root name num a).1 ≤ S.MAX_SIZE_POINTS) := by
  unfold load_points config_setting_get_member regression_points_spec
  cases root.lookup name with
  | none => exact ⟨rfl, h, ⟨rfl, rfl⟩, fun hn => hn⟩
  | some p =>
    dsimp only
    by_cases hl : 0 < config_setting_length p ∧ config_setting_length p ≤ S.MAX_SIZE_POINTS
    · simp only [if_pos hl]
      rw [load_elems_spec (config_setting_get_float_elem p) a (config_setting_length p)
        (by omega)]
      refine ⟨rfl, ?_, ⟨trivial, rfl⟩, fun _ => by exact_mod_cast hl.2⟩
      simp
      omega
    · simp only [if_neg hl]
      exact ⟨trivial, h, ⟨trivial, trivial⟩, fun hn => hn⟩

theorem stored_names_subset (E : Env) (c : full_conf_t) :
    ∀ k ∈ (stored_calls E c).map (fun s => s.name),
      k ∈ read_config_lookups.map (fun s => s.name) := by
  unfold stored_calls
  by_cases h : c.loc.lat ≠ E.LAT_UNDEFINED ∧ c.loc.lon ≠ E.LON_UNDEFINED
  · rw [if_pos h]
    decide
  · rw [if_neg h]
    decide

theorem stored_names_missing (E : Env) (c : full_conf_t) :
    ∀ k ∈ read_config_lookups.map (fun s => s.name),
      (k ∉ (stored_calls E c).map (fun s => s.name) ↔
        k ∈ never_stored ∨
        ((k = "latitude" ∨ k = "longitude") ∧
          ¬ (c.loc.lat ≠ E.LAT_UNDEFINED ∧ c.loc.lon ≠ E.LON_UNDEFINED))) := by
  unfold stored_calls
  by_cases h : c.loc.lat ≠ E.LAT_UNDEFINED ∧ c.loc.lon ≠ E.LON_UNDEFINED
  · rw [if_pos h]
    simp only [eq_true h, not_true_eq_false, and_false, or_false]
    decide
  · rw [if_neg h]
    simp only [eq_false h, not_false_eq_true, and_true]
    decide

theorem stored_types_agree (E : Env) (c : full_conf_t) :
    ∀ s ∈ stored_calls E c, s.name ≠ "no_smooth_dimmer_transition" →
      s ∈ read_config_lookups := by
  unfold stored_calls
  by_cases h : c.loc.lat ≠ E.LAT_UNDEFINED ∧ c.loc.lon ≠ E.LON_UNDEFINED
  · rw [if_pos h]
    decide
  · rw [if_neg h]
    decide

theorem strncpy_fits (s : String) (n : Nat) (h : s.length ≤ n) : strncpy s n = s := by
  unfold strncpy
  rw [List.take_of_length_le h]

theorem get_float_elems_map (l : List ℚ) :
    (List.range l.length).map
      (config_setting_get_float_elem (config_setting_t.array (l.map config_value.float))) = l := by
  apply List.ext_getElem
  · simp
  · intro i h1 h2
    simp at h1
    simp [config_setting_get_float_elem, config_setting_get_elem, h1]

theorem get_int_elems_map (l : List Int) :
    (List.range l.length).map
      (config_setting_get_int_elem (config_setting_t.array (l.map config_value.int))) = l := by
  apply List.ext_getElem
  · simp
  · intro i h1 h2
    simp at h1
    simp [config_setting_get_int_elem, config_setting_get_elem, h1]

theorem get_float_elems_of_bool (l : List Bool) (n : Nat) :
    (List.range n).map (fun i => double_to_int
      (config_setting_get_float_elem (config_setting_t.array (l.map config_value.bool)) i)) =
      List.replicate n 0 := by
  apply List.ext_getElem
  · simp
  · intro i h1 h2
    simp at h1
    simp only [List.getElem_map, List.getElem_range, List.getElem_replicate,
      config_setting_get_float_elem, config_setting_get_elem]
    cases h : (l.map config_value.bool).get? i with
    | none => simp [double_to_int]
    | some v =>
      simp only [List.get?_eq_getElem?, List.getElem?_map, Option.map_eq_some'] at h
      obtain ⟨b, _, hb⟩ := h
      subst hb
      simp [double_to_int]

/-- Reading back an array of floats that was stored from an array of the declared
length. -/
theorem load_fixed_stored_float (root : config_t) (name : String) (n : Nat) (a a0 : List ℚ)
    (h : root.lookup name =
      some (config_setting_t.array ((read_elems n a).map config_value.float)))
    (ha : a.length = n) (ha0 : a0.length = n) :
    load_fixed root name n config_setting_get_float_elem a0 = (a, false) := by
  subst ha
  rw [read_elems_self] at h
  unfold load_fixed config_setting_get_member
  rw [h]
  simp only [config_setting_length, List.length_map, if_true]
  rw [load_elems_spec _ _ _ (by omega), get_float_elems_map, ← ha0, List.drop_length,
    List.append_nil]

/-- Reading back an array of integers that was stored from an array of the declared
length. -/
theorem load_fixed_stored_int (root : config_t) (name : String) (n : Nat) (a a0 : List Int)
    (h : root.lookup name =
      some (config_setting_t.array ((read_elems n a).map config_value.int)))
    (ha : a.length = n) (ha0 : a0.length = n) :
    load_fixed root name n config_setting_get_int_elem a0 = (a, false) := by
  subst ha
  rw [read_elems_self] at h
  unfold load_fixed config_setting_get_member
  rw [h]
  simp only [config_setting_length, List.length_map, if_true]
  rw [load_elems_spec _ _ _ (by omega), get_int_elems_map, ← ha0, List.drop_length,
    List.append_nil]

/-- Reading back regression points that were stored with a count `num`, `0 < num` and
`num ≤ MAX_SIZE_POINTS`: the count and the first `num` points are restored. -/
theorem load_points_stored (S : conf_env) (root : config_t) (name : String) (num num0 : Int)
    (a a0 : List ℚ)
    (h : root.lookup name =
      some (config_setting_t.array ((read_elems num.toNat a).map config_value.float)))
    (hnum : 0 < num ∧ num ≤ S.MAX_SIZE_POINTS)
    (ha : a.length = S.MAX_SIZE_POINTS) (ha0 : a0.length = S.MAX_SIZE_POINTS) :
    load_points S root name num0 a0 =
      (num, a.take num.toNat ++ a0.drop num.toNat, false) := by
  have hn : num.toNat ≤ S.MAX_SIZE_POINTS := by omega
  have hpos : 0 < num.toNat := by omega
  rw [read_elems_eq_take _ _ (by omega)] at h
  have hlen : (a.take num.toNat).length = num.toNat := by
    rw [List.length_take]
    omega
  unfold load_points config_setting_get_member
  rw [h]
  simp only [config_setting_length, List.length_map, hlen]
  rw [if_pos ⟨hpos, hn⟩, load_elems_spec _ _ _ (by omega)]
  have e := get_float_elems_map (a.take num.toNat)
  rw [hlen] at e
  rw [e, Int.toNat_of_nonneg (by omega)]

theorem stored_root_arrays (E : Env) (S : conf_env) (c : full_conf_t) :
    (stored_root E S c).lookup "no_smooth_dimmer_transition" =
      some (config_setting_t.array ((read_elems S.SIZE_DIM c.no_smooth_dimmer).map
        (fun x => config_value.bool (decide (x ≠ 0))))) ∧
    (stored_root E S c).lookup "dimmer_trans_steps" =
      some (config_setting_t.array
        ((read_elems S.SIZE_DIM c.dimmer_trans_step).map config_value.float)) ∧
    (stored_root E S c).lookup "dimmer_trans_timeouts" =
      some (config_setting_t.array
        ((read_elems S.SIZE_DIM c.dimmer_trans_timeout).map config_value.int)) ∧
    (stored_root E S c).lookup "ac_backlight_regression_points" =
      some (config_setting_t.array
        ((read_elems c.num_points.ON_AC.toNat c.regression_points.ON_AC).map
          config_value.float)) ∧
    (stored_root E S c).lookup "batt_backlight_regression_points" =
      some (config_setting_t.array
        ((read_elems c.num_points.ON_BATTERY.toNat c.regression_points.ON_BATTERY).map
          config_value.float)) ∧
    (stored_root E S c).lookup "dpms_timeouts" =
      some (config_setting_t.array ((read_elems S.SIZE_AC c.dpms_timeout).map config_value.int)) ∧
    (stored_root E S c).lookup "ac_capture_timeouts" =
      some (config_setting_t.array
        ((read_elems (S.SIZE_STATES + 1) c.timeout.ON_AC).map config_value.int)) ∧
    (stored_root E S c).lookup "batt_capture_timeouts" =
      some (config_setting_t.array
        ((read_elems (S.SIZE_STATES + 1) c.timeout.ON_BATTERY).map config_value.int)) ∧
    (stored_root E S c).lookup "dimmer_timeouts" =
      some (config_setting_t.array
        ((read_elems S.SIZE_AC c.dimmer_timeout).map config_value.int)) ∧
    (stored_root E S c).lookup "gamma_temp" =
      some (config_setting_t.array ((read_elems S.SIZE_STATES c.temp).map config_value.int)) ∧
    (stored_root E S c).lookup "screen_timeouts" =
      some (config_setting_t.array
        ((read_elems S.SIZE_AC c.screen_timeout).map config_value.int)) := by
  unfold stored_root
  by_cases h : c.loc.lat ≠ E.LAT_UNDEFINED ∧ c.loc.lon ≠ E.LON_UNDEFINED
  · rw [if_pos h]
    simp [stored_head, stored_loc, stored_tail, List.lookup]
  · rw [if_neg h]
    simp [stored_head, stored_loc, stored_tail, List.lookup]

/-- Reading back the array `store_config` writes with `config_setting_set_bool_elem`
through `config_setting_get_float_elem`: no element is a float, every one reads as 0. -/
theorem load_fixed_stored_bool (root : config_t) (name : String) (n : Nat) (a a0 : List Int)
    (h : root.lookup name =
      some (config_setting_t.array ((read_elems n a).map
        (fun x => config_value.bool (decide (x ≠ 0))))))
    (ha0 : a0.length = n) :
    load_fixed root name n
      (fun p i => double_to_int (config_setting_get_float_elem p i)) a0 =
      (List.replicate n 0, false) := by
  have e : (read_elems n a).map (fun x => config_value.bool (decide (x ≠ 0))) =
      ((read_elems n a).map (fun x => decide (x ≠ 0))).map config_value.bool := by
    rw [List.map_map]
    rfl
  have hl : (read_elems n a).length = n := by simp [read_elems]
  unfold load_fixed config_setting_get_member
  rw [h]
  simp only [config_setting_length, List.length_map, hl, if_true]
  rw [load_elems_spec _ _ _ (by omega), e, get_float_elems_of_bool, ← ha0, List.drop_length,
    List.append_nil]

/-- The configuration `read_config` gives from the settings `store_config` writes. -/
theorem load_conf_stored (E : Env) (S : conf_env) (c c0 : full_conf_t)
    (hwf : conf_wf S c) (hwf0 : conf_wf S c0) (hfit : strings_fit S c)
    (hac : 0 < c.num_points.ON_AC ∧ c.num_points.ON_AC ≤ S.MAX_SIZE_POINTS)
    (hbatt : 0 < c.num_points.ON_BATTERY ∧ c.num_points.ON_BATTERY ≤ S.MAX_SIZE_POINTS) :
    load_conf S (stored_root E S c) c0 =
      ({ c with
          no_backlight := c0.no_backlight, no_gamma := c0.no_gamma,
          no_dimmer := c0.no_dimmer, no_dpms := c0.no_dpms, no_screen := c0.no_screen,
          loc := if c.loc.lat ≠ E.LAT_UNDEFINED ∧ c.loc.lon ≠ E.LON_UNDEFINED then c.loc
                 else c0.loc,
          no_smooth_dimmer := List.replicate S.SIZE_DIM 0,
          regression_points :=
            { ON_AC := c.regression_points.ON_AC.take c.num_points.ON_AC.toNat ++
                c0.regression_points.ON_AC.drop c.num_points.ON_AC.toNat,
              ON_BATTERY :=
                c.regression_points.ON_BATTERY.take c.num_points.ON_BATTERY.toNat ++
                  c0.regression_points.ON_BATTERY.drop c.num_points.ON_BATTERY.toNat } },
        false) := by
  obtain ⟨w1, w2, w3, w4, w5, w6, w7, w8, w9, w10, w11⟩ := hwf
  obtain ⟨v1, v2, v3, v4, v5, v6, v7, v8, v9, v10, v11⟩ := hwf0
  obtain ⟨f1, f2, f3, f4, f5⟩ := hfit
  obtain ⟨k1, k2, k3, k4, k5, k6, k7, k8, k9, k10, k11⟩ := stored_root_arrays E S c
  have a1 := load_fixed_stored_bool _ _ _ c.no_smooth_dimmer c0.no_smooth_dimmer k1 v1
  have a2 := load_fixed_stored_float _ _ _ _ c0.dimmer_trans_step k2 w2 v2
  have a3 := load_fixed_stored_int _ _ _ _ c0.dimmer_trans_timeout k3 w3 v3
  have a4 := load_points_stored S _ _ _ c0.num_points.ON_AC _ c0.regression_points.ON_AC
    k4 hac w4 v4
  have a5 := load_points_stored S _ _ _ c0.num_points.ON_BATTERY _
    c0.regression_points.ON_BATTERY k5 hbatt w5 v5
  have a6 := load_fixed_stored_int _ _ _ _ c0.dpms_timeout k6 w6 v6
  have a7 := load_fixed_stored_int _ _ _ _ c0.timeout.ON_AC k7 w7 v7
  have a8 := load_fixed_stored_int _ _ _ _ c0.timeout.ON_BATTERY k8 w8 v8
  have a9 := load_fixed_stored_int _ _ _ _ c0.dimmer_timeout k9 w9 v9
  have a10 := load_fixed_stored_int _ _ _ _ c0.temp k10 w10 v10
  have a11 := load_fixed_stored_int _ _ _ _ c0.screen_timeout k11 w11 v11
  unfold load_conf
  simp only [a1, a2, a3, a4, a5, a6, a7, a8, a9, a10, a11]
  unfold stored_root
  by_cases h : c.loc.lat ≠ E.LAT_UNDEFINED ∧ c.loc.lon ≠ E.LON_UNDEFINED
  · simp only [if_pos h]
    simp [stored_head, stored_loc, stored_tail, List.lookup, config_lookup_int,
      config_lookup_bool, config_lookup_float, config_lookup_string, strncpy_fits, f1, f2, f3,
      f4, f5]
  · simp only [if_neg h]
    simp [stored_head, stored_loc, stored_tail, List.lookup, config_lookup_int,
      config_lookup_bool, config_lookup_float, config_lookup_string, strncpy_fits, f1, f2, f3,
      f4, f5]

theorem read_config_config_file (E : Env) (S : conf_env) (fs : List (String × config_file_t))
    (file : CONFIG) (config_file : String) (c : full_conf_t) :
    (read_config E S fs file config_file c).config_file =
      if config_file.length = 0 then init_config_file E S file config_file
      else config_file := by
  unfold read_config
  dsimp only
  split <;> rfl

theorem read_config_parsed (E : Env) (S : conf_env) (fs : List (String × config_file_t))
    (file : CONFIG) (config_file : String) (c : full_conf_t) (cfg : config_t)
    (h : fs.lookup (if config_file.length = 0 then init_config_file E S file config_file
      else config_file) = some (config_file_t.parsed cfg)) :
    read_config E S fs file config_file c =
      { r := 0,
        config_file := if config_file.length = 0 then init_config_file E S file config_file
          else config_file,
        conf := (load_conf S cfg c).1, fault := (load_conf S cfg c).2 } := by
  unfold read_config
  dsimp only
  rw [h]

theorem read_config_not_parsed (E : Env) (S : conf_env) (fs : List (String × config_file_t))
    (file : CONFIG) (config_file : String) (c : full_conf_t)
    (h : ∀ cfg, fs.lookup (if config_file.length = 0 then init_config_file E S file config_file
      else config_file) ≠ some (config_file_t.parsed cfg)) :
    read_config E S fs file config_file c =
      { r := -1,
        config_file := if config_file.length = 0 then init_config_file E S file config_file
          else config_file,
        conf := c, fault := false } := by
  unfold read_config
  dsimp only
  split
  · rfl
  · rfl
  · rename_i cfg hc
    exact absurd hc (h cfg)

/-- C13: on a configuration whose arrays have their declared lengths, `read_config`
writes no element outside its array and keeps every length; a count of regression
points within `MAX_SIZE_POINTS` stays within it; and when the file was parsed each
array is overwritten only if the file has it with an acceptable length (exactly the
expected one, or for regression points `0 < len ≤ MAX_SIZE_POINTS`, the count being
set to `len`), and is otherwise left as it was. When the file is missing or
malformed the configuration is untouched. -/
theorem read_config_arrays_within_bounds (E : Env) (S : conf_env)
    (fs : List (String × config_file_t)) (file : CONFIG) (config_file : String)
    (c : full_conf_t) (hwf : conf_wf S c) :
    (read_config E S fs file config_file c).fault = false ∧
    conf_wf S (read_config E S fs file config_file c).conf ∧
    (c.num_points.ON_AC ≤ S.MAX_SIZE_POINTS →
      (read_config E S fs file config_file c).conf.num_points.ON_AC ≤ S.MAX_SIZE_POINTS) ∧
    (c.num_points.ON_BATTERY ≤ S.MAX_SIZE_POINTS →
      (read_config E S fs file config_file c).conf.num_points.ON_BATTERY ≤
        S.MAX_SIZE_POINTS) ∧
    match fs.lookup (read_config E S fs file config_file c).config_file with
    | some (config_file_t.parsed cfg) =>
      fixed_array_spec (cfg.lookup "no_smooth_dimmer_transition") S.SIZE_DIM
        (fun p i => double_to_int (config_setting_get_float_elem p i))
        c.no_smooth_dimmer (read_config E S fs file config_file c).conf.no_smooth_dimmer ∧
      fixed_array_spec (cfg.lookup "dimmer_trans_steps") S.SIZE_DIM
        config_setting_get_float_elem
        c.dimmer_trans_step (read_config E S fs file config_file c).conf.dimmer_trans_step ∧
      fixed_array_spec (cfg.lookup "dimmer_trans_timeouts") S.SIZE_DIM
        config_setting_get_int_elem c.dimmer_trans_timeout
        (read_config E S fs file config_file c).conf.dimmer_trans_timeout ∧
      regression_points_spec S (cfg.lookup "ac_backlight_regression_points")
        c.num_points.ON_AC c.regression_points.ON_AC
        (read_config E S fs file config_file c).conf.num_points.ON_AC
        (read_config E S fs file config_file c).conf.regression_points.ON_AC ∧
      regression_points_spec S (cfg.lookup "batt_backlight_regression_points")
        c.num_points.ON_BATTERY c.regression_points.ON_BATTERY
        (read_config E S fs file config_file c).conf.num_points.ON_BATTERY
        (read_config E S fs file config_file c).conf.regression_points.ON_BATTERY ∧
      fixed_array_spec (cfg.lookup "dpms_timeouts") S.SIZE_AC config_setting_get_int_elem
        c.dpms_timeout (read_config E S fs file config_file c).conf.dpms_timeout ∧
      fixed_array_spec (cfg.lookup "ac_capture_timeouts") (S.SIZE_STATES + 1)
        config_setting_get_int_elem
        c.timeout.ON_AC (read_config E S fs file config_file c).conf.timeout.ON_AC ∧
      fixed_array_spec (cfg.lookup "batt_capture_timeouts") (S.SIZE_STATES + 1)
        config_setting_get_int_elem
        c.timeout.ON_BATTERY (read_config E S fs file config_file c).conf.timeout.ON_BATTERY ∧
      fixed_array_spec (cfg.lookup "dimmer_timeouts") S.SIZE_AC config_setting_get_int_elem
        c.dimmer_timeout (read_config E S fs file config_file c).conf.dimmer_timeout ∧
      fixed_array_spec (cfg.lookup "gamma_temp") S.SIZE_STATES config_setting_get_int_elem
        c.temp (read_config E S fs file config_file c).conf.temp ∧
      fixed_array_spec (cfg.lookup "screen_timeouts") S.SIZE_AC config_setting_get_int_elem
        c.screen_timeout (read_config E S fs file config_file c).conf.screen_timeout
    | _ => (read_config E S fs file config_file c).conf = c := by
  have hwf0 := hwf
  obtain ⟨w1, w2, w3, w4, w5, w6, w7, w8, w9, w10, w11⟩ := hwf
  rw [read_config_config_file]
  cases hf : fs.lookup (if config_file.length = 0 then init_config_file E S file config_file
      else config_file) with
  | none =>
    rw [read_config_not_parsed E S fs file config_file c (by simp [hf])]
    exact ⟨rfl, hwf0, id, id, rfl⟩
  | some f =>
    cases f with
    | malformed =>
      rw [read_config_not_parsed E S fs file config_file c (by simp [hf])]
      exact ⟨rfl, hwf0, id, id, rfl⟩
    | parsed cfg =>
      rw [read_config_parsed E S fs file config_file c cfg hf]
      dsimp only
      have h1 := load_fixed_spec cfg "no_smooth_dimmer_transition" S.SIZE_DIM
        (fun p i => double_to_int (config_setting_get_float_elem p i)) c.no_smooth_dimmer w1
      have h2 := load_fixed_spec cfg "dimmer_trans_steps" S.SIZE_DIM
        config_setting_get_float_elem c.dimmer_trans_step w2
      have h3 := load_fixed_spec cfg "dimmer_trans_timeouts" S.SIZE_DIM
        config_setting_get_int_elem c.dimmer_trans_timeout w3
      have h4 := load_points_spec S cfg "ac_backlight_regression_points"
        c.num_points.ON_AC c.regression_points.ON_AC w4
      have h5 := load_points_spec S cfg "batt_backlight_regression_points"
        c.num_points.ON_BATTERY c.regression_points.ON_BATTERY w5
      have h6 := load_fixed_spec cfg "dpms_timeouts" S.SIZE_AC
        config_setting_get_int_elem c.dpms_timeout w6
      have h7 := load_fixed_spec cfg "ac_capture_timeouts" (S.SIZE_STATES + 1)
        config_setting_get_int_elem c.timeout.ON_AC w7
      have h8 := load_fixed_spec cfg "batt_capture_timeouts" (S.SIZE_STATES + 1)
        config_setting_get_int_elem c.timeout.ON_BATTERY w8
      have h9 := load_fixed_spec cfg "dimmer_timeouts" S.SIZE_AC
        config_setting_get_int_elem c.dimmer_timeout w9
      have h10 := load_fixed_spec cfg "gamma_temp" S.SIZE_STATES
        config_setting_get_int_elem c.temp w10
      have h11 := load_fixed_spec cfg "screen_timeouts" S.SIZE_AC
        config_setting_get_int_elem c.screen_timeout w11
      refine ⟨?_, ⟨h1.2.1, h2.2.1, h3.2.1, h4.2.1, h5.2.1, h6.2.1, h7.2.1, h8.2.1, h9.2.1,
        h10.2.1, h11.2.1⟩, h4.2.2.2, h5.2.2.2, h1.2.2, h2.2.2, h3.2.2, h4.2.2.1, h5.2.2.1,
        h6.2.2, h7.2.2, h8.2.2, h9.2.2, h10.2.2, h11.2.2⟩
      simp only [load_conf, h1.1, h2.1, h3.1, h4.1, h5.1, h6.1, h7.1, h8.1, h9.1, h10.1, h11.1,
        Bool.or_self]

/-- C13 at a file that sets the dimmer steps, has a `gamma_temp` of the wrong length and
four regression points for AC: nothing is written outside an array, the dimmer steps
are those of the file, the temperatures are untouched and the count for AC is 4. -/
theorem read_config_arrays_within_bounds_witness :
    conf_wf conf_env_example conf_example ∧
    (read_config env_ok conf_env_example fs_example CONFIG.LOCAL "" conf_example).fault =
      false ∧
    conf_wf conf_env_example
      (read_config env_ok conf_env_example fs_example CONFIG.LOCAL "" conf_example).conf ∧
    (read_config env_ok conf_env_example fs_example CONFIG.LOCAL "" conf_example).conf.temp =
      [6500, 4000] ∧
    (read_config env_ok conf_env_example fs_example CONFIG.LOCAL ""
      conf_example).conf.num_points.ON_AC = 4 := by
  have hwf : conf_wf conf_env_example conf_example := by
    simp [conf_wf, conf_env_example, conf_example]
  have h := read_config_arrays_within_bounds env_ok conf_env_example fs_example CONFIG.LOCAL ""
    conf_example hwf
  refine ⟨hwf, h.1, h.2.1, ?_, ?_⟩
  · rfl
  · rfl

/-! ## Storing the configuration and reading it back -/

/-- Reading the file `store_config` has just written parses the settings it added. -/
theorem read_stored_config (E : Env) (S : conf_env) (fs : List (String × config_file_t))
    (file : CONFIG) (c c0 : full_conf_t)
    (hw : S.config_write_file (init_config_file E S file "") = true) :
    (store_config E S fs file c).1 = 0 ∧
    read_config E S (store_config E S fs file c).2 file "" c0 =
      { r := 0, config_file := init_config_file E S file "",
        conf := (load_conf S (stored_root E S c) c0).1,
        fault := (load_conf S (stored_root E S c) c0).2 } := by
  have hs : store_config E S fs file c =
      (0, (init_config_file E S file "", config_file_t.parsed (stored_root E S c)) ::
        fs.filter (fun f => f.1 ≠ init_config_file E S file "")) := by
    unfold store_config
    simp only [hw, if_true, store_settings_eq]
  rw [hs]
  refine ⟨rfl, ?_⟩
  rw [read_config_parsed E S _ file "" c0 (stored_root E S c)
    (by simp [List.lookup])]
  simp

/-- C14, counterexample: `no_gamma` is looked up by `read_config` and never written by
`store_config`, and `no_smooth_dimmer_transition` is written as an array of booleans
and read as an array of floats. Storing `conf_stored` and reading the file back over
`conf_example` succeeds, yet `no_gamma` comes back false where true was stored and
`no_smooth_dimmer` comes back `[0, 0]` where `[1, 0]` was stored. -/
theorem stored_config_not_read_back :
    "no_gamma" ∈ read_config_lookups.map (fun s => s.name) ∧
    "no_gamma" ∉
      (store_settings env_ok conf_env_example conf_stored).calls.map (fun s => s.name) ∧
    ({ name := "no_smooth_dimmer_transition", type := config_type.CONFIG_TYPE_ARRAY,
       elem := some config_type.CONFIG_TYPE_BOOL } : setting_call) ∈
      (store_settings env_ok conf_env_example conf_stored).calls ∧
    ({ name := "no_smooth_dimmer_transition", type := config_type.CONFIG_TYPE_ARRAY,
       elem := some config_type.CONFIG_TYPE_FLOAT } : setting_call) ∈ read_config_lookups ∧
    (store_config env_ok conf_env_example [] CONFIG.LOCAL conf_stored).1 = 0 ∧
    (read_config env_ok conf_env_example
      (store_config env_ok conf_env_example [] CONFIG.LOCAL conf_stored).2
      CONFIG.LOCAL "" conf_example).r = 0 ∧
    conf_stored.no_gamma = true ∧
    (read_config env_ok conf_env_example
      (store_config env_ok conf_env_example [] CONFIG.LOCAL conf_stored).2
      CONFIG.LOCAL "" conf_example).conf.no_gamma = false ∧
    conf_stored.no_smooth_dimmer = [1, 0] ∧
    (read_config env_ok conf_env_example
      (store_config env_ok conf_env_example [] CONFIG.LOCAL conf_stored).2
      CONFIG.LOCAL "" conf_example).conf.no_smooth_dimmer = [0, 0] := by
  have hwf : conf_wf conf_env_example conf_stored := by
    simp [conf_wf, conf_env_example, conf_stored, conf_example]
  have hwf0 : conf_wf conf_env_example conf_example := by
    simp [conf_wf, conf_env_example, conf_example]
  have hfit : strings_fit conf_env_example conf_stored := by
    simp [strings_fit, conf_env_example, conf_stored, conf_example]
    decide
  have hr := read_stored_config env_ok conf_env_example [] CONFIG.LOCAL conf_stored
    conf_example rfl
  have hl := load_conf_stored env_ok conf_env_example conf_stored conf_example hwf hwf0 hfit
    (by decide) (by decide)
  rw [hr.2, hl, store_settings_eq]
  have hloc : conf_stored.loc.lat ≠ env_ok.LAT_UNDEFINED ∧
      conf_stored.loc.lon ≠ env_ok.LON_UNDEFINED := by
    constructor <;> norm_num [conf_stored, conf_example, env_ok]
  refine ⟨by decide, ?_, ?_, by decide, hr.1, rfl, rfl, rfl, rfl, rfl⟩
  · unfold stored_calls
    rw [if_pos hloc]
    decide
  · unfold stored_calls
    rw [if_pos hloc]
    decide

/-- C14, amended: every key `store_config` writes is looked up by `read_config`; the keys
looked up and not written are exactly the five flags of `never_stored`, and latitude
and longitude unless both are defined; every call of `store_config` other than the one
for `no_smooth_dimmer_transition` names the value type `read_config` asks for. When the
file is written, the arrays have their declared lengths, the strings fit their buffers
and both counts of regression points are positive and at most `MAX_SIZE_POINTS`,
reading the file back over a configuration `c0` succeeds and restores every field
stored under such a key, the location when it was stored; the location otherwise and
the five flags stay as they were in `c0`. -/
theorem store_config_read_config_agree (E : Env) (S : conf_env) (c : full_conf_t) :
    (∀ k ∈ (store_settings E S c).calls.map (fun s => s.name),
      k ∈ read_config_lookups.map (fun s => s.name)) ∧
    (∀ k ∈ read_config_lookups.map (fun s => s.name),
      (k ∉ (store_settings E S c).calls.map (fun s => s.name) ↔
        k ∈ never_stored ∨
        ((k = "latitude" ∨ k = "longitude") ∧
          ¬ (c.loc.lat ≠ E.LAT_UNDEFINED ∧ c.loc.lon ≠ E.LON_UNDEFINED)))) ∧
    (∀ s ∈ (store_settings E S c).calls, s.name ≠ "no_smooth_dimmer_transition" →
      s ∈ read_config_lookups) ∧
    (∀ (fs : List (String × config_file_t)) (file : CONFIG) (c0 : full_conf_t),
      S.config_write_file (init_config_file E S file "") = true →
      conf_wf S c → conf_wf S c0 → strings_fit S c →
      (0 < c.num_points.ON_AC ∧ c.num_points.ON_AC ≤ S.MAX_SIZE_POINTS) →
      (0 < c.num_points.ON_BATTERY ∧ c.num_points.ON_BATTERY ≤ S.MAX_SIZE_POINTS) →
      (store_config E S fs file c).1 = 0 ∧
      (read_config E S (store_config E S fs file c).2 file "" c0).r = 0 ∧
      (read_config E S (store_config E S fs file c).2 file "" c0).fault = false ∧
      restored_stored_fields c (read_config E S (store_config E S fs file c).2 file "" c0).conf ∧
      kept_flags c0 (read_config E S (store_config E S fs file c).2 file "" c0).conf ∧
      (read_config E S (store_config E S fs file c).2 file "" c0).conf.loc =
        if c.loc.lat ≠ E.LAT_UNDEFINED ∧ c.loc.lon ≠ E.LON_UNDEFINED then c.loc
        else c0.loc) := by
  rw [store_settings_eq]
  refine ⟨stored_names_subset E c, stored_names_missing E c, stored_types_agree E c, ?_⟩
  intro fs file c0 hw hwf hwf0 hfit hac hbatt
  have hr := read_stored_config E S fs file c c0 hw
  rw [hr.2, load_conf_stored E S c c0 hwf hwf0 hfit hac hbatt]
  have hla : (c.regression_points.ON_AC.take c.num_points.ON_AC.toNat).length =
      c.num_points.ON_AC.toNat := by
    rw [List.length_take, hwf.2.2.2.1]
    omega
  have hlb : (c.regression_points.ON_BATTERY.take c.num_points.ON_BATTERY.toNat).length =
      c.num_points.ON_BATTERY.toNat := by
    rw [List.length_take, hwf.2.2.2.2.1]
    omega
  refine ⟨hr.1, rfl, rfl, ?_, ⟨rfl, rfl, rfl, rfl, rfl⟩, rfl⟩
  unfold restored_stored_fields
  refine ⟨rfl, rfl, rfl, rfl, rfl, rfl, rfl, rfl, rfl, rfl, rfl, rfl, rfl, rfl, rfl, rfl, rfl,
    rfl, rfl, rfl, rfl, rfl, rfl, rfl, rfl, ?_, ?_, rfl, rfl, rfl, rfl, rfl⟩
  · exact List.take_left' hla
  · exact List.take_left' hlb

/-- C14, amended, at `conf_stored` written to the local file and read back over
`conf_example`: the write and the read succeed, the sensor name and the number of
captures are restored, and `no_gamma` stays as it was in `conf_example`. -/
theorem store_config_read_config_agree_witness :
    conf_wf conf_env_example conf_stored ∧ strings_fit conf_env_example conf_stored ∧
    (store_config env_ok conf_env_example [] CONFIG.LOCAL conf_stored).1 = 0 ∧
    (read_config env_ok conf_env_example
      (store_config env_ok conf_env_example [] CONFIG.LOCAL conf_stored).2
      CONFIG.LOCAL "" conf_example).r = 0 ∧
    (read_config env_ok conf_env_example
      (store_config env_ok conf_env_example [] CONFIG.LOCAL conf_stored).2
      CONFIG.LOCAL "" conf_example).conf.num_captures = 7 ∧
    (read_config env_ok conf_env_example
      (store_config env_ok conf_env_example [] CONFIG.LOCAL conf_stored).2
      CONFIG.LOCAL "" conf_example).conf.dev_name = "video0" ∧
    (read_config env_ok conf_env_example
      (store_config env_ok conf_env_example [] CONFIG.LOCAL conf_stored).2
      CONFIG.LOCAL "" conf_example).conf.no_gamma = false := by
  have hwf : conf_wf conf_env_example conf_stored := by
    simp [conf_wf, conf_env_example, conf_stored, conf_example]
  have hwf0 : conf_wf conf_env_example conf_example := by
    simp [conf_wf, conf_env_example, conf_example]
  have hfit : strings_fit conf_env_example conf_stored := by
    simp [strings_fit, conf_env_example, conf_stored, conf_example]
    decide
  have h := (store_config_read_config_agree env_ok conf_env_example conf_stored).2.2.2
    [] CONFIG.LOCAL conf_example rfl hwf hwf0 hfit (by decide) (by decide)
  have hs := h.2.2.2.1
  unfold restored_stored_fields at hs
  exact ⟨hwf, hfit, h.1, h.2.1, hs.1, hs.2.2.2.2.2.2.2.2.2.2.2.2.2.2.2.2.2.1,
    h.2.2.2.2.1.2.1⟩

end Clight
